import Mathlib

/-!
Shallow embedding of the entity-resolution core of `src/lib/linear/LinearService.ts`
(the `LinearService` class): the TTL cache, the UUID classifier, the four entity
resolvers, the collection fetchers, the not-found message builder, and the
create/update/search issue operations.

Modelling conventions:
* JavaScript `Date.now()` timestamps are `Nat` milliseconds, passed explicitly
  as a `now` argument.
* The two `Map<string, _>` fields (`cache`, `cacheExpiry`) are association
  lists with `Map.get` / `Map.set` / `Map.delete` counterparts.
* The remote Linear SDK client is a `Remote` record of oracles; a call that
  throws (network failure, entity not found by id) is an oracle returning
  `none`.  Every remote call an operation performs is recorded in an output
  trace (`List RemoteCall`), so "zero remote calls" and "no full-collection
  scan" are statable.
* `Promise.all` over independent resolutions is modelled as left-to-right
  sequential execution threading the shared cache; the claims here do not
  depend on the interleaving.
* Optional string inputs use `Option String`; JavaScript truthiness of a
  string (undefined and the empty string are falsy) is the `truthy` predicate.
-/

namespace Spellcast

/-- A Linear team record, the shape produced by `resolveTeam` / `getAllTeams`. -/
structure Team where
  id : String
  name : String
  key : String
deriving DecidableEq, Repr

/-- A Linear user record, the shape produced by `resolveUser` / `getAllUsers`. -/
structure User where
  id : String
  name : String
  email : String
  displayName : String
deriving DecidableEq, Repr

/-- A Linear project record, the shape produced by `resolveProject` / `getAllProjects`. -/
structure Project where
  id : String
  name : String
deriving DecidableEq, Repr

/-- A Linear workflow-state record, the shape produced by `resolveState` / `getAllStates`. -/
structure WorkflowState where
  id : String
  name : String
  type : String
  color : String
deriving DecidableEq, Repr

/-- An issue label, as embedded in issue responses. -/
structure Label where
  id : String
  name : String
  color : String
deriving DecidableEq, Repr

/-- The values the `LinearService` stores in its cache `Map`: single resolved
entities (one per entity kind) and full collections (from the `getAll*`
methods).  The TypeScript map is `Map<string, unknown>`; this inductive is the
union of the value shapes the class actually writes. -/
inductive CacheVal where
  | team : Team → CacheVal
  | user : User → CacheVal
  | project : Project → CacheVal
  | state : WorkflowState → CacheVal
  | teams : List Team → CacheVal
  | users : List User → CacheVal
  | projects : List Project → CacheVal
  | states : List WorkflowState → CacheVal
deriving DecidableEq, Repr

/-- `cached as { id: string; name: string; key: string }` — the unchecked cast
a resolver applies to a cache hit.  Only team values are ever written under a
`team:` key, so the cast is modelled as a partial projection. -/
def CacheVal.asTeam : CacheVal → Option Team
  | .team t => some t
  | _ => none

/-- Unchecked cast of a cache hit to a user record. -/
def CacheVal.asUser : CacheVal → Option User
  | .user u => some u
  | _ => none

/-- Unchecked cast of a cache hit to a project record. -/
def CacheVal.asProject : CacheVal → Option Project
  | .project p => some p
  | _ => none

/-- Unchecked cast of a cache hit to a workflow-state record. -/
def CacheVal.asState : CacheVal → Option WorkflowState
  | .state s => some s
  | _ => none

/-- Unchecked cast of a cache hit to a team collection. -/
def CacheVal.asTeams : CacheVal → Option (List Team)
  | .teams ts => some ts
  | _ => none

/-- Unchecked cast of a cache hit to a user collection. -/
def CacheVal.asUsers : CacheVal → Option (List User)
  | .users us => some us
  | _ => none

/-- Unchecked cast of a cache hit to a project collection. -/
def CacheVal.asProjects : CacheVal → Option (List Project)
  | .projects ps => some ps
  | _ => none

/-- Unchecked cast of a cache hit to a workflow-state collection. -/
def CacheVal.asStates : CacheVal → Option (List WorkflowState)
  | .states ss => some ss
  | _ => none

/-- `Map.prototype.get`: first value bound to the key, if any. -/
def mapGet {α : Type} : List (String × α) → String → Option α
  | [], _ => none
  | (k, v) :: rest, key => if k = key then some v else mapGet rest key

/-- `Map.prototype.set`: replace the binding for the key, or append one. -/
def mapSet {α : Type} : List (String × α) → String → α → List (String × α)
  | [], key, v => [(key, v)]
  | (k, w) :: rest, key, v =>
      if k = key then (key, v) :: rest else (k, w) :: mapSet rest key v

/-- `Map.prototype.delete`: remove the binding for the key. -/
def mapDelete {α : Type} : List (String × α) → String → List (String × α)
  | [], _ => []
  | (k, w) :: rest, key =>
      if k = key then mapDelete rest key else (k, w) :: mapDelete rest key

/-- `CACHE_TTL = 5 * 60 * 1000` — five minutes in milliseconds. -/
def CACHE_TTL : Nat := 5 * 60 * 1000

/-- The two cache maps of `LinearService`: `cache` holds the values,
`cacheExpiry` the absolute expiry timestamps. -/
structure LinearCache where
  cache : List (String × CacheVal)
  cacheExpiry : List (String × Nat)
deriving DecidableEq, Repr

/-- A fresh `LinearService` instance's cache state. -/
def emptyCache : LinearCache := ⟨[], []⟩

/-- `isCacheValid`: the key has an expiry and `Date.now() < expiry`.
(The JavaScript also treats a falsy expiry `0` as invalid; over `Nat`,
`now < 0` is false anyway, so the behaviours coincide.) -/
def isCacheValid (c : LinearCache) (now : Nat) (key : String) : Bool :=
  match mapGet c.cacheExpiry key with
  | some expiry => decide (now < expiry)
  | none => false

/-- `setCache`: store the value and record expiry `Date.now() + CACHE_TTL`. -/
def setCache (c : LinearCache) (now : Nat) (key : String) (v : CacheVal) : LinearCache :=
  { cache := mapSet c.cache key v
    cacheExpiry := mapSet c.cacheExpiry key (now + CACHE_TTL) }

/-- `getCache`: return the value while the entry is valid; otherwise delete the
key from both maps (lazy eviction) and report absence.  Returns the possibly
evicted cache alongside the lookup result. -/
def getCache (c : LinearCache) (now : Nat) (key : String) : Option CacheVal × LinearCache :=
  if isCacheValid c now key then
    (mapGet c.cache key, c)
  else
    (none, { cache := mapDelete c.cache key, cacheExpiry := mapDelete c.cacheExpiry key })

/-- One hexadecimal digit of the case-insensitive UUID pattern `[0-9a-f]` with
the `i` flag. -/
def isHexDigit (c : Char) : Bool :=
  (decide ('0' ≤ c) && decide (c ≤ '9')) ||
  (decide ('a' ≤ c) && decide (c ≤ 'f')) ||
  (decide ('A' ≤ c) && decide (c ≤ 'F'))

/-- Consume exactly `n` hexadecimal digits, returning the remaining input. -/
def hexRun : Nat → List Char → Option (List Char)
  | 0, cs => some cs
  | _ + 1, [] => none
  | n + 1, c :: cs => if isHexDigit c then hexRun n cs else none

/-- Consume one dash separator of the UUID pattern. -/
def dashThen : List Char → Option (List Char)
  | '-' :: cs => some cs
  | _ => none

/-- `isUUID`: the reference matches the anchored 8-4-4-4-12 hexadecimal
pattern, case-insensitively (regex `UUID_PATTERN` with the `i` flag). -/
def isUUID (s : String) : Bool :=
  match ((((((((hexRun 8 s.data).bind dashThen).bind (hexRun 4)).bind
      dashThen).bind (hexRun 4)).bind dashThen).bind (hexRun 4)).bind
      dashThen).bind (hexRun 12) with
  | some [] => true
  | _ => false

/-- `String.prototype.toLowerCase()` on the ASCII range: lower-case each
character (character-by-character over the underlying list, so that concrete
evaluations reduce in the kernel). -/
def jsToLower (s : String) : String :=
  String.mk (s.data.map Char.toLower)

/-- The case-insensitive match predicate of `resolveTeam`'s collection scan:
name or key equals the reference after `toLowerCase()`. -/
def teamMatches (ref : String) (t : Team) : Bool :=
  jsToLower t.name == jsToLower ref || jsToLower t.key == jsToLower ref

/-- The case-insensitive match predicate of `resolveUser`'s collection scan:
name, displayName or email equals the reference after `toLowerCase()`. -/
def userMatches (ref : String) (u : User) : Bool :=
  jsToLower u.name == jsToLower ref || jsToLower u.displayName == jsToLower ref ||
    jsToLower u.email == jsToLower ref

/-- The case-insensitive match predicate of `resolveProject`'s collection scan. -/
def projectMatches (ref : String) (p : Project) : Bool :=
  jsToLower p.name == jsToLower ref

/-- The case-insensitive match predicate of `resolveState`'s collection scan. -/
def stateMatches (ref : String) (s : WorkflowState) : Bool :=
  jsToLower s.name == jsToLower ref

/-- The object `createIssue` validates and then sends (with resolved ids) to
`client.createIssue` (`CreateIssuePayload` and the SDK call share this shape). -/
structure CreateIssueInput where
  title : String
  description : Option String := none
  teamId : String
  assigneeId : Option String := none
  priority : Option Nat := none
  labelIds : Option (List String) := none
  projectId : Option String := none
  stateId : Option String := none
deriving DecidableEq, Repr

/-- The object `updateIssue` validates and then sends (with resolved ids) to
`client.updateIssue` (`UpdateIssuePayload` and the SDK call share this shape). -/
structure UpdateIssueInput where
  title : Option String := none
  description : Option String := none
  assigneeId : Option String := none
  priority : Option Nat := none
  labelIds : Option (List String) := none
  projectId : Option String := none
  stateId : Option String := none
deriving DecidableEq, Repr

/-- The filter object `searchIssues` / `listIssues` sends to `client.issues`.
Each entity field stands for `\x7b id: \x7b eq: <id> } }`; `title` stands for
`\x7b containsIgnoreCase: <query> }`.  The source never writes a `description`
key into the filter; the field is present here (always `none`) so that its
absence from every sent filter is statable. -/
structure IssueFilter where
  team : Option String := none
  assignee : Option String := none
  project : Option String := none
  state : Option String := none
  title : Option String := none
  description : Option String := none
deriving DecidableEq, Repr

/-- The search payload (`SearchIssuesPayload`). -/
structure SearchIssuesInput where
  query : Option String := none
  teamId : Option String := none
  assigneeId : Option String := none
  stateId : Option String := none
  projectId : Option String := none
  limit : Option Nat := none
  offset : Option Nat := none
deriving DecidableEq, Repr

/-- A remote issue as the SDK hands it back, with its related entities already
awaited (`issue.team`, `issue.assignee`, `issue.state`, `issue.labels()`,
`issue.project`) and the raw `teamId` foreign key `updateIssue` reads off the
existing issue. -/
structure IssueRec where
  id : String
  title : String
  description : Option String := none
  number : Nat
  priority : Nat
  url : String
  createdAt : String
  updatedAt : String
  teamId : String
  team : Option Team := none
  assignee : Option User := none
  state : Option WorkflowState := none
  project : Option Project := none
  labels : List Label := []
deriving DecidableEq, Repr

/-- Page info of a `client.issues` connection. -/
structure PageInfo where
  hasNextPage : Bool
  hasPreviousPage : Bool
deriving DecidableEq, Repr

/-- One call to the remote Linear catalog, recorded in the execution trace. -/
inductive RemoteCall where
  | fetchTeamById (id : String)
  | fetchAllTeams
  | fetchUserById (id : String)
  | fetchAllUsers
  | fetchProjectById (id : String)
  | fetchAllProjects
  | fetchStateById (id : String)
  | fetchAllStates
  | fetchTeamStates (teamId : String)
  | fetchIssueById (id : String)
  | createIssueCall (input : CreateIssueInput)
  | updateIssueCall (id : String) (input : UpdateIssueInput)
  | queryIssues (filter : IssueFilter) (first : Nat)
deriving DecidableEq, Repr

/-- A remote call that only reads the entity catalog (team / user / project /
workflow-state fetches).  Issue-level calls — create, update, the filtered
issues query and the issue fetch — are not entity reads; in particular the
mutating create/update calls are not. -/
def RemoteCall.isEntityRead : RemoteCall → Bool
  | .createIssueCall _ => false
  | .updateIssueCall _ _ => false
  | .queryIssues _ _ => false
  | .fetchIssueById _ => false
  | _ => true

/-- The remote Linear catalog as a record of oracles.  A fetch-by-identifier
oracle returning `none` stands for the SDK call throwing (entity missing or
transport failure); a collection oracle returning `none` stands for the
collection fetch throwing. -/
structure Remote where
  teamById : String → Option Team
  allTeams : Option (List Team)
  userById : String → Option User
  allUsers : Option (List User)
  projectById : String → Option Project
  allProjects : Option (List Project)
  stateById : String → Option WorkflowState
  allStates : Option (List WorkflowState)
  teamStates : String → Option (List WorkflowState)
  issueById : String → Option IssueRec
  createIssueRemote : CreateIssueInput → Option IssueRec
  updateIssueRemote : String → UpdateIssueInput → Option IssueRec
  issuesQuery : IssueFilter → Nat → Option (List IssueRec × PageInfo)

/-- JavaScript truthiness of an optional string: `undefined` and `""` are falsy. -/
def truthy : Option String → Bool
  | some s => !(s == "")
  | none => false

/-- The result triple of a resolver: resolved value, cache after the call, and
the remote calls performed. -/
abbrev Resolved (α : Type) := α × LinearCache × List RemoteCall

/-- `resolveTeam`: cache lookup under `team:<ref>`, then either a direct
fetch-by-identifier (when the reference is UUID-shaped) or a full-collection
scan matching name or key case-insensitively.  Successful resolutions are
cached; any thrown SDK error is caught and collapsed to `none`. -/
def resolveTeam (r : Remote) (c : LinearCache) (now : Nat) (teamIdOrName : String) :
    Resolved (Option Team) :=
  let cacheKey := "team:" ++ teamIdOrName
  match getCache c now cacheKey with
  | (some cached, c1) => (cached.asTeam, c1, [])
  | (none, c1) =>
      if isUUID teamIdOrName then
        match r.teamById teamIdOrName with
        | some team =>
            let result : Team := { id := team.id, name := team.name, key := team.key }
            (some result, setCache c1 now cacheKey (CacheVal.team result),
              [RemoteCall.fetchTeamById teamIdOrName])
        | none => (none, c1, [RemoteCall.fetchTeamById teamIdOrName])
      else
        match r.allTeams with
        | some teams =>
            match teams.find? (teamMatches teamIdOrName) with
            | some team =>
                let result : Team := { id := team.id, name := team.name, key := team.key }
                (some result, setCache c1 now cacheKey (CacheVal.team result),
                  [RemoteCall.fetchAllTeams])
            | none => (none, c1, [RemoteCall.fetchAllTeams])
        | none => (none, c1, [RemoteCall.fetchAllTeams])

/-- `resolveUser`: cache lookup under `user:<ref>`, then direct id fetch or a
full scan matching name, displayName or email case-insensitively. -/
def resolveUser (r : Remote) (c : LinearCache) (now : Nat) (userIdOrNameOrEmail : String) :
    Resolved (Option User) :=
  let cacheKey := "user:" ++ userIdOrNameOrEmail
  match getCache c now cacheKey with
  | (some cached, c1) => (cached.asUser, c1, [])
  | (none, c1) =>
      if isUUID userIdOrNameOrEmail then
        match r.userById userIdOrNameOrEmail with
        | some user =>
            let result : User :=
              { id := user.id, name := user.name, email := user.email
                displayName := user.displayName }
            (some result, setCache c1 now cacheKey (CacheVal.user result),
              [RemoteCall.fetchUserById userIdOrNameOrEmail])
        | none => (none, c1, [RemoteCall.fetchUserById userIdOrNameOrEmail])
      else
        match r.allUsers with
        | some users =>
            match users.find? (userMatches userIdOrNameOrEmail) with
            | some user =>
                let result : User :=
                  { id := user.id, name := user.name, email := user.email
                    displayName := user.displayName }
                (some result, setCache c1 now cacheKey (CacheVal.user result),
                  [RemoteCall.fetchAllUsers])
            | none => (none, c1, [RemoteCall.fetchAllUsers])
        | none => (none, c1, [RemoteCall.fetchAllUsers])

/-- `resolveProject`: cache lookup under `project:<ref>`, then direct id fetch
or a full scan matching the name case-insensitively. -/
def resolveProject (r : Remote) (c : LinearCache) (now : Nat) (projectIdOrName : String) :
    Resolved (Option Project) :=
  let cacheKey := "project:" ++ projectIdOrName
  match getCache c now cacheKey with
  | (some cached, c1) => (cached.asProject, c1, [])
  | (none, c1) =>
      if isUUID projectIdOrName then
        match r.projectById projectIdOrName with
        | some project =>
            let result : Project := { id := project.id, name := project.name }
            (some result, setCache c1 now cacheKey (CacheVal.project result),
              [RemoteCall.fetchProjectById projectIdOrName])
        | none => (none, c1, [RemoteCall.fetchProjectById projectIdOrName])
      else
        match r.allProjects with
        | some projects =>
            match projects.find? (projectMatches projectIdOrName) with
            | some project =>
                let result : Project := { id := project.id, name := project.name }
                (some result, setCache c1 now cacheKey (CacheVal.project result),
                  [RemoteCall.fetchAllProjects])
            | none => (none, c1, [RemoteCall.fetchAllProjects])
        | none => (none, c1, [RemoteCall.fetchAllProjects])

/-- The cache key of `resolveState`: `state:<ref>:<teamId || 'global'>`
(an absent or empty team id falls back to `global`). -/
def stateCacheKey (stateIdOrName : String) (teamId : Option String) : String :=
  "state:" ++ stateIdOrName ++ ":" ++
    (match teamId with
     | some t => if t == "" then "global" else t
     | none => "global")

/-- The `let states; if (teamId && isUUID(teamId)) \x7b ... } else \x7b ... }`
block of `resolveState`: fetch the team's states when a truthy UUID-shaped
team id is given (one call for the team, one for its states), otherwise fetch
the global workflow-state collection. -/
def fetchStatesFor (r : Remote) (teamId : Option String) :
    Option (List WorkflowState) × List RemoteCall :=
  match teamId with
  | some tid =>
      if !(tid == "") && isUUID tid then
        match r.teamById tid with
        | some _ => (r.teamStates tid, [RemoteCall.fetchTeamById tid, RemoteCall.fetchTeamStates tid])
        | none => (none, [RemoteCall.fetchTeamById tid])
      else (r.allStates, [RemoteCall.fetchAllStates])
  | none => (r.allStates, [RemoteCall.fetchAllStates])

/-- `resolveState`: cache lookup under `state:<ref>:<team || global>`, then
direct id fetch (UUID-shaped references) or a scan of `fetchStatesFor`'s
collection matching the name case-insensitively. -/
def resolveState (r : Remote) (c : LinearCache) (now : Nat) (stateIdOrName : String)
    (teamId : Option String) : Resolved (Option WorkflowState) :=
  let cacheKey := stateCacheKey stateIdOrName teamId
  match getCache c now cacheKey with
  | (some cached, c1) => (cached.asState, c1, [])
  | (none, c1) =>
      if isUUID stateIdOrName then
        match r.stateById stateIdOrName with
        | some state =>
            let result : WorkflowState :=
              { id := state.id, name := state.name, type := state.type, color := state.color }
            (some result, setCache c1 now cacheKey (CacheVal.state result),
              [RemoteCall.fetchStateById stateIdOrName])
        | none => (none, c1, [RemoteCall.fetchStateById stateIdOrName])
      else
        match fetchStatesFor r teamId with
        | (some states, calls) =>
            match states.find? (stateMatches stateIdOrName) with
            | some state =>
                let result : WorkflowState :=
                  { id := state.id, name := state.name, type := state.type, color := state.color }
                (some result, setCache c1 now cacheKey (CacheVal.state result), calls)
            | none => (none, c1, calls)
        | (none, calls) => (none, c1, calls)

/-- `resolveDefaultProject`: resolve `env.DEFAULT_PROJECT_ID` when configured
(a falsy — unset or empty — value short-circuits to `null` with no calls). -/
def resolveDefaultProject (r : Remote) (defaultProjectId : Option String) (c : LinearCache)
    (now : Nat) : Resolved (Option Project) :=
  match defaultProjectId with
  | none => (none, c, [])
  | some d => if d == "" then (none, c, []) else resolveProject r c now d

/-- `getAllTeams`: cached fetch of the full team collection under `all_teams`;
a thrown fetch is caught and collapsed to the empty list (and not cached). -/
def getAllTeams (r : Remote) (c : LinearCache) (now : Nat) : Resolved (List Team) :=
  let cacheKey := "all_teams"
  match getCache c now cacheKey with
  | (some cached, c1) => (cached.asTeams.getD [], c1, [])
  | (none, c1) =>
      match r.allTeams with
      | some ts =>
          let result := ts.map (fun t => { id := t.id, name := t.name, key := t.key : Team })
          (result, setCache c1 now cacheKey (CacheVal.teams result), [RemoteCall.fetchAllTeams])
      | none => ([], c1, [RemoteCall.fetchAllTeams])

/-- `getAllUsers`: cached fetch of the full user collection under `all_users`. -/
def getAllUsers (r : Remote) (c : LinearCache) (now : Nat) : Resolved (List User) :=
  let cacheKey := "all_users"
  match getCache c now cacheKey with
  | (some cached, c1) => (cached.asUsers.getD [], c1, [])
  | (none, c1) =>
      match r.allUsers with
      | some us =>
          let result := us.map (fun u =>
            { id := u.id, name := u.name, email := u.email, displayName := u.displayName : User })
          (result, setCache c1 now cacheKey (CacheVal.users result), [RemoteCall.fetchAllUsers])
      | none => ([], c1, [RemoteCall.fetchAllUsers])

/-- `getAllProjects`: cached fetch of the full project collection under
`all_projects`. -/
def getAllProjects (r : Remote) (c : LinearCache) (now : Nat) : Resolved (List Project) :=
  let cacheKey := "all_projects"
  match getCache c now cacheKey with
  | (some cached, c1) => (cached.asProjects.getD [], c1, [])
  | (none, c1) =>
      match r.allProjects with
      | some ps =>
          let result := ps.map (fun p => { id := p.id, name := p.name : Project })
          (result, setCache c1 now cacheKey (CacheVal.projects result), [RemoteCall.fetchAllProjects])
      | none => ([], c1, [RemoteCall.fetchAllProjects])

/-- `getAllStates`: cached fetch of the full workflow-state collection under
`all_states`. -/
def getAllStates (r : Remote) (c : LinearCache) (now : Nat) : Resolved (List WorkflowState) :=
  let cacheKey := "all_states"
  match getCache c now cacheKey with
  | (some cached, c1) => (cached.asStates.getD [], c1, [])
  | (none, c1) =>
      match r.allStates with
      | some ss =>
          let result := ss.map (fun s =>
            { id := s.id, name := s.name, type := s.type, color := s.color : WorkflowState })
          (result, setCache c1 now cacheKey (CacheVal.states result), [RemoteCall.fetchAllStates])
      | none => ([], c1, [RemoteCall.fetchAllStates])

/-- The four entity kinds of `createResolutionError`. -/
inductive EntityType where
  | team
  | user
  | project
  | state
deriving DecidableEq, Repr

/-- The lowercase kind string used in the messages (`'team' | 'user' | ...`). -/
def EntityType.asString : EntityType → String
  | .team => "team"
  | .user => "user"
  | .project => "project"
  | .state => "state"

/-- `charAt(0).toUpperCase() + slice(1)`. -/
def capitalizeFirst (s : String) : String :=
  match s.data with
  | [] => ""
  | ch :: rest => String.mk (ch.toUpper :: rest)

/-- The `switch (entityType)` of `createResolutionError`: fetch the catalog for
the kind through the cached `getAll*` path and format the candidate names
(`name (key)` for teams, `displayName (email)` for users, bare names for
projects and states).  The `getAll*` methods catch their own errors, so the
extra `try/catch` around the switch never fires. -/
def fetchAvailableNames (r : Remote) (c : LinearCache) (now : Nat) :
    EntityType → Resolved (List String)
  | .team =>
      let (teams, c1, k) := getAllTeams r c now
      (teams.map (fun t => t.name ++ " (" ++ t.key ++ ")"), c1, k)
  | .user =>
      let (users, c1, k) := getAllUsers r c now
      (users.map (fun u => u.displayName ++ " (" ++ u.email ++ ")"), c1, k)
  | .project =>
      let (projects, c1, k) := getAllProjects r c now
      (projects.map (fun p => p.name), c1, k)
  | .state =>
      let (states, c1, k) := getAllStates r c now
      (states.map (fun s => s.name), c1, k)

/-- The opening sentence of every resolution error message. -/
def notFoundIntro (entityType : EntityType) (requestedValue : String) : String :=
  capitalizeFirst entityType.asString ++ " '" ++ requestedValue ++ "' not found."

/-- The formatting tail of `createResolutionError` (the `errorMessage +=`
chain after the opening sentence, factored as one appended suffix): up to
`maxNames = 10` candidate names joined by `, `, an `and N more` tail when
more remain, or the degraded `Unable to fetch` sentence when no names are
available. -/
def resolutionErrorTail (entityType : EntityType) (availableNames : List String) : String :=
  if availableNames.length > 0 then
    let maxNames := 10
    let namesToShow := availableNames.take maxNames
    let remainingCount := availableNames.length - maxNames
    " Available " ++ entityType.asString ++ "s: " ++ String.intercalate ", " namesToShow ++
      (if remainingCount > 0 then " and " ++ toString remainingCount ++ " more" else "")
  else
    " Unable to fetch available " ++ entityType.asString ++ "s."

/-- The full message `createResolutionError` returns for a kind, a requested
value and the fetched candidate names. -/
def resolutionErrorMessage (entityType : EntityType) (requestedValue : String)
    (availableNames : List String) : String :=
  notFoundIntro entityType requestedValue ++ resolutionErrorTail entityType availableNames

/-- `createResolutionError`: fetch candidate names for the kind and format the
not-found message.  Total — every failure of the underlying fetches has
already been collapsed to an empty name list. -/
def createResolutionError (r : Remote) (c : LinearCache) (now : Nat)
    (entityType : EntityType) (requestedValue : String) : Resolved String :=
  let (availableNames, c1, k) := fetchAvailableNames r c now entityType
  (resolutionErrorMessage entityType requestedValue availableNames, c1, k)

/-- The issue response shape (`LinearIssueResponse`) with the resolved entity
summaries attached. -/
structure IssueResponse where
  id : String
  title : String
  description : Option String
  number : Nat
  priority : Nat
  url : String
  createdAt : String
  updatedAt : String
  team : Option Team
  assignee : Option User
  project : Option Project
  state : Option WorkflowState
  labels : List Label
deriving DecidableEq, Repr

/-- The constraints of `createIssueSchema` that bear on these claims: title
length in 1..255 and priority in 0..4 when present (`priority : Nat`, so the
lower bound is automatic).  The yup details (type coercion, message texts)
are not modelled. -/
def validCreatePayload (p : CreateIssueInput) : Bool :=
  decide (1 ≤ p.title.length) && decide (p.title.length ≤ 255) &&
    (match p.priority with
     | some pr => decide (pr ≤ 4)
     | none => true)

/-- The constraints of `updateIssueSchema`: optional title length in 1..255,
priority in 0..4 when present. -/
def validUpdatePayload (p : UpdateIssueInput) : Bool :=
  (match p.title with
   | some t => decide (1 ≤ t.length) && decide (t.length ≤ 255)
   | none => true) &&
  (match p.priority with
   | some pr => decide (pr ≤ 4)
   | none => true)

/-- The constraints of `searchIssuesSchema`: limit in 1..100 when present
(`offset : Nat`, so non-negativity is automatic). -/
def validSearchPayload (p : SearchIssuesInput) : Bool :=
  match p.limit with
  | some l => decide (1 ≤ l) && decide (l ≤ 100)
  | none => true

/-- `labelIds?.filter(Boolean)`: drop empty strings. -/
def filterLabelIds (labelIds : Option (List String)) : Option (List String) :=
  labelIds.map (fun ls => ls.filter (fun s => !(s == "")))

/-- `createIssue`: validate, resolve team / assignee / default-or-explicit
project / state, report the first failed resolution via
`createResolutionError` (in the fixed team, assignee, project, state order)
without calling the remote create primitive, and otherwise create the issue
with the resolved identifiers and shape the response around the resolved
entities.  A `null` issue on the create payload throws `Failed to create
issue`; a thrown transport error is conflated with it (no claim depends on
that message). -/
def createIssue (r : Remote) (defaultProjectId : Option String) (c : LinearCache) (now : Nat)
    (payload : CreateIssueInput) : Resolved (Except String IssueResponse) :=
  if validCreatePayload payload then
    let (team, c1, k1) := resolveTeam r c now payload.teamId
    let (assignee, c2, k2) :=
      if truthy payload.assigneeId then resolveUser r c1 now (payload.assigneeId.getD "")
      else (none, c1, [])
    let (project, c3, k3) :=
      if truthy payload.projectId then resolveProject r c2 now (payload.projectId.getD "")
      else resolveDefaultProject r defaultProjectId c2 now
    let (state, c4, k4) :=
      if truthy payload.stateId then resolveState r c3 now (payload.stateId.getD "") none
      else (none, c3, [])
    let calls := k1 ++ k2 ++ k3 ++ k4
    match team with
    | none =>
        let (msg, c5, k5) := createResolutionError r c4 now EntityType.team payload.teamId
        (Except.error msg, c5, calls ++ k5)
    | some team =>
        if truthy payload.assigneeId && assignee.isNone then
          let (msg, c5, k5) :=
            createResolutionError r c4 now EntityType.user (payload.assigneeId.getD "")
          (Except.error msg, c5, calls ++ k5)
        else if truthy payload.projectId && project.isNone then
          let (msg, c5, k5) :=
            createResolutionError r c4 now EntityType.project (payload.projectId.getD "")
          (Except.error msg, c5, calls ++ k5)
        else if truthy payload.stateId && state.isNone then
          let (msg, c5, k5) :=
            createResolutionError r c4 now EntityType.state (payload.stateId.getD "")
          (Except.error msg, c5, calls ++ k5)
        else
          let input : CreateIssueInput :=
            { title := payload.title, description := payload.description
              teamId := team.id, assigneeId := assignee.map User.id
              priority := payload.priority, labelIds := filterLabelIds payload.labelIds
              projectId := project.map Project.id, stateId := state.map WorkflowState.id }
          match r.createIssueRemote input with
          | none =>
              (Except.error "Failed to create issue", c4,
                calls ++ [RemoteCall.createIssueCall input])
          | some issue =>
              (Except.ok
                { id := issue.id, title := issue.title, description := issue.description
                  number := issue.number, url := issue.url, priority := issue.priority
                  createdAt := issue.createdAt, updatedAt := issue.updatedAt
                  team := some team, assignee := assignee, project := project, state := state
                  labels := [] },
                c4, calls ++ [RemoteCall.createIssueCall input])
  else (Except.error "Validation failed", c, [])

/-- `updateIssue`: validate, fetch the existing issue, resolve assignee /
project / state — the state scoped by the existing issue's `teamId` — report
the first failed resolution without updating, and otherwise update with the
resolved identifiers.  A missing issue throws `Issue not found`. -/
def updateIssue (r : Remote) (c : LinearCache) (now : Nat) (issueId : String)
    (payload : UpdateIssueInput) : Resolved (Except String IssueResponse) :=
  if validUpdatePayload payload then
    match r.issueById issueId with
    | none => (Except.error "Issue not found", c, [RemoteCall.fetchIssueById issueId])
    | some existingIssue =>
        let (assignee, c1, k1) :=
          if truthy payload.assigneeId then resolveUser r c now (payload.assigneeId.getD "")
          else (none, c, [])
        let (project, c2, k2) :=
          if truthy payload.projectId then resolveProject r c1 now (payload.projectId.getD "")
          else (none, c1, [])
        let (state, c3, k3) :=
          if truthy payload.stateId then
            resolveState r c2 now (payload.stateId.getD "") (some existingIssue.teamId)
          else (none, c2, [])
        let calls := RemoteCall.fetchIssueById issueId :: (k1 ++ k2 ++ k3)
        if truthy payload.assigneeId && assignee.isNone then
          let (msg, c4, k4) :=
            createResolutionError r c3 now EntityType.user (payload.assigneeId.getD "")
          (Except.error msg, c4, calls ++ k4)
        else if truthy payload.projectId && project.isNone then
          let (msg, c4, k4) :=
            createResolutionError r c3 now EntityType.project (payload.projectId.getD "")
          (Except.error msg, c4, calls ++ k4)
        else if truthy payload.stateId && state.isNone then
          let (msg, c4, k4) :=
            createResolutionError r c3 now EntityType.state (payload.stateId.getD "")
          (Except.error msg, c4, calls ++ k4)
        else
          let input : UpdateIssueInput :=
            { title := payload.title, description := payload.description
              assigneeId := assignee.map User.id, priority := payload.priority
              labelIds := filterLabelIds payload.labelIds
              projectId := project.map Project.id, stateId := state.map WorkflowState.id }
          match r.updateIssueRemote issueId input with
          | none =>
              (Except.error "Failed to update issue", c3,
                calls ++ [RemoteCall.updateIssueCall issueId input])
          | some updatedIssue =>
              (Except.ok
                { id := updatedIssue.id, title := updatedIssue.title
                  description := updatedIssue.description, number := updatedIssue.number
                  url := updatedIssue.url, priority := updatedIssue.priority
                  createdAt := updatedIssue.createdAt, updatedAt := updatedIssue.updatedAt
                  team := updatedIssue.team, assignee := assignee, project := project
                  state := state, labels := [] },
                c3, calls ++ [RemoteCall.updateIssueCall issueId input])
  else (Except.error "Validation failed", c, [])

/-- Shape an issue connection node into a response record (the per-issue
`Promise.all` of `searchIssues`: the related entities are already on
`IssueRec`). -/
def formatIssue (issue : IssueRec) : IssueResponse :=
  { id := issue.id, title := issue.title, description := issue.description
    number := issue.number, url := issue.url, priority := issue.priority
    createdAt := issue.createdAt, updatedAt := issue.updatedAt
    team := issue.team, assignee := issue.assignee, project := issue.project
    state := issue.state, labels := issue.labels }

/-- The search response (`LinearSearchResponse`): formatted issues, counts,
page flags and the `appliedFilters` echo of the resolved entities and query. -/
structure SearchResponse where
  issues : List IssueResponse
  totalCount : Nat
  hasNextPage : Bool
  hasPreviousPage : Bool
  appliedTeam : Option Team
  appliedAssignee : Option User
  appliedProject : Option Project
  appliedState : Option WorkflowState
  appliedQuery : Option String
deriving DecidableEq, Repr

/-- `searchIssues`: validate, resolve each provided entity filter field,
report the first failed resolution, build the remote filter (entity ids plus
a `containsIgnoreCase` title condition when a query is given — no description
condition is ever attached), query the remote collection with
`first = limit || 50` and shape the response. -/
def searchIssues (r : Remote) (c : LinearCache) (now : Nat) (payload : SearchIssuesInput) :
    Resolved (Except String SearchResponse) :=
  if validSearchPayload payload then
    let (team, c1, k1) :=
      if truthy payload.teamId then resolveTeam r c now (payload.teamId.getD "")
      else (none, c, [])
    let (assignee, c2, k2) :=
      if truthy payload.assigneeId then resolveUser r c1 now (payload.assigneeId.getD "")
      else (none, c1, [])
    let (project, c3, k3) :=
      if truthy payload.projectId then resolveProject r c2 now (payload.projectId.getD "")
      else (none, c2, [])
    let (state, c4, k4) :=
      if truthy payload.stateId then resolveState r c3 now (payload.stateId.getD "") none
      else (none, c3, [])
    let calls := k1 ++ k2 ++ k3 ++ k4
    if team.isNone && truthy payload.teamId then
      let (msg, c5, k5) := createResolutionError r c4 now EntityType.team (payload.teamId.getD "")
      (Except.error msg, c5, calls ++ k5)
    else if assignee.isNone && truthy payload.assigneeId then
      let (msg, c5, k5) :=
        createResolutionError r c4 now EntityType.user (payload.assigneeId.getD "")
      (Except.error msg, c5, calls ++ k5)
    else if project.isNone && truthy payload.projectId then
      let (msg, c5, k5) :=
        createResolutionError r c4 now EntityType.project (payload.projectId.getD "")
      (Except.error msg, c5, calls ++ k5)
    else if state.isNone && truthy payload.stateId then
      let (msg, c5, k5) :=
        createResolutionError r c4 now EntityType.state (payload.stateId.getD "")
      (Except.error msg, c5, calls ++ k5)
    else
      let filter : IssueFilter :=
        { team := team.map Team.id, assignee := assignee.map User.id
          project := project.map Project.id, state := state.map WorkflowState.id
          title := if truthy payload.query then payload.query else none
          description := none }
      let first :=
        match payload.limit with
        | some l => if l == 0 then 50 else l
        | none => 50
      match r.issuesQuery filter first with
      | none =>
          (Except.error "Issues query failed", c4, calls ++ [RemoteCall.queryIssues filter first])
      | some (issues, pageInfo) =>
          (Except.ok
            { issues := issues.map formatIssue, totalCount := issues.length
              hasNextPage := pageInfo.hasNextPage, hasPreviousPage := pageInfo.hasPreviousPage
              appliedTeam := team, appliedAssignee := assignee, appliedProject := project
              appliedState := state, appliedQuery := payload.query },
            c4, calls ++ [RemoteCall.queryIssues filter first])
  else (Except.error "Validation failed", c, [])

/-! Concrete fixtures used by witnesses and counterexamples. -/

/-- A UUID-shaped team identifier. -/
def uuidT : String := "aaaaaaaa-aaaa-aaaa-aaaa-aaaaaaaaaaaa"

/-- A UUID-shaped user identifier. -/
def uuidU : String := "bbbbbbbb-bbbb-bbbb-bbbb-bbbbbbbbbbbb"

/-- A UUID-shaped project identifier. -/
def uuidP : String := "cccccccc-cccc-cccc-cccc-cccccccccccc"

/-- A UUID-shaped workflow-state identifier. -/
def uuidS : String := "dddddddd-dddd-dddd-dddd-dddddddddddd"

/-- Sample team. -/
def engTeam : Team := { id := uuidT, name := "Engineering", key := "ENG" }

/-- Second sample team. -/
def desTeam : Team := { id := "t2", name := "Design", key := "DES" }

/-- Sample user. -/
def johnUser : User :=
  { id := uuidU, name := "John Doe", email := "john@example.com", displayName := "John" }

/-- Sample project. -/
def apiProject : Project := { id := uuidP, name := "API" }

/-- Sample workflow state. -/
def doneState : WorkflowState :=
  { id := uuidS, name := "Done", type := "completed", color := "#0f0" }

/-- Second sample workflow state. -/
def todoState : WorkflowState :=
  { id := "s2", name := "Todo", type := "unstarted", color := "#00f" }

/-- Sample existing issue, owned by `engTeam`. -/
def demoIssue : IssueRec :=
  { id := "i1", title := "Fix bug", number := 1, priority := 2, url := "u"
    createdAt := "c", updatedAt := "d", teamId := uuidT }

/-- A live remote catalog over the sample entities. -/
def demoRemote : Remote where
  teamById := fun i => if i == uuidT then some engTeam else none
  allTeams := some [engTeam, desTeam]
  userById := fun i => if i == uuidU then some johnUser else none
  allUsers := some [johnUser]
  projectById := fun i => if i == uuidP then some apiProject else none
  allProjects := some [apiProject]
  stateById := fun i => if i == uuidS then some doneState else none
  allStates := some [doneState, todoState]
  teamStates := fun i => if i == uuidT then some [todoState] else none
  issueById := fun i => if i == "i1" then some demoIssue else none
  createIssueRemote := fun _ => some demoIssue
  updateIssueRemote := fun _ _ => some demoIssue
  issuesQuery := fun _ _ => some ([demoIssue], ⟨false, false⟩)

/-- A remote catalog whose every call throws. -/
def downRemote : Remote where
  teamById := fun _ => none
  allTeams := none
  userById := fun _ => none
  allUsers := none
  projectById := fun _ => none
  allProjects := none
  stateById := fun _ => none
  allStates := none
  teamStates := fun _ => none
  issueById := fun _ => none
  createIssueRemote := fun _ => none
  updateIssueRemote := fun _ _ => none
  issuesQuery := fun _ _ => none

/-- Cache state after resolving `"ENG"` at time 0 against `demoRemote`. -/
def engCache : LinearCache := setCache emptyCache 0 "team:ENG" (CacheVal.team engTeam)

/-- Cache state after resolving `"john@example.com"` at time 0. -/
def johnCache : LinearCache :=
  setCache emptyCache 0 "user:john@example.com" (CacheVal.user johnUser)

/-- Cache state after resolving `"api"` at time 0. -/
def apiCache : LinearCache := setCache emptyCache 0 "project:api" (CacheVal.project apiProject)

/-- Cache state after resolving `"Done"` (no team context) at time 0. -/
def doneCache : LinearCache :=
  setCache emptyCache 0 (stateCacheKey "Done" none) (CacheVal.state doneState)

/-- Cache state after resolving `"Todo"` in the context of team `uuidT`. -/
def todoCacheT : LinearCache :=
  setCache emptyCache 0 (stateCacheKey "Todo" (some uuidT)) (CacheVal.state todoState)

/-- An update payload that only moves the issue to `"Todo"`. -/
def todoPayload : UpdateIssueInput := { stateId := some "Todo" }

/-! ### Association-list map lemmas -/

theorem mapGet_mapSet_self {α : Type} (l : List (String × α)) (k : String) (v : α) :
    mapGet (mapSet l k v) k = some v := by
  induction l with
  | nil => simp [mapGet, mapSet]
  | cons hd tl ih =>
      obtain ⟨k0, v0⟩ := hd
      by_cases h : k0 = k
      · simp [mapSet, h, mapGet]
      · simp [mapSet, h, mapGet, ih]

theorem mapGet_mapSet_ne {α : Type} (l : List (String × α)) {k k2 : String} (v : α)
    (h : k ≠ k2) : mapGet (mapSet l k v) k2 = mapGet l k2 := by
  induction l with
  | nil => simp [mapGet, mapSet, h]
  | cons hd tl ih =>
      obtain ⟨k0, v0⟩ := hd
      by_cases h0 : k0 = k
      · subst h0; simp [mapSet, mapGet, h]
      · simp only [mapSet, h0, if_false]
        by_cases h2 : k0 = k2
        · simp [mapGet, h2]
        · simp [mapGet, h2, ih]

theorem mapGet_mapDelete_self {α : Type} (l : List (String × α)) (k : String) :
    mapGet (mapDelete l k) k = none := by
  induction l with
  | nil => simp [mapGet, mapDelete]
  | cons hd tl ih =>
      obtain ⟨k0, v0⟩ := hd
      by_cases h : k0 = k
      · simp [mapDelete, h, ih]
      · simp [mapDelete, h, mapGet, ih]

theorem mapGet_mapDelete_ne {α : Type} (l : List (String × α)) {k k2 : String}
    (h : k ≠ k2) : mapGet (mapDelete l k) k2 = mapGet l k2 := by
  induction l with
  | nil => simp [mapDelete]
  | cons hd tl ih =>
      obtain ⟨k0, v0⟩ := hd
      by_cases h0 : k0 = k
      · subst h0; simp [mapDelete, mapGet, h, ih]
      · by_cases h2 : k0 = k2
        · subst h2; simp [mapDelete, h0, mapGet]
        · simp [mapDelete, h0, mapGet, h2, ih]

theorem mapGet_mapDelete_sub {α : Type} {l : List (String × α)} {k k2 : String} {v : α}
    (h : mapGet (mapDelete l k) k2 = some v) : mapGet l k2 = some v := by
  by_cases hk : k = k2
  · subst hk; rw [mapGet_mapDelete_self] at h; exact absurd h (by simp)
  · rwa [mapGet_mapDelete_ne l hk] at h

/-! ### Cache lemmas -/

theorem isCacheValid_setCache_self (c : LinearCache) (now : Nat) (key : String) (v : CacheVal)
    (now2 : Nat) :
    isCacheValid (setCache c now key v) now2 key = decide (now2 < now + CACHE_TTL) := by
  simp only [isCacheValid, setCache]
  rw [mapGet_mapSet_self]

theorem getCache_fst_of_valid {c : LinearCache} {now : Nat} {key : String}
    (h : isCacheValid c now key = true) :
    getCache c now key = (mapGet c.cache key, c) := by
  simp [getCache, h]

theorem getCache_of_invalid {c : LinearCache} {now : Nat} {key : String}
    (h : isCacheValid c now key = false) :
    getCache c now key =
      (none, { cache := mapDelete c.cache key, cacheExpiry := mapDelete c.cacheExpiry key }) := by
  simp [getCache, h]

theorem getCache_setCache_live {now now2 : Nat} (c : LinearCache) (key : String) (v : CacheVal)
    (h : now2 < now + CACHE_TTL) :
    getCache (setCache c now key v) now2 key = (some v, setCache c now key v) := by
  have hv : isCacheValid (setCache c now key v) now2 key = true := by
    rw [isCacheValid_setCache_self]; exact decide_eq_true h
  rw [getCache_fst_of_valid hv]
  simp only [setCache]
  rw [mapGet_mapSet_self]

theorem getCache_setCache_dead {now now2 : Nat} (c : LinearCache) (key : String) (v : CacheVal)
    (h : now + CACHE_TTL ≤ now2) :
    (getCache (setCache c now key v) now2 key).1 = none := by
  have hv : isCacheValid (setCache c now key v) now2 key = false := by
    rw [isCacheValid_setCache_self]
    exact decide_eq_false (Nat.not_lt.2 h)
  rw [getCache_of_invalid hv]

/-- The second component of `getCache` never gains a binding: every surviving
value binding was present before the lookup. -/
theorem getCache_snd_cache_sub {c : LinearCache} {now : Nat} {key k : String} {v : CacheVal}
    (h : mapGet (getCache c now key).2.cache k = some v) : mapGet c.cache k = some v := by
  by_cases hv : isCacheValid c now key
  · rwa [getCache_fst_of_valid hv] at h
  · rw [getCache_of_invalid (by simpa using hv)] at h
    exact mapGet_mapDelete_sub h

/-- Same for expiry bindings. -/
theorem getCache_snd_expiry_sub {c : LinearCache} {now : Nat} {key k : String} {e : Nat}
    (h : mapGet (getCache c now key).2.cacheExpiry k = some e) :
    mapGet c.cacheExpiry k = some e := by
  by_cases hv : isCacheValid c now key
  · rwa [getCache_fst_of_valid hv] at h
  · rw [getCache_of_invalid (by simpa using hv)] at h
    exact mapGet_mapDelete_sub h

/-! ### `resolveTeam` case lemmas -/

theorem resolveTeam_hit (r : Remote) {c c1 : LinearCache} {now : Nat} {ref : String}
    {v : CacheVal} (h : getCache c now ("team:" ++ ref) = (some v, c1)) :
    resolveTeam r c now ref = (v.asTeam, c1, []) := by
  simp only [resolveTeam]
  rw [h]

theorem resolveTeam_miss_uuid_some {r : Remote} {c c1 : LinearCache} {now : Nat} {ref : String}
    {t : Team} (hget : getCache c now ("team:" ++ ref) = (none, c1))
    (hu : isUUID ref = true) (ht : r.teamById ref = some t) :
    resolveTeam r c now ref =
      (some t, setCache c1 now ("team:" ++ ref) (CacheVal.team t),
        [RemoteCall.fetchTeamById ref]) := by
  simp only [resolveTeam]
  rw [hget, hu, ht]
  simp

theorem resolveTeam_miss_uuid_none {r : Remote} {c c1 : LinearCache} {now : Nat} {ref : String}
    (hget : getCache c now ("team:" ++ ref) = (none, c1))
    (hu : isUUID ref = true) (ht : r.teamById ref = none) :
    resolveTeam r c now ref = (none, c1, [RemoteCall.fetchTeamById ref]) := by
  simp only [resolveTeam]
  rw [hget, hu, ht]
  simp

theorem resolveTeam_miss_found {r : Remote} {c c1 : LinearCache} {now : Nat} {ref : String}
    {ts : List Team} {t : Team} (hget : getCache c now ("team:" ++ ref) = (none, c1))
    (hu : isUUID ref = false) (hts : r.allTeams = some ts)
    (hf : ts.find? (teamMatches ref) = some t) :
    resolveTeam r c now ref =
      (some t, setCache c1 now ("team:" ++ ref) (CacheVal.team t),
        [RemoteCall.fetchAllTeams]) := by
  simp only [resolveTeam]
  rw [hget, hu, hts]
  simp [hf]

theorem resolveTeam_miss_notfound {r : Remote} {c c1 : LinearCache} {now : Nat} {ref : String}
    {ts : List Team} (hget : getCache c now ("team:" ++ ref) = (none, c1))
    (hu : isUUID ref = false) (hts : r.allTeams = some ts)
    (hf : ts.find? (teamMatches ref) = none) :
    resolveTeam r c now ref = (none, c1, [RemoteCall.fetchAllTeams]) := by
  simp only [resolveTeam]
  rw [hget, hu, hts]
  simp [hf]

theorem resolveTeam_miss_scan_err {r : Remote} {c c1 : LinearCache} {now : Nat} {ref : String}
    (hget : getCache c now ("team:" ++ ref) = (none, c1))
    (hu : isUUID ref = false) (hts : r.allTeams = none) :
    resolveTeam r c now ref = (none, c1, [RemoteCall.fetchAllTeams]) := by
  simp only [resolveTeam]
  rw [hget, hu, hts]
  simp

/-! ### `resolveUser` case lemmas -/

theorem resolveUser_hit (r : Remote) {c c1 : LinearCache} {now : Nat} {ref : String}
    {v : CacheVal} (h : getCache c now ("user:" ++ ref) = (some v, c1)) :
    resolveUser r c now ref = (v.asUser, c1, []) := by
  simp only [resolveUser]
  rw [h]

theorem resolveUser_miss_uuid_some {r : Remote} {c c1 : LinearCache} {now : Nat} {ref : String}
    {t : User} (hget : getCache c now ("user:" ++ ref) = (none, c1))
    (hu : isUUID ref = true) (ht : r.userById ref = some t) :
    resolveUser r c now ref =
      (some t, setCache c1 now ("user:" ++ ref) (CacheVal.user t),
        [RemoteCall.fetchUserById ref]) := by
  simp only [resolveUser]
  rw [hget, hu, ht]
  simp

theorem resolveUser_miss_uuid_none {r : Remote} {c c1 : LinearCache} {now : Nat} {ref : String}
    (hget : getCache c now ("user:" ++ ref) = (none, c1))
    (hu : isUUID ref = true) (ht : r.userById ref = none) :
    resolveUser r c now ref = (none, c1, [RemoteCall.fetchUserById ref]) := by
  simp only [resolveUser]
  rw [hget, hu, ht]
  simp

theorem resolveUser_miss_found {r : Remote} {c c1 : LinearCache} {now : Nat} {ref : String}
    {ts : List User} {t : User} (hget : getCache c now ("user:" ++ ref) = (none, c1))
    (hu : isUUID ref = false) (hts : r.allUsers = some ts)
    (hf : ts.find? (userMatches ref) = some t) :
    resolveUser r c now ref =
      (some t, setCache c1 now ("user:" ++ ref) (CacheVal.user t),
        [RemoteCall.fetchAllUsers]) := by
  simp only [resolveUser]
  rw [hget, hu, hts]
  simp [hf]

theorem resolveUser_miss_notfound {r : Remote} {c c1 : LinearCache} {now : Nat} {ref : String}
    {ts : List User} (hget : getCache c now ("user:" ++ ref) = (none, c1))
    (hu : isUUID ref = false) (hts : r.allUsers = some ts)
    (hf : ts.find? (userMatches ref) = none) :
    resolveUser r c now ref = (none, c1, [RemoteCall.fetchAllUsers]) := by
  simp only [resolveUser]
  rw [hget, hu, hts]
  simp [hf]

theorem resolveUser_miss_scan_err {r : Remote} {c c1 : LinearCache} {now : Nat} {ref : String}
    (hget : getCache c now ("user:" ++ ref) = (none, c1))
    (hu : isUUID ref = false) (hts : r.allUsers = none) :
    resolveUser r c now ref = (none, c1, [RemoteCall.fetchAllUsers]) := by
  simp only [resolveUser]
  rw [hget, hu, hts]
  simp

/-! ### `resolveProject` case lemmas -/

theorem resolveProject_hit (r : Remote) {c c1 : LinearCache} {now : Nat} {ref : String}
    {v : CacheVal} (h : getCache c now ("project:" ++ ref) = (some v, c1)) :
    resolveProject r c now ref = (v.asProject, c1, []) := by
  simp only [resolveProject]
  rw [h]

theorem resolveProject_miss_uuid_some {r : Remote} {c c1 : LinearCache} {now : Nat} {ref : String}
    {t : Project} (hget : getCache c now ("project:" ++ ref) = (none, c1))
    (hu : isUUID ref = true) (ht : r.projectById ref = some t) :
    resolveProject r c now ref =
      (some t, setCache c1 now ("project:" ++ ref) (CacheVal.project t),
        [RemoteCall.fetchProjectById ref]) := by
  simp only [resolveProject]
  rw [hget, hu, ht]
  simp

theorem resolveProject_miss_uuid_none {r : Remote} {c c1 : LinearCache} {now : Nat} {ref : String}
    (hget : getCache c now ("project:" ++ ref) = (none, c1))
    (hu : isUUID ref = true) (ht : r.projectById ref = none) :
    resolveProject r c now ref = (none, c1, [RemoteCall.fetchProjectById ref]) := by
  simp only [resolveProject]
  rw [hget, hu, ht]
  simp

theorem resolveProject_miss_found {r : Remote} {c c1 : LinearCache} {now : Nat} {ref : String}
    {ts : List Project} {t : Project} (hget : getCache c now ("project:" ++ ref) = (none, c1))
    (hu : isUUID ref = false) (hts : r.allProjects = some ts)
    (hf : ts.find? (projectMatches ref) = some t) :
    resolveProject r c now ref =
      (some t, setCache c1 now ("project:" ++ ref) (CacheVal.project t),
        [RemoteCall.fetchAllProjects]) := by
  simp only [resolveProject]
  rw [hget, hu, hts]
  simp [hf]

theorem resolveProject_miss_notfound {r : Remote} {c c1 : LinearCache} {now : Nat} {ref : String}
    {ts : List Project} (hget : getCache c now ("project:" ++ ref) = (none, c1))
    (hu : isUUID ref = false) (hts : r.allProjects = some ts)
    (hf : ts.find? (projectMatches ref) = none) :
    resolveProject r c now ref = (none, c1, [RemoteCall.fetchAllProjects]) := by
  simp only [resolveProject]
  rw [hget, hu, hts]
  simp [hf]

theorem resolveProject_miss_scan_err {r : Remote} {c c1 : LinearCache} {now : Nat} {ref : String}
    (hget : getCache c now ("project:" ++ ref) = (none, c1))
    (hu : isUUID ref = false) (hts : r.allProjects = none) :
    resolveProject r c now ref = (none, c1, [RemoteCall.fetchAllProjects]) := by
  simp only [resolveProject]
  rw [hget, hu, hts]
  simp

/-! ### `fetchStatesFor` and `resolveState` case lemmas -/

theorem fetchStatesFor_global (r : Remote) :
    fetchStatesFor r none = (r.allStates, [RemoteCall.fetchAllStates]) := rfl

theorem fetchStatesFor_not_uuid {r : Remote} {tid : String}
    (h : (!(tid == "") && isUUID tid) = false) :
    fetchStatesFor r (some tid) = (r.allStates, [RemoteCall.fetchAllStates]) := by
  simp only [fetchStatesFor]
  rw [h]
  simp

theorem fetchStatesFor_team_some {r : Remote} {tid : String} {t : Team}
    (h : (!(tid == "") && isUUID tid) = true) (ht : r.teamById tid = some t) :
    fetchStatesFor r (some tid) =
      (r.teamStates tid, [RemoteCall.fetchTeamById tid, RemoteCall.fetchTeamStates tid]) := by
  simp only [fetchStatesFor]
  rw [h, ht]
  simp

theorem fetchStatesFor_team_none {r : Remote} {tid : String}
    (h : (!(tid == "") && isUUID tid) = true) (ht : r.teamById tid = none) :
    fetchStatesFor r (some tid) = (none, [RemoteCall.fetchTeamById tid]) := by
  simp only [fetchStatesFor]
  rw [h, ht]
  simp

theorem resolveState_hit (r : Remote) {c c1 : LinearCache} {now : Nat} {ref : String}
    {tid : Option String} {v : CacheVal}
    (h : getCache c now (stateCacheKey ref tid) = (some v, c1)) :
    resolveState r c now ref tid = (v.asState, c1, []) := by
  simp only [resolveState]
  rw [h]

theorem resolveState_miss_uuid_some {r : Remote} {c c1 : LinearCache} {now : Nat}
    {ref : String} {tid : Option String} {s : WorkflowState}
    (hget : getCache c now (stateCacheKey ref tid) = (none, c1))
    (hu : isUUID ref = true) (hs : r.stateById ref = some s) :
    resolveState r c now ref tid =
      (some s, setCache c1 now (stateCacheKey ref tid) (CacheVal.state s),
        [RemoteCall.fetchStateById ref]) := by
  simp only [resolveState]
  rw [hget, hu, hs]
  simp

theorem resolveState_miss_uuid_none {r : Remote} {c c1 : LinearCache} {now : Nat}
    {ref : String} {tid : Option String}
    (hget : getCache c now (stateCacheKey ref tid) = (none, c1))
    (hu : isUUID ref = true) (hs : r.stateById ref = none) :
    resolveState r c now ref tid = (none, c1, [RemoteCall.fetchStateById ref]) := by
  simp only [resolveState]
  rw [hget, hu, hs]
  simp

theorem resolveState_miss_found {r : Remote} {c c1 : LinearCache} {now : Nat}
    {ref : String} {tid : Option String} {ss : List WorkflowState} {ks : List RemoteCall}
    {s : WorkflowState} (hget : getCache c now (stateCacheKey ref tid) = (none, c1))
    (hu : isUUID ref = false) (hfs : fetchStatesFor r tid = (some ss, ks))
    (hf : ss.find? (stateMatches ref) = some s) :
    resolveState r c now ref tid =
      (some s, setCache c1 now (stateCacheKey ref tid) (CacheVal.state s), ks) := by
  simp only [resolveState]
  rw [hget, hu, hfs]
  simp [hf]

theorem resolveState_miss_notfound {r : Remote} {c c1 : LinearCache} {now : Nat}
    {ref : String} {tid : Option String} {ss : List WorkflowState} {ks : List RemoteCall}
    (hget : getCache c now (stateCacheKey ref tid) = (none, c1))
    (hu : isUUID ref = false) (hfs : fetchStatesFor r tid = (some ss, ks))
    (hf : ss.find? (stateMatches ref) = none) :
    resolveState r c now ref tid = (none, c1, ks) := by
  simp only [resolveState]
  rw [hget, hu, hfs]
  simp [hf]

theorem resolveState_miss_scan_err {r : Remote} {c c1 : LinearCache} {now : Nat}
    {ref : String} {tid : Option String} {ks : List RemoteCall}
    (hget : getCache c now (stateCacheKey ref tid) = (none, c1))
    (hu : isUUID ref = false) (hfs : fetchStatesFor r tid = (none, ks)) :
    resolveState r c now ref tid = (none, c1, ks) := by
  simp only [resolveState]
  rw [hget, hu, hfs]
  simp

/-! ### Derived resolver lemmas -/

/-- Case analysis over the execution of `resolveTeam`. -/
theorem resolveTeam_rec (r : Remote) (c : LinearCache) (now : Nat) (ref : String)
    {motive : Resolved (Option Team) → Prop}
    (hit : ∀ v c1, getCache c now ("team:" ++ ref) = (some v, c1) →
      motive (v.asTeam, c1, []))
    (uuidSome : ∀ c1 (t : Team), getCache c now ("team:" ++ ref) = (none, c1) →
      isUUID ref = true → r.teamById ref = some t →
      motive (some t, setCache c1 now ("team:" ++ ref) (CacheVal.team t),
        [RemoteCall.fetchTeamById ref]))
    (uuidNone : ∀ c1, getCache c now ("team:" ++ ref) = (none, c1) →
      isUUID ref = true → r.teamById ref = none →
      motive (none, c1, [RemoteCall.fetchTeamById ref]))
    (found : ∀ c1 ts (t : Team), getCache c now ("team:" ++ ref) = (none, c1) →
      isUUID ref = false → r.allTeams = some ts → ts.find? (teamMatches ref) = some t →
      motive (some t, setCache c1 now ("team:" ++ ref) (CacheVal.team t),
        [RemoteCall.fetchAllTeams]))
    (notfound : ∀ c1 ts, getCache c now ("team:" ++ ref) = (none, c1) →
      isUUID ref = false → r.allTeams = some ts → ts.find? (teamMatches ref) = none →
      motive (none, c1, [RemoteCall.fetchAllTeams]))
    (scanErr : ∀ c1, getCache c now ("team:" ++ ref) = (none, c1) →
      isUUID ref = false → r.allTeams = none →
      motive (none, c1, [RemoteCall.fetchAllTeams])) :
    motive (resolveTeam r c now ref) := by
  rcases hg : getCache c now ("team:" ++ ref) with ⟨o, c1⟩
  cases o with
  | some v =>
      rw [resolveTeam_hit r hg]
      exact hit v c1 hg
  | none =>
      cases hu : isUUID ref with
      | true =>
          cases ht : r.teamById ref with
          | some t =>
              rw [resolveTeam_miss_uuid_some hg hu ht]
              exact uuidSome c1 t hg hu ht
          | none =>
              rw [resolveTeam_miss_uuid_none hg hu ht]
              exact uuidNone c1 hg hu ht
      | false =>
          cases hts : r.allTeams with
          | some ts =>
              cases hf : ts.find? (teamMatches ref) with
              | some t =>
                  rw [resolveTeam_miss_found hg hu hts hf]
                  exact found c1 ts t hg hu hts hf
              | none =>
                  rw [resolveTeam_miss_notfound hg hu hts hf]
                  exact notfound c1 ts hg hu hts hf
          | none =>
              rw [resolveTeam_miss_scan_err hg hu hts]
              exact scanErr c1 hg hu hts

/-- After a successful resolution that consulted the remote, a second
resolution within the TTL window is a pure cache hit: the same entity, the
same cache, zero remote calls. -/
theorem resolveTeam_cached_roundtrip {r : Remote} {c c1 : LinearCache} {now : Nat}
    {ref : String} {t : Team} {calls : List RemoteCall}
    (h : resolveTeam r c now ref = (some t, c1, calls)) (hne : calls ≠ [])
    {now2 : Nat} (h2 : now2 < now + CACHE_TTL) :
    resolveTeam r c1 now2 ref = (some t, c1, []) := by
  revert h
  apply resolveTeam_rec r c now ref
    (motive := fun res => res = (some t, c1, calls) → resolveTeam r c1 now2 ref = (some t, c1, []))
  · intro v c0 _ heq
    simp only [Prod.mk.injEq] at heq
    exact absurd heq.2.2.symm hne
  · intro c0 t0 _ _ _ heq
    simp only [Prod.mk.injEq, Option.some.injEq] at heq
    obtain ⟨rfl, hcache, -⟩ := heq
    rw [← hcache]
    rw [resolveTeam_hit r (getCache_setCache_live c0 ("team:" ++ ref) (CacheVal.team t0) h2)]
    rfl
  · intro c0 _ _ _ heq
    simp only [Prod.mk.injEq] at heq
    exact absurd heq.1 (by simp)
  · intro c0 ts t0 _ _ _ _ heq
    simp only [Prod.mk.injEq, Option.some.injEq] at heq
    obtain ⟨rfl, hcache, -⟩ := heq
    rw [← hcache]
    rw [resolveTeam_hit r (getCache_setCache_live c0 ("team:" ++ ref) (CacheVal.team t0) h2)]
    rfl
  · intro c0 ts _ _ _ _ heq
    simp only [Prod.mk.injEq] at heq
    exact absurd heq.1 (by simp)
  · intro c0 _ _ _ heq
    simp only [Prod.mk.injEq] at heq
    exact absurd heq.1 (by simp)

/-- A resolution whose cache lookup misses always performs a remote call. -/
theorem resolveTeam_calls_of_miss {r : Remote} {c : LinearCache} {now : Nat} {ref : String}
    (h : (getCache c now ("team:" ++ ref)).1 = none) :
    (resolveTeam r c now ref).2.2 ≠ [] := by
  apply resolveTeam_rec r c now ref (motive := fun res => res.2.2 ≠ [])
  · intro v c1 hg
    rw [hg] at h
    exact absurd h (by simp)
  all_goals intros
  all_goals simp

/-- A failed resolution writes nothing: any value binding surviving in the
output cache was already present. -/
theorem resolveTeam_fail_no_write {r : Remote} {c c1 : LinearCache} {now : Nat}
    {ref : String} {calls : List RemoteCall}
    (h : resolveTeam r c now ref = (none, c1, calls)) :
    (∀ k v, mapGet c1.cache k = some v → mapGet c.cache k = some v) ∧
    (∀ k e, mapGet c1.cacheExpiry k = some e → mapGet c.cacheExpiry k = some e) := by
  revert h
  apply resolveTeam_rec r c now ref
    (motive := fun res => res = (none, c1, calls) →
      (∀ k v, mapGet c1.cache k = some v → mapGet c.cache k = some v) ∧
      (∀ k e, mapGet c1.cacheExpiry k = some e → mapGet c.cacheExpiry k = some e))
  · intro v c0 hg heq
    simp only [Prod.mk.injEq] at heq
    obtain ⟨-, rfl, -⟩ := heq
    constructor
    · intro k v hk
      exact getCache_snd_cache_sub (by rw [hg]; exact hk)
    · intro k e hk
      exact getCache_snd_expiry_sub (by rw [hg]; exact hk)
  · intro c0 t0 _ _ _ heq
    simp only [Prod.mk.injEq] at heq
    exact absurd heq.1 (by simp)
  · intro c0 hg _ _ heq
    simp only [Prod.mk.injEq] at heq
    obtain ⟨-, rfl, -⟩ := heq
    constructor
    · intro k v hk
      exact getCache_snd_cache_sub (by rw [hg]; exact hk)
    · intro k e hk
      exact getCache_snd_expiry_sub (by rw [hg]; exact hk)
  · intro c0 ts t0 _ _ _ _ heq
    simp only [Prod.mk.injEq] at heq
    exact absurd heq.1 (by simp)
  · intro c0 ts hg _ _ _ heq
    simp only [Prod.mk.injEq] at heq
    obtain ⟨-, rfl, -⟩ := heq
    constructor
    · intro k v hk
      exact getCache_snd_cache_sub (by rw [hg]; exact hk)
    · intro k e hk
      exact getCache_snd_expiry_sub (by rw [hg]; exact hk)
  · intro c0 hg _ _ heq
    simp only [Prod.mk.injEq] at heq
    obtain ⟨-, rfl, -⟩ := heq
    constructor
    · intro k v hk
      exact getCache_snd_cache_sub (by rw [hg]; exact hk)
    · intro k e hk
      exact getCache_snd_expiry_sub (by rw [hg]; exact hk)

/-- A cache miss is stable: the lookup's output cache misses the same key at
every later (or earlier) instant, since eviction removed any binding and a
hit-with-missing-value leaves the value map unchanged. -/
theorem getCache_miss_persists {c c1 : LinearCache} {now : Nat} {key : String}
    (h : getCache c now key = (none, c1)) (now2 : Nat) :
    (getCache c1 now2 key).1 = none := by
  by_cases hv : isCacheValid c now key
  · rw [getCache_fst_of_valid hv] at h
    simp only [Prod.mk.injEq] at h
    obtain ⟨hm, rfl⟩ := h
    by_cases hv2 : isCacheValid c now2 key
    · rw [getCache_fst_of_valid hv2]
      exact hm
    · rw [getCache_of_invalid (by simpa using hv2)]
  · rw [getCache_of_invalid (by simpa using hv)] at h
    simp only [Prod.mk.injEq] at h
    obtain ⟨-, rfl⟩ := h
    have hv2 : isCacheValid
        { cache := mapDelete c.cache key, cacheExpiry := mapDelete c.cacheExpiry key }
        now2 key = false := by
      simp [isCacheValid, mapGet_mapDelete_self]
    rw [getCache_of_invalid hv2]

/-- After a failed remote-consulting resolution, a repeat attempt consults the
remote again: the failure cached nothing. -/
theorem resolveTeam_remote_again {r r2 : Remote} {c c1 : LinearCache} {now : Nat}
    {ref : String} {calls : List RemoteCall}
    (h : resolveTeam r c now ref = (none, c1, calls)) (hne : calls ≠ []) (now2 : Nat) :
    (resolveTeam r2 c1 now2 ref).2.2 ≠ [] := by
  revert h
  apply resolveTeam_rec r c now ref
    (motive := fun res => res = (none, c1, calls) → (resolveTeam r2 c1 now2 ref).2.2 ≠ [])
  · intro v c0 _ heq
    simp only [Prod.mk.injEq] at heq
    exact absurd heq.2.2.symm hne
  · intro c0 t0 _ _ _ heq
    simp only [Prod.mk.injEq] at heq
    exact absurd heq.1 (by simp)
  · intro c0 hg _ _ heq
    simp only [Prod.mk.injEq] at heq
    obtain ⟨-, rfl, -⟩ := heq
    exact resolveTeam_calls_of_miss (getCache_miss_persists hg now2)
  · intro c0 ts t0 _ _ _ _ heq
    simp only [Prod.mk.injEq] at heq
    exact absurd heq.1 (by simp)
  · intro c0 ts hg _ _ _ heq
    simp only [Prod.mk.injEq] at heq
    obtain ⟨-, rfl, -⟩ := heq
    exact resolveTeam_calls_of_miss (getCache_miss_persists hg now2)
  · intro c0 hg _ _ heq
    simp only [Prod.mk.injEq] at heq
    obtain ⟨-, rfl, -⟩ := heq
    exact resolveTeam_calls_of_miss (getCache_miss_persists hg now2)

/-- A successful remote-consulting resolution returns an entity obtained from
the remote catalog: the direct fetch's record, or a member of the fetched
collection. -/
theorem resolveTeam_success_from_remote {r : Remote} {c c1 : LinearCache} {now : Nat}
    {ref : String} {t : Team} {calls : List RemoteCall}
    (h : resolveTeam r c now ref = (some t, c1, calls)) (hne : calls ≠ []) :
    r.teamById ref = some t ∨ ∃ ts, r.allTeams = some ts ∧ t ∈ ts := by
  revert h
  apply resolveTeam_rec r c now ref
    (motive := fun res => res = (some t, c1, calls) →
      r.teamById ref = some t ∨ ∃ ts, r.allTeams = some ts ∧ t ∈ ts)
  · intro v c0 _ heq
    simp only [Prod.mk.injEq] at heq
    exact absurd heq.2.2.symm hne
  · intro c0 t0 _ _ ht heq
    simp only [Prod.mk.injEq, Option.some.injEq] at heq
    obtain ⟨rfl, -, -⟩ := heq
    exact Or.inl ht
  · intro c0 _ _ _ heq
    simp only [Prod.mk.injEq] at heq
    exact absurd heq.1 (by simp)
  · intro c0 ts t0 _ _ hts hf heq
    simp only [Prod.mk.injEq, Option.some.injEq] at heq
    obtain ⟨rfl, -, -⟩ := heq
    exact Or.inr ⟨ts, hts, List.mem_of_find?_eq_some hf⟩
  · intro c0 ts _ _ _ _ heq
    simp only [Prod.mk.injEq] at heq
    exact absurd heq.1 (by simp)
  · intro c0 _ _ _ heq
    simp only [Prod.mk.injEq] at heq
    exact absurd heq.1 (by simp)

/-- Every resolver call is an entity-catalog read (never an issue-level call). -/
theorem resolveTeam_entity_reads (r : Remote) (c : LinearCache) (now : Nat) (ref : String) :
    ∀ k ∈ (resolveTeam r c now ref).2.2, k.isEntityRead = true := by
  apply resolveTeam_rec r c now ref
    (motive := fun res => ∀ k ∈ res.2.2, k.isEntityRead = true)
  all_goals intros
  all_goals simp_all [RemoteCall.isEntityRead]

/-- Case analysis over the execution of `resolveUser`. -/
theorem resolveUser_rec (r : Remote) (c : LinearCache) (now : Nat) (ref : String)
    {motive : Resolved (Option User) → Prop}
    (hit : ∀ v c1, getCache c now ("user:" ++ ref) = (some v, c1) →
      motive (v.asUser, c1, []))
    (uuidSome : ∀ c1 (t : User), getCache c now ("user:" ++ ref) = (none, c1) →
      isUUID ref = true → r.userById ref = some t →
      motive (some t, setCache c1 now ("user:" ++ ref) (CacheVal.user t),
        [RemoteCall.fetchUserById ref]))
    (uuidNone : ∀ c1, getCache c now ("user:" ++ ref) = (none, c1) →
      isUUID ref = true → r.userById ref = none →
      motive (none, c1, [RemoteCall.fetchUserById ref]))
    (found : ∀ c1 ts (t : User), getCache c now ("user:" ++ ref) = (none, c1) →
      isUUID ref = false → r.allUsers = some ts → ts.find? (userMatches ref) = some t →
      motive (some t, setCache c1 now ("user:" ++ ref) (CacheVal.user t),
        [RemoteCall.fetchAllUsers]))
    (notfound : ∀ c1 ts, getCache c now ("user:" ++ ref) = (none, c1) →
      isUUID ref = false → r.allUsers = some ts → ts.find? (userMatches ref) = none →
      motive (none, c1, [RemoteCall.fetchAllUsers]))
    (scanErr : ∀ c1, getCache c now ("user:" ++ ref) = (none, c1) →
      isUUID ref = false → r.allUsers = none →
      motive (none, c1, [RemoteCall.fetchAllUsers])) :
    motive (resolveUser r c now ref) := by
  rcases hg : getCache c now ("user:" ++ ref) with ⟨o, c1⟩
  cases o with
  | some v =>
      rw [resolveUser_hit r hg]
      exact hit v c1 hg
  | none =>
      cases hu : isUUID ref with
      | true =>
          cases ht : r.userById ref with
          | some t =>
              rw [resolveUser_miss_uuid_some hg hu ht]
              exact uuidSome c1 t hg hu ht
          | none =>
              rw [resolveUser_miss_uuid_none hg hu ht]
              exact uuidNone c1 hg hu ht
      | false =>
          cases hts : r.allUsers with
          | some ts =>
              cases hf : ts.find? (userMatches ref) with
              | some t =>
                  rw [resolveUser_miss_found hg hu hts hf]
                  exact found c1 ts t hg hu hts hf
              | none =>
                  rw [resolveUser_miss_notfound hg hu hts hf]
                  exact notfound c1 ts hg hu hts hf
          | none =>
              rw [resolveUser_miss_scan_err hg hu hts]
              exact scanErr c1 hg hu hts

/-- After a successful resolution that consulted the remote, a second
resolution within the TTL window is a pure cache hit: the same entity, the
same cache, zero remote calls. -/
theorem resolveUser_cached_roundtrip {r : Remote} {c c1 : LinearCache} {now : Nat}
    {ref : String} {t : User} {calls : List RemoteCall}
    (h : resolveUser r c now ref = (some t, c1, calls)) (hne : calls ≠ [])
    {now2 : Nat} (h2 : now2 < now + CACHE_TTL) :
    resolveUser r c1 now2 ref = (some t, c1, []) := by
  revert h
  apply resolveUser_rec r c now ref
    (motive := fun res => res = (some t, c1, calls) → resolveUser r c1 now2 ref = (some t, c1, []))
  · intro v c0 _ heq
    simp only [Prod.mk.injEq] at heq
    exact absurd heq.2.2.symm hne
  · intro c0 t0 _ _ _ heq
    simp only [Prod.mk.injEq, Option.some.injEq] at heq
    obtain ⟨rfl, hcache, -⟩ := heq
    rw [← hcache]
    rw [resolveUser_hit r (getCache_setCache_live c0 ("user:" ++ ref) (CacheVal.user t0) h2)]
    rfl
  · intro c0 _ _ _ heq
    simp only [Prod.mk.injEq] at heq
    exact absurd heq.1 (by simp)
  · intro c0 ts t0 _ _ _ _ heq
    simp only [Prod.mk.injEq, Option.some.injEq] at heq
    obtain ⟨rfl, hcache, -⟩ := heq
    rw [← hcache]
    rw [resolveUser_hit r (getCache_setCache_live c0 ("user:" ++ ref) (CacheVal.user t0) h2)]
    rfl
  · intro c0 ts _ _ _ _ heq
    simp only [Prod.mk.injEq] at heq
    exact absurd heq.1 (by simp)
  · intro c0 _ _ _ heq
    simp only [Prod.mk.injEq] at heq
    exact absurd heq.1 (by simp)

/-- A resolution whose cache lookup misses always performs a remote call. -/
theorem resolveUser_calls_of_miss {r : Remote} {c : LinearCache} {now : Nat} {ref : String}
    (h : (getCache c now ("user:" ++ ref)).1 = none) :
    (resolveUser r c now ref).2.2 ≠ [] := by
  apply resolveUser_rec r c now ref (motive := fun res => res.2.2 ≠ [])
  · intro v c1 hg
    rw [hg] at h
    exact absurd h (by simp)
  all_goals intros
  all_goals simp

/-- A failed resolution writes nothing: any value binding surviving in the
output cache was already present. -/
theorem resolveUser_fail_no_write {r : Remote} {c c1 : LinearCache} {now : Nat}
    {ref : String} {calls : List RemoteCall}
    (h : resolveUser r c now ref = (none, c1, calls)) :
    (∀ k v, mapGet c1.cache k = some v → mapGet c.cache k = some v) ∧
    (∀ k e, mapGet c1.cacheExpiry k = some e → mapGet c.cacheExpiry k = some e) := by
  revert h
  apply resolveUser_rec r c now ref
    (motive := fun res => res = (none, c1, calls) →
      (∀ k v, mapGet c1.cache k = some v → mapGet c.cache k = some v) ∧
      (∀ k e, mapGet c1.cacheExpiry k = some e → mapGet c.cacheExpiry k = some e))
  · intro v c0 hg heq
    simp only [Prod.mk.injEq] at heq
    obtain ⟨-, rfl, -⟩ := heq
    constructor
    · intro k v hk
      exact getCache_snd_cache_sub (by rw [hg]; exact hk)
    · intro k e hk
      exact getCache_snd_expiry_sub (by rw [hg]; exact hk)
  · intro c0 t0 _ _ _ heq
    simp only [Prod.mk.injEq] at heq
    exact absurd heq.1 (by simp)
  · intro c0 hg _ _ heq
    simp only [Prod.mk.injEq] at heq
    obtain ⟨-, rfl, -⟩ := heq
    constructor
    · intro k v hk
      exact getCache_snd_cache_sub (by rw [hg]; exact hk)
    · intro k e hk
      exact getCache_snd_expiry_sub (by rw [hg]; exact hk)
  · intro c0 ts t0 _ _ _ _ heq
    simp only [Prod.mk.injEq] at heq
    exact absurd heq.1 (by simp)
  · intro c0 ts hg _ _ _ heq
    simp only [Prod.mk.injEq] at heq
    obtain ⟨-, rfl, -⟩ := heq
    constructor
    · intro k v hk
      exact getCache_snd_cache_sub (by rw [hg]; exact hk)
    · intro k e hk
      exact getCache_snd_expiry_sub (by rw [hg]; exact hk)
  · intro c0 hg _ _ heq
    simp only [Prod.mk.injEq] at heq
    obtain ⟨-, rfl, -⟩ := heq
    constructor
    · intro k v hk
      exact getCache_snd_cache_sub (by rw [hg]; exact hk)
    · intro k e hk
      exact getCache_snd_expiry_sub (by rw [hg]; exact hk)

/-- After a failed remote-consulting resolution, a repeat attempt consults the
remote again: the failure cached nothing. -/
theorem resolveUser_remote_again {r r2 : Remote} {c c1 : LinearCache} {now : Nat}
    {ref : String} {calls : List RemoteCall}
    (h : resolveUser r c now ref = (none, c1, calls)) (hne : calls ≠ []) (now2 : Nat) :
    (resolveUser r2 c1 now2 ref).2.2 ≠ [] := by
  revert h
  apply resolveUser_rec r c now ref
    (motive := fun res => res = (none, c1, calls) → (resolveUser r2 c1 now2 ref).2.2 ≠ [])
  · intro v c0 _ heq
    simp only [Prod.mk.injEq] at heq
    exact absurd heq.2.2.symm hne
  · intro c0 t0 _ _ _ heq
    simp only [Prod.mk.injEq] at heq
    exact absurd heq.1 (by simp)
  · intro c0 hg _ _ heq
    simp only [Prod.mk.injEq] at heq
    obtain ⟨-, rfl, -⟩ := heq
    exact resolveUser_calls_of_miss (getCache_miss_persists hg now2)
  · intro c0 ts t0 _ _ _ _ heq
    simp only [Prod.mk.injEq] at heq
    exact absurd heq.1 (by simp)
  · intro c0 ts hg _ _ _ heq
    simp only [Prod.mk.injEq] at heq
    obtain ⟨-, rfl, -⟩ := heq
    exact resolveUser_calls_of_miss (getCache_miss_persists hg now2)
  · intro c0 hg _ _ heq
    simp only [Prod.mk.injEq] at heq
    obtain ⟨-, rfl, -⟩ := heq
    exact resolveUser_calls_of_miss (getCache_miss_persists hg now2)

/-- A successful remote-consulting resolution returns an entity obtained from
the remote catalog: the direct fetch's record, or a member of the fetched
collection. -/
theorem resolveUser_success_from_remote {r : Remote} {c c1 : LinearCache} {now : Nat}
    {ref : String} {t : User} {calls : List RemoteCall}
    (h : resolveUser r c now ref = (some t, c1, calls)) (hne : calls ≠ []) :
    r.userById ref = some t ∨ ∃ ts, r.allUsers = some ts ∧ t ∈ ts := by
  revert h
  apply resolveUser_rec r c now ref
    (motive := fun res => res = (some t, c1, calls) →
      r.userById ref = some t ∨ ∃ ts, r.allUsers = some ts ∧ t ∈ ts)
  · intro v c0 _ heq
    simp only [Prod.mk.injEq] at heq
    exact absurd heq.2.2.symm hne
  · intro c0 t0 _ _ ht heq
    simp only [Prod.mk.injEq, Option.some.injEq] at heq
    obtain ⟨rfl, -, -⟩ := heq
    exact Or.inl ht
  · intro c0 _ _ _ heq
    simp only [Prod.mk.injEq] at heq
    exact absurd heq.1 (by simp)
  · intro c0 ts t0 _ _ hts hf heq
    simp only [Prod.mk.injEq, Option.some.injEq] at heq
    obtain ⟨rfl, -, -⟩ := heq
    exact Or.inr ⟨ts, hts, List.mem_of_find?_eq_some hf⟩
  · intro c0 ts _ _ _ _ heq
    simp only [Prod.mk.injEq] at heq
    exact absurd heq.1 (by simp)
  · intro c0 _ _ _ heq
    simp only [Prod.mk.injEq] at heq
    exact absurd heq.1 (by simp)

/-- Every resolver call is an entity-catalog read (never an issue-level call). -/
theorem resolveUser_entity_reads (r : Remote) (c : LinearCache) (now : Nat) (ref : String) :
    ∀ k ∈ (resolveUser r c now ref).2.2, k.isEntityRead = true := by
  apply resolveUser_rec r c now ref
    (motive := fun res => ∀ k ∈ res.2.2, k.isEntityRead = true)
  all_goals intros
  all_goals simp_all [RemoteCall.isEntityRead]

/-- Case analysis over the execution of `resolveProject`. -/
theorem resolveProject_rec (r : Remote) (c : LinearCache) (now : Nat) (ref : String)
    {motive : Resolved (Option Project) → Prop}
    (hit : ∀ v c1, getCache c now ("project:" ++ ref) = (some v, c1) →
      motive (v.asProject, c1, []))
    (uuidSome : ∀ c1 (t : Project), getCache c now ("project:" ++ ref) = (none, c1) →
      isUUID ref = true → r.projectById ref = some t →
      motive (some t, setCache c1 now ("project:" ++ ref) (CacheVal.project t),
        [RemoteCall.fetchProjectById ref]))
    (uuidNone : ∀ c1, getCache c now ("project:" ++ ref) = (none, c1) →
      isUUID ref = true → r.projectById ref = none →
      motive (none, c1, [RemoteCall.fetchProjectById ref]))
    (found : ∀ c1 ts (t : Project), getCache c now ("project:" ++ ref) = (none, c1) →
      isUUID ref = false → r.allProjects = some ts → ts.find? (projectMatches ref) = some t →
      motive (some t, setCache c1 now ("project:" ++ ref) (CacheVal.project t),
        [RemoteCall.fetchAllProjects]))
    (notfound : ∀ c1 ts, getCache c now ("project:" ++ ref) = (none, c1) →
      isUUID ref = false → r.allProjects = some ts → ts.find? (projectMatches ref) = none →
      motive (none, c1, [RemoteCall.fetchAllProjects]))
    (scanErr : ∀ c1, getCache c now ("project:" ++ ref) = (none, c1) →
      isUUID ref = false → r.allProjects = none →
      motive (none, c1, [RemoteCall.fetchAllProjects])) :
    motive (resolveProject r c now ref) := by
  rcases hg : getCache c now ("project:" ++ ref) with ⟨o, c1⟩
  cases o with
  | some v =>
      rw [resolveProject_hit r hg]
      exact hit v c1 hg
  | none =>
      cases hu : isUUID ref with
      | true =>
          cases ht : r.projectById ref with
          | some t =>
              rw [resolveProject_miss_uuid_some hg hu ht]
              exact uuidSome c1 t hg hu ht
          | none =>
              rw [resolveProject_miss_uuid_none hg hu ht]
              exact uuidNone c1 hg hu ht
      | false =>
          cases hts : r.allProjects with
          | some ts =>
              cases hf : ts.find? (projectMatches ref) with
              | some t =>
                  rw [resolveProject_miss_found hg hu hts hf]
                  exact found c1 ts t hg hu hts hf
              | none =>
                  rw [resolveProject_miss_notfound hg hu hts hf]
                  exact notfound c1 ts hg hu hts hf
          | none =>
              rw [resolveProject_miss_scan_err hg hu hts]
              exact scanErr c1 hg hu hts

/-- After a successful resolution that consulted the remote, a second
resolution within the TTL window is a pure cache hit: the same entity, the
same cache, zero remote calls. -/
theorem resolveProject_cached_roundtrip {r : Remote} {c c1 : LinearCache} {now : Nat}
    {ref : String} {t : Project} {calls : List RemoteCall}
    (h : resolveProject r c now ref = (some t, c1, calls)) (hne : calls ≠ [])
    {now2 : Nat} (h2 : now2 < now + CACHE_TTL) :
    resolveProject r c1 now2 ref = (some t, c1, []) := by
  revert h
  apply resolveProject_rec r c now ref
    (motive := fun res => res = (some t, c1, calls) → resolveProject r c1 now2 ref = (some t, c1, []))
  · intro v c0 _ heq
    simp only [Prod.mk.injEq] at heq
    exact absurd heq.2.2.symm hne
  · intro c0 t0 _ _ _ heq
    simp only [Prod.mk.injEq, Option.some.injEq] at heq
    obtain ⟨rfl, hcache, -⟩ := heq
    rw [← hcache]
    rw [resolveProject_hit r (getCache_setCache_live c0 ("project:" ++ ref) (CacheVal.project t0) h2)]
    rfl
  · intro c0 _ _ _ heq
    simp only [Prod.mk.injEq] at heq
    exact absurd heq.1 (by simp)
  · intro c0 ts t0 _ _ _ _ heq
    simp only [Prod.mk.injEq, Option.some.injEq] at heq
    obtain ⟨rfl, hcache, -⟩ := heq
    rw [← hcache]
    rw [resolveProject_hit r (getCache_setCache_live c0 ("project:" ++ ref) (CacheVal.project t0) h2)]
    rfl
  · intro c0 ts _ _ _ _ heq
    simp only [Prod.mk.injEq] at heq
    exact absurd heq.1 (by simp)
  · intro c0 _ _ _ heq
    simp only [Prod.mk.injEq] at heq
    exact absurd heq.1 (by simp)

/-- A resolution whose cache lookup misses always performs a remote call. -/
theorem resolveProject_calls_of_miss {r : Remote} {c : LinearCache} {now : Nat} {ref : String}
    (h : (getCache c now ("project:" ++ ref)).1 = none) :
    (resolveProject r c now ref).2.2 ≠ [] := by
  apply resolveProject_rec r c now ref (motive := fun res => res.2.2 ≠ [])
  · intro v c1 hg
    rw [hg] at h
    exact absurd h (by simp)
  all_goals intros
  all_goals simp

/-- A failed resolution writes nothing: any value binding surviving in the
output cache was already present. -/
theorem resolveProject_fail_no_write {r : Remote} {c c1 : LinearCache} {now : Nat}
    {ref : String} {calls : List RemoteCall}
    (h : resolveProject r c now ref = (none, c1, calls)) :
    (∀ k v, mapGet c1.cache k = some v → mapGet c.cache k = some v) ∧
    (∀ k e, mapGet c1.cacheExpiry k = some e → mapGet c.cacheExpiry k = some e) := by
  revert h
  apply resolveProject_rec r c now ref
    (motive := fun res => res = (none, c1, calls) →
      (∀ k v, mapGet c1.cache k = some v → mapGet c.cache k = some v) ∧
      (∀ k e, mapGet c1.cacheExpiry k = some e → mapGet c.cacheExpiry k = some e))
  · intro v c0 hg heq
    simp only [Prod.mk.injEq] at heq
    obtain ⟨-, rfl, -⟩ := heq
    constructor
    · intro k v hk
      exact getCache_snd_cache_sub (by rw [hg]; exact hk)
    · intro k e hk
      exact getCache_snd_expiry_sub (by rw [hg]; exact hk)
  · intro c0 t0 _ _ _ heq
    simp only [Prod.mk.injEq] at heq
    exact absurd heq.1 (by simp)
  · intro c0 hg _ _ heq
    simp only [Prod.mk.injEq] at heq
    obtain ⟨-, rfl, -⟩ := heq
    constructor
    · intro k v hk
      exact getCache_snd_cache_sub (by rw [hg]; exact hk)
    · intro k e hk
      exact getCache_snd_expiry_sub (by rw [hg]; exact hk)
  · intro c0 ts t0 _ _ _ _ heq
    simp only [Prod.mk.injEq] at heq
    exact absurd heq.1 (by simp)
  · intro c0 ts hg _ _ _ heq
    simp only [Prod.mk.injEq] at heq
    obtain ⟨-, rfl, -⟩ := heq
    constructor
    · intro k v hk
      exact getCache_snd_cache_sub (by rw [hg]; exact hk)
    · intro k e hk
      exact getCache_snd_expiry_sub (by rw [hg]; exact hk)
  · intro c0 hg _ _ heq
    simp only [Prod.mk.injEq] at heq
    obtain ⟨-, rfl, -⟩ := heq
    constructor
    · intro k v hk
      exact getCache_snd_cache_sub (by rw [hg]; exact hk)
    · intro k e hk
      exact getCache_snd_expiry_sub (by rw [hg]; exact hk)

/-- After a failed remote-consulting resolution, a repeat attempt consults the
remote again: the failure cached nothing. -/
theorem resolveProject_remote_again {r r2 : Remote} {c c1 : LinearCache} {now : Nat}
    {ref : String} {calls : List RemoteCall}
    (h : resolveProject r c now ref = (none, c1, calls)) (hne : calls ≠ []) (now2 : Nat) :
    (resolveProject r2 c1 now2 ref).2.2 ≠ [] := by
  revert h
  apply resolveProject_rec r c now ref
    (motive := fun res => res = (none, c1, calls) → (resolveProject r2 c1 now2 ref).2.2 ≠ [])
  · intro v c0 _ heq
    simp only [Prod.mk.injEq] at heq
    exact absurd heq.2.2.symm hne
  · intro c0 t0 _ _ _ heq
    simp only [Prod.mk.injEq] at heq
    exact absurd heq.1 (by simp)
  · intro c0 hg _ _ heq
    simp only [Prod.mk.injEq] at heq
    obtain ⟨-, rfl, -⟩ := heq
    exact resolveProject_calls_of_miss (getCache_miss_persists hg now2)
  · intro c0 ts t0 _ _ _ _ heq
    simp only [Prod.mk.injEq] at heq
    exact absurd heq.1 (by simp)
  · intro c0 ts hg _ _ _ heq
    simp only [Prod.mk.injEq] at heq
    obtain ⟨-, rfl, -⟩ := heq
    exact resolveProject_calls_of_miss (getCache_miss_persists hg now2)
  · intro c0 hg _ _ heq
    simp only [Prod.mk.injEq] at heq
    obtain ⟨-, rfl, -⟩ := heq
    exact resolveProject_calls_of_miss (getCache_miss_persists hg now2)

/-- A successful remote-consulting resolution returns an entity obtained from
the remote catalog: the direct fetch's record, or a member of the fetched
collection. -/
theorem resolveProject_success_from_remote {r : Remote} {c c1 : LinearCache} {now : Nat}
    {ref : String} {t : Project} {calls : List RemoteCall}
    (h : resolveProject r c now ref = (some t, c1, calls)) (hne : calls ≠ []) :
    r.projectById ref = some t ∨ ∃ ts, r.allProjects = some ts ∧ t ∈ ts := by
  revert h
  apply resolveProject_rec r c now ref
    (motive := fun res => res = (some t, c1, calls) →
      r.projectById ref = some t ∨ ∃ ts, r.allProjects = some ts ∧ t ∈ ts)
  · intro v c0 _ heq
    simp only [Prod.mk.injEq] at heq
    exact absurd heq.2.2.symm hne
  · intro c0 t0 _ _ ht heq
    simp only [Prod.mk.injEq, Option.some.injEq] at heq
    obtain ⟨rfl, -, -⟩ := heq
    exact Or.inl ht
  · intro c0 _ _ _ heq
    simp only [Prod.mk.injEq] at heq
    exact absurd heq.1 (by simp)
  · intro c0 ts t0 _ _ hts hf heq
    simp only [Prod.mk.injEq, Option.some.injEq] at heq
    obtain ⟨rfl, -, -⟩ := heq
    exact Or.inr ⟨ts, hts, List.mem_of_find?_eq_some hf⟩
  · intro c0 ts _ _ _ _ heq
    simp only [Prod.mk.injEq] at heq
    exact absurd heq.1 (by simp)
  · intro c0 _ _ _ heq
    simp only [Prod.mk.injEq] at heq
    exact absurd heq.1 (by simp)

/-- Every resolver call is an entity-catalog read (never an issue-level call). -/
theorem resolveProject_entity_reads (r : Remote) (c : LinearCache) (now : Nat) (ref : String) :
    ∀ k ∈ (resolveProject r c now ref).2.2, k.isEntityRead = true := by
  apply resolveProject_rec r c now ref
    (motive := fun res => ∀ k ∈ res.2.2, k.isEntityRead = true)
  all_goals intros
  all_goals simp_all [RemoteCall.isEntityRead]

/-- Case analysis over the execution of `resolveState`. -/
theorem resolveState_rec (r : Remote) (c : LinearCache) (now : Nat) (ref : String)
    (tid : Option String) {motive : Resolved (Option WorkflowState) → Prop}
    (hit : ∀ v c1, getCache c now (stateCacheKey ref tid) = (some v, c1) →
      motive (v.asState, c1, []))
    (uuidSome : ∀ c1 (s : WorkflowState), getCache c now (stateCacheKey ref tid) = (none, c1) →
      isUUID ref = true → r.stateById ref = some s →
      motive (some s, setCache c1 now (stateCacheKey ref tid) (CacheVal.state s),
        [RemoteCall.fetchStateById ref]))
    (uuidNone : ∀ c1, getCache c now (stateCacheKey ref tid) = (none, c1) →
      isUUID ref = true → r.stateById ref = none →
      motive (none, c1, [RemoteCall.fetchStateById ref]))
    (found : ∀ c1 ss ks (s : WorkflowState),
      getCache c now (stateCacheKey ref tid) = (none, c1) →
      isUUID ref = false → fetchStatesFor r tid = (some ss, ks) →
      ss.find? (stateMatches ref) = some s →
      motive (some s, setCache c1 now (stateCacheKey ref tid) (CacheVal.state s), ks))
    (notfound : ∀ c1 ss ks, getCache c now (stateCacheKey ref tid) = (none, c1) →
      isUUID ref = false → fetchStatesFor r tid = (some ss, ks) →
      ss.find? (stateMatches ref) = none →
      motive (none, c1, ks))
    (scanErr : ∀ c1 ks, getCache c now (stateCacheKey ref tid) = (none, c1) →
      isUUID ref = false → fetchStatesFor r tid = (none, ks) →
      motive (none, c1, ks)) :
    motive (resolveState r c now ref tid) := by
  rcases hg : getCache c now (stateCacheKey ref tid) with ⟨o, c1⟩
  cases o with
  | some v =>
      rw [resolveState_hit r hg]
      exact hit v c1 hg
  | none =>
      cases hu : isUUID ref with
      | true =>
          cases hs : r.stateById ref with
          | some s =>
              rw [resolveState_miss_uuid_some hg hu hs]
              exact uuidSome c1 s hg hu hs
          | none =>
              rw [resolveState_miss_uuid_none hg hu hs]
              exact uuidNone c1 hg hu hs
      | false =>
          rcases hfs : fetchStatesFor r tid with ⟨os, ks⟩
          cases os with
          | some ss =>
              cases hf : ss.find? (stateMatches ref) with
              | some s =>
                  rw [resolveState_miss_found hg hu hfs hf]
                  exact found c1 ss ks s hg hu hfs hf
              | none =>
                  rw [resolveState_miss_notfound hg hu hfs hf]
                  exact notfound c1 ss ks hg hu hfs hf
          | none =>
              rw [resolveState_miss_scan_err hg hu hfs]
              exact scanErr c1 ks hg hu hfs

/-- The states fetch always performs at least one remote call. -/
theorem fetchStatesFor_calls_ne (r : Remote) (tid : Option String) :
    (fetchStatesFor r tid).2 ≠ [] := by
  rcases tid with _ | t
  · simp [fetchStatesFor]
  · simp only [fetchStatesFor]
    by_cases h : (!(t == "") && isUUID t) = true
    · rw [h]
      cases r.teamById t <;> simp
    · rw [if_neg h]
      simp

/-- Every states-fetch call is an entity-catalog read. -/
theorem fetchStatesFor_entity_reads (r : Remote) (tid : Option String) :
    ∀ k ∈ (fetchStatesFor r tid).2, k.isEntityRead = true := by
  rcases tid with _ | t
  · simp [fetchStatesFor, RemoteCall.isEntityRead]
  · simp only [fetchStatesFor]
    by_cases h : (!(t == "") && isUUID t) = true
    · rw [h]
      cases r.teamById t <;> simp [RemoteCall.isEntityRead]
    · rw [if_neg h]
      simp [RemoteCall.isEntityRead]

/-- After a successful state resolution that consulted the remote, a second
resolution with the same reference and context within the TTL window is a
pure cache hit. -/
theorem resolveState_cached_roundtrip {r : Remote} {c c1 : LinearCache} {now : Nat}
    {ref : String} {tid : Option String} {s : WorkflowState} {calls : List RemoteCall}
    (h : resolveState r c now ref tid = (some s, c1, calls)) (hne : calls ≠ [])
    {now2 : Nat} (h2 : now2 < now + CACHE_TTL) :
    resolveState r c1 now2 ref tid = (some s, c1, []) := by
  revert h
  apply resolveState_rec r c now ref tid
    (motive := fun res => res = (some s, c1, calls) →
      resolveState r c1 now2 ref tid = (some s, c1, []))
  · intro v c0 _ heq
    simp only [Prod.mk.injEq] at heq
    exact absurd heq.2.2.symm hne
  · intro c0 s0 _ _ _ heq
    simp only [Prod.mk.injEq, Option.some.injEq] at heq
    obtain ⟨rfl, hcache, -⟩ := heq
    rw [← hcache]
    rw [resolveState_hit r
      (getCache_setCache_live c0 (stateCacheKey ref tid) (CacheVal.state s0) h2)]
    rfl
  · intro c0 _ _ _ heq
    simp only [Prod.mk.injEq] at heq
    exact absurd heq.1 (by simp)
  · intro c0 ss ks s0 _ _ _ _ heq
    simp only [Prod.mk.injEq, Option.some.injEq] at heq
    obtain ⟨rfl, hcache, -⟩ := heq
    rw [← hcache]
    rw [resolveState_hit r
      (getCache_setCache_live c0 (stateCacheKey ref tid) (CacheVal.state s0) h2)]
    rfl
  · intro c0 ss ks _ _ _ _ heq
    simp only [Prod.mk.injEq] at heq
    exact absurd heq.1 (by simp)
  · intro c0 ks _ _ _ heq
    simp only [Prod.mk.injEq] at heq
    exact absurd heq.1 (by simp)

/-- A state resolution whose cache lookup misses always performs a remote call. -/
theorem resolveState_calls_of_miss {r : Remote} {c : LinearCache} {now : Nat} {ref : String}
    {tid : Option String} (h : (getCache c now (stateCacheKey ref tid)).1 = none) :
    (resolveState r c now ref tid).2.2 ≠ [] := by
  apply resolveState_rec r c now ref tid (motive := fun res => res.2.2 ≠ [])
  · intro v c1 hg
    rw [hg] at h
    exact absurd h (by simp)
  · intros
    simp
  · intros
    simp
  · intro c1 ss ks s _ _ hfs _
    have := fetchStatesFor_calls_ne r tid
    rw [hfs] at this
    exact this
  · intro c1 ss ks _ _ hfs _
    have := fetchStatesFor_calls_ne r tid
    rw [hfs] at this
    exact this
  · intro c1 ks _ _ hfs
    have := fetchStatesFor_calls_ne r tid
    rw [hfs] at this
    exact this

/-- A failed state resolution writes nothing to the cache. -/
theorem resolveState_fail_no_write {r : Remote} {c c1 : LinearCache} {now : Nat}
    {ref : String} {tid : Option String} {calls : List RemoteCall}
    (h : resolveState r c now ref tid = (none, c1, calls)) :
    (∀ k v, mapGet c1.cache k = some v → mapGet c.cache k = some v) ∧
    (∀ k e, mapGet c1.cacheExpiry k = some e → mapGet c.cacheExpiry k = some e) := by
  revert h
  apply resolveState_rec r c now ref tid
    (motive := fun res => res = (none, c1, calls) →
      (∀ k v, mapGet c1.cache k = some v → mapGet c.cache k = some v) ∧
      (∀ k e, mapGet c1.cacheExpiry k = some e → mapGet c.cacheExpiry k = some e))
  · intro v c0 hg heq
    simp only [Prod.mk.injEq] at heq
    obtain ⟨-, rfl, -⟩ := heq
    refine ⟨fun k v hk => getCache_snd_cache_sub (by rw [hg]; exact hk),
      fun k e hk => getCache_snd_expiry_sub (by rw [hg]; exact hk)⟩
  · intro c0 s0 _ _ _ heq
    simp only [Prod.mk.injEq] at heq
    exact absurd heq.1 (by simp)
  · intro c0 hg _ _ heq
    simp only [Prod.mk.injEq] at heq
    obtain ⟨-, rfl, -⟩ := heq
    refine ⟨fun k v hk => getCache_snd_cache_sub (by rw [hg]; exact hk),
      fun k e hk => getCache_snd_expiry_sub (by rw [hg]; exact hk)⟩
  · intro c0 ss ks s0 _ _ _ _ heq
    simp only [Prod.mk.injEq] at heq
    exact absurd heq.1 (by simp)
  · intro c0 ss ks hg _ _ _ heq
    simp only [Prod.mk.injEq] at heq
    obtain ⟨-, rfl, -⟩ := heq
    refine ⟨fun k v hk => getCache_snd_cache_sub (by rw [hg]; exact hk),
      fun k e hk => getCache_snd_expiry_sub (by rw [hg]; exact hk)⟩
  · intro c0 ks hg _ _ heq
    simp only [Prod.mk.injEq] at heq
    obtain ⟨-, rfl, -⟩ := heq
    refine ⟨fun k v hk => getCache_snd_cache_sub (by rw [hg]; exact hk),
      fun k e hk => getCache_snd_expiry_sub (by rw [hg]; exact hk)⟩

/-- After a failed remote-consulting state resolution, a repeat attempt
consults the remote again. -/
theorem resolveState_remote_again {r r2 : Remote} {c c1 : LinearCache} {now : Nat}
    {ref : String} {tid : Option String} {calls : List RemoteCall}
    (h : resolveState r c now ref tid = (none, c1, calls)) (hne : calls ≠ []) (now2 : Nat) :
    (resolveState r2 c1 now2 ref tid).2.2 ≠ [] := by
  revert h
  apply resolveState_rec r c now ref tid
    (motive := fun res => res = (none, c1, calls) → (resolveState r2 c1 now2 ref tid).2.2 ≠ [])
  · intro v c0 _ heq
    simp only [Prod.mk.injEq] at heq
    exact absurd heq.2.2.symm hne
  · intro c0 s0 _ _ _ heq
    simp only [Prod.mk.injEq] at heq
    exact absurd heq.1 (by simp)
  · intro c0 hg _ _ heq
    simp only [Prod.mk.injEq] at heq
    obtain ⟨-, rfl, -⟩ := heq
    exact resolveState_calls_of_miss (getCache_miss_persists hg now2)
  · intro c0 ss ks s0 _ _ _ _ heq
    simp only [Prod.mk.injEq] at heq
    exact absurd heq.1 (by simp)
  · intro c0 ss ks hg _ _ _ heq
    simp only [Prod.mk.injEq] at heq
    obtain ⟨-, rfl, -⟩ := heq
    exact resolveState_calls_of_miss (getCache_miss_persists hg now2)
  · intro c0 ks hg _ _ heq
    simp only [Prod.mk.injEq] at heq
    obtain ⟨-, rfl, -⟩ := heq
    exact resolveState_calls_of_miss (getCache_miss_persists hg now2)

/-- A successful remote-consulting state resolution returns a record obtained
from the remote catalog. -/
theorem resolveState_success_from_remote {r : Remote} {c c1 : LinearCache} {now : Nat}
    {ref : String} {tid : Option String} {s : WorkflowState} {calls : List RemoteCall}
    (h : resolveState r c now ref tid = (some s, c1, calls)) (hne : calls ≠ []) :
    r.stateById ref = some s ∨
      ∃ ss ks, fetchStatesFor r tid = (some ss, ks) ∧ s ∈ ss := by
  revert h
  apply resolveState_rec r c now ref tid
    (motive := fun res => res = (some s, c1, calls) →
      r.stateById ref = some s ∨ ∃ ss ks, fetchStatesFor r tid = (some ss, ks) ∧ s ∈ ss)
  · intro v c0 _ heq
    simp only [Prod.mk.injEq] at heq
    exact absurd heq.2.2.symm hne
  · intro c0 s0 _ _ hs heq
    simp only [Prod.mk.injEq, Option.some.injEq] at heq
    obtain ⟨rfl, -, -⟩ := heq
    exact Or.inl hs
  · intro c0 _ _ _ heq
    simp only [Prod.mk.injEq] at heq
    exact absurd heq.1 (by simp)
  · intro c0 ss ks s0 _ _ hfs hf heq
    simp only [Prod.mk.injEq, Option.some.injEq] at heq
    obtain ⟨rfl, -, -⟩ := heq
    exact Or.inr ⟨ss, ks, hfs, List.mem_of_find?_eq_some hf⟩
  · intro c0 ss ks _ _ _ _ heq
    simp only [Prod.mk.injEq] at heq
    exact absurd heq.1 (by simp)
  · intro c0 ks _ _ _ heq
    simp only [Prod.mk.injEq] at heq
    exact absurd heq.1 (by simp)

/-- Every state-resolver call is an entity-catalog read. -/
theorem resolveState_entity_reads (r : Remote) (c : LinearCache) (now : Nat) (ref : String)
    (tid : Option String) :
    ∀ k ∈ (resolveState r c now ref tid).2.2, k.isEntityRead = true := by
  apply resolveState_rec r c now ref tid
    (motive := fun res => ∀ k ∈ res.2.2, k.isEntityRead = true)
  · intros
    simp_all
  · intros
    simp_all [RemoteCall.isEntityRead]
  · intros
    simp_all [RemoteCall.isEntityRead]
  · intro c1 ss ks s _ _ hfs _
    have := fetchStatesFor_entity_reads r tid
    rw [hfs] at this
    exact this
  · intro c1 ss ks _ _ hfs _
    have := fetchStatesFor_entity_reads r tid
    rw [hfs] at this
    exact this
  · intro c1 ks _ _ hfs
    have := fetchStatesFor_entity_reads r tid
    rw [hfs] at this
    exact this

/-! ### List and collection-fetch helpers -/

/-- First-match characterization of `List.find?`: a found element splits the
list, matches, and everything before it fails the predicate. -/
theorem find_eq_some_split {α : Type} (p : α → Bool) :
    ∀ (l : List α) (x : α), l.find? p = some x →
      ∃ l1 l2, l = l1 ++ x :: l2 ∧ p x = true ∧ ∀ y ∈ l1, p y = false := by
  intro l
  induction l with
  | nil => intro x h; simp at h
  | cons a t ih =>
      intro x h
      by_cases hp : p a
      · rw [List.find?_cons_of_pos _ hp] at h
        obtain rfl : a = x := by simpa using h
        exact ⟨[], t, by simp, hp, by simp⟩
      · rw [List.find?_cons_of_neg _ hp] at h
        obtain ⟨l1, l2, rfl, hx, hall⟩ := ih x h
        refine ⟨a :: l1, l2, rfl, hx, ?_⟩
        intro y hy
        rcases List.mem_cons.1 hy with rfl | hy
        · simpa using hp
        · exact hall y hy

/-- Conversely, a split witness forces `find?` to return exactly that element. -/
theorem find_eq_some_of_split {α : Type} (p : α → Bool) (l1 l2 : List α) (x : α)
    (hx : p x = true) (hall : ∀ y ∈ l1, p y = false) :
    (l1 ++ x :: l2).find? p = some x := by
  induction l1 with
  | nil => simp [List.find?_cons_of_pos _ hx]
  | cons a t ih =>
      have ha : p a = false := hall a (by simp)
      rw [List.cons_append, List.find?_cons_of_neg _ (by simp [ha])]
      exact ih (fun y hy => hall y (List.mem_cons_of_mem a hy))

/-- Every key of `mapSet l k v` is `k` or a key of `l`. -/
theorem mem_keys_mapSet {α : Type} (l : List (String × α)) (k x : String) (v : α)
    (h : x ∈ (mapSet l k v).map Prod.fst) : x = k ∨ x ∈ l.map Prod.fst := by
  induction l with
  | nil =>
      simp only [mapSet, List.map_cons, List.map_nil] at h
      rcases List.mem_cons.1 h with rfl | h2
      · exact Or.inl rfl
      · exact absurd h2 (List.not_mem_nil x)
  | cons hd tl ih =>
      obtain ⟨k0, v0⟩ := hd
      by_cases h0 : k0 = k
      · subst h0
        rw [show mapSet ((k0, v0) :: tl) k0 v = (k0, v) :: tl from by simp [mapSet]] at h
        simp only [List.map_cons] at h ⊢
        rcases List.mem_cons.1 h with rfl | hx
        · exact Or.inl rfl
        · exact Or.inr (List.mem_cons_of_mem _ hx)
      · rw [show mapSet ((k0, v0) :: tl) k v = (k0, v0) :: mapSet tl k v from by
          simp [mapSet, h0]] at h
        simp only [List.map_cons] at h ⊢
        rcases List.mem_cons.1 h with rfl | hx
        · exact Or.inr (List.mem_cons_self _ _)
        · rcases ih hx with rfl | hx2
          · exact Or.inl rfl
          · exact Or.inr (List.mem_cons_of_mem _ hx2)

/-- `Map.set` preserves key uniqueness: at most one value per key. -/
theorem mapSet_keys_nodup {α : Type} {l : List (String × α)}
    (h : (l.map Prod.fst).Nodup) (k : String) (v : α) :
    ((mapSet l k v).map Prod.fst).Nodup := by
  induction l with
  | nil => simp [mapSet]
  | cons hd tl ih =>
      obtain ⟨k0, v0⟩ := hd
      simp only [List.map_cons, List.nodup_cons] at h
      by_cases h0 : k0 = k
      · subst h0
        rw [show mapSet ((k0, v0) :: tl) k0 v = (k0, v) :: tl from by simp [mapSet]]
        simp only [List.map_cons, List.nodup_cons]
        exact ⟨h.1, h.2⟩
      · rw [show mapSet ((k0, v0) :: tl) k v = (k0, v0) :: mapSet tl k v from by
          simp [mapSet, h0]]
        simp only [List.map_cons, List.nodup_cons]
        refine ⟨?_, ih h.2⟩
        intro hx
        rcases mem_keys_mapSet tl k k0 v hx with rfl | hx2
        · exact h0 rfl
        · exact h.1 hx2

/-- `getAllTeams` on a cache miss with a live remote: the mapped collection,
cached under `all_teams`. -/
theorem getAllTeams_miss_some {r : Remote} {c c1 : LinearCache} {now : Nat} {ts : List Team}
    (hg : getCache c now "all_teams" = (none, c1)) (hts : r.allTeams = some ts) :
    getAllTeams r c now =
      (ts, setCache c1 now "all_teams" (CacheVal.teams ts), [RemoteCall.fetchAllTeams]) := by
  simp only [getAllTeams]
  rw [hg, hts]
  have hmap : ts.map (fun t => ({ id := t.id, name := t.name, key := t.key } : Team)) = ts :=
    List.map_id ts
  simp [hmap]

/-- `getAllTeams` on a cache miss with a throwing remote: empty, nothing cached. -/
theorem getAllTeams_miss_err {r : Remote} {c c1 : LinearCache} {now : Nat}
    (hg : getCache c now "all_teams" = (none, c1)) (hts : r.allTeams = none) :
    getAllTeams r c now = ([], c1, [RemoteCall.fetchAllTeams]) := by
  simp only [getAllTeams]
  rw [hg, hts]

/-- Every `getAllTeams` call is an entity-catalog read. -/
theorem getAllTeams_entity_reads (r : Remote) (c : LinearCache) (now : Nat) :
    ∀ k ∈ (getAllTeams r c now).2.2, k.isEntityRead = true := by
  rcases hg : getCache c now "all_teams" with ⟨o, c1⟩
  cases o with
  | some v => simp [getAllTeams, hg, RemoteCall.isEntityRead]
  | none =>
      cases hts : r.allTeams with
      | some ts => simp [getAllTeams, hg, hts, RemoteCall.isEntityRead]
      | none => simp [getAllTeams, hg, hts, RemoteCall.isEntityRead]

/-- Every `getAllUsers` call is an entity-catalog read. -/
theorem getAllUsers_entity_reads (r : Remote) (c : LinearCache) (now : Nat) :
    ∀ k ∈ (getAllUsers r c now).2.2, k.isEntityRead = true := by
  rcases hg : getCache c now "all_users" with ⟨o, c1⟩
  cases o with
  | some v => simp [getAllUsers, hg, RemoteCall.isEntityRead]
  | none =>
      cases hts : r.allUsers with
      | some us => simp [getAllUsers, hg, hts, RemoteCall.isEntityRead]
      | none => simp [getAllUsers, hg, hts, RemoteCall.isEntityRead]

/-- Every `getAllProjects` call is an entity-catalog read. -/
theorem getAllProjects_entity_reads (r : Remote) (c : LinearCache) (now : Nat) :
    ∀ k ∈ (getAllProjects r c now).2.2, k.isEntityRead = true := by
  rcases hg : getCache c now "all_projects" with ⟨o, c1⟩
  cases o with
  | some v => simp [getAllProjects, hg, RemoteCall.isEntityRead]
  | none =>
      cases hts : r.allProjects with
      | some ps => simp [getAllProjects, hg, hts, RemoteCall.isEntityRead]
      | none => simp [getAllProjects, hg, hts, RemoteCall.isEntityRead]

/-- Every `getAllStates` call is an entity-catalog read. -/
theorem getAllStates_entity_reads (r : Remote) (c : LinearCache) (now : Nat) :
    ∀ k ∈ (getAllStates r c now).2.2, k.isEntityRead = true := by
  rcases hg : getCache c now "all_states" with ⟨o, c1⟩
  cases o with
  | some v => simp [getAllStates, hg, RemoteCall.isEntityRead]
  | none =>
      cases hts : r.allStates with
      | some ss => simp [getAllStates, hg, hts, RemoteCall.isEntityRead]
      | none => simp [getAllStates, hg, hts, RemoteCall.isEntityRead]

/-- Every call of the error-message builder is an entity-catalog read. -/
theorem createResolutionError_entity_reads (r : Remote) (c : LinearCache) (now : Nat)
    (et : EntityType) (v : String) :
    ∀ k ∈ (createResolutionError r c now et v).2.2, k.isEntityRead = true := by
  cases et with
  | team =>
      rcases hga : getAllTeams r c now with ⟨ns, c1, ks⟩
      have hnm := getAllTeams_entity_reads r c now
      rw [hga] at hnm
      simpa [createResolutionError, fetchAvailableNames, hga] using hnm
  | user =>
      rcases hga : getAllUsers r c now with ⟨ns, c1, ks⟩
      have hnm := getAllUsers_entity_reads r c now
      rw [hga] at hnm
      simpa [createResolutionError, fetchAvailableNames, hga] using hnm
  | project =>
      rcases hga : getAllProjects r c now with ⟨ns, c1, ks⟩
      have hnm := getAllProjects_entity_reads r c now
      rw [hga] at hnm
      simpa [createResolutionError, fetchAvailableNames, hga] using hnm
  | state =>
      rcases hga : getAllStates r c now with ⟨ns, c1, ks⟩
      have hnm := getAllStates_entity_reads r c now
      rw [hga] at hnm
      simpa [createResolutionError, fetchAvailableNames, hga] using hnm

/-- The message of the error builder is the not-found sentence followed by
the formatting tail over the fetched candidate names. -/
theorem createResolutionError_msg (r : Remote) (c : LinearCache) (now : Nat)
    (et : EntityType) (v : String) :
    (createResolutionError r c now et v).1 =
      notFoundIntro et v ++ resolutionErrorTail et (fetchAvailableNames r c now et).1 := by
  rcases hfa : fetchAvailableNames r c now et with ⟨ns, c1, ks⟩
  simp [createResolutionError, hfa, resolutionErrorMessage]

/-- Every call of `resolveDefaultProject` is an entity-catalog read. -/
theorem resolveDefaultProject_entity_reads (r : Remote) (dpid : Option String)
    (c : LinearCache) (now : Nat) :
    ∀ k ∈ (resolveDefaultProject r dpid c now).2.2, k.isEntityRead = true := by
  rcases dpid with _ | d
  · simp [resolveDefaultProject]
  · simp only [resolveDefaultProject]
    by_cases h : d == ""
    · simp [h]
    · rw [if_neg h]
      exact resolveProject_entity_reads r c now d

/-! ### Claims -/

/-- C1: for every entity kind (team, user, project, state) and every reference
resolved once successfully through the remote (at least one remote call), a
second call to the same resolve operation with the same reference (and, for
states, the same context team id) within the 5-minute TTL window makes zero
remote calls and returns the identical entity record, leaving the cache as is. -/
theorem c1_resolve_cached_within_ttl :
    (∀ (r : Remote) (c : LinearCache) (now : Nat) (ref : String) (t : Team)
        (c1 : LinearCache) (calls : List RemoteCall),
      resolveTeam r c now ref = (some t, c1, calls) → calls ≠ [] →
      ∀ now2, now2 < now + CACHE_TTL → resolveTeam r c1 now2 ref = (some t, c1, [])) ∧
    (∀ (r : Remote) (c : LinearCache) (now : Nat) (ref : String) (u : User)
        (c1 : LinearCache) (calls : List RemoteCall),
      resolveUser r c now ref = (some u, c1, calls) → calls ≠ [] →
      ∀ now2, now2 < now + CACHE_TTL → resolveUser r c1 now2 ref = (some u, c1, [])) ∧
    (∀ (r : Remote) (c : LinearCache) (now : Nat) (ref : String) (p : Project)
        (c1 : LinearCache) (calls : List RemoteCall),
      resolveProject r c now ref = (some p, c1, calls) → calls ≠ [] →
      ∀ now2, now2 < now + CACHE_TTL → resolveProject r c1 now2 ref = (some p, c1, [])) ∧
    (∀ (r : Remote) (c : LinearCache) (now : Nat) (ref : String) (tid : Option String)
        (s : WorkflowState) (c1 : LinearCache) (calls : List RemoteCall),
      resolveState r c now ref tid = (some s, c1, calls) → calls ≠ [] →
      ∀ now2, now2 < now + CACHE_TTL → resolveState r c1 now2 ref tid = (some s, c1, [])) := by
  refine ⟨?_, ?_, ?_, ?_⟩
  · intro r c now ref t c1 calls h hne now2 h2
    exact resolveTeam_cached_roundtrip h hne h2
  · intro r c now ref u c1 calls h hne now2 h2
    exact resolveUser_cached_roundtrip h hne h2
  · intro r c now ref p c1 calls h hne now2 h2
    exact resolveProject_cached_roundtrip h hne h2
  · intro r c now ref tid s c1 calls h hne now2 h2
    exact resolveState_cached_roundtrip h hne h2

/-- Witness for C1: each of the four resolvers, after a cold resolution at
time 0 against the demo catalog, answers the same reference at time 60000
from the cache with zero remote calls. -/
theorem c1_witness :
    resolveTeam demoRemote engCache 60000 "ENG" = (some engTeam, engCache, []) ∧
    resolveUser demoRemote johnCache 60000 "john@example.com" =
      (some johnUser, johnCache, []) ∧
    resolveProject demoRemote apiCache 60000 "api" = (some apiProject, apiCache, []) ∧
    resolveState demoRemote doneCache 60000 "Done" none = (some doneState, doneCache, []) := by
  refine ⟨?_, ?_, ?_, ?_⟩
  · exact c1_resolve_cached_within_ttl.1 demoRemote emptyCache 0 "ENG" engTeam engCache
      [RemoteCall.fetchAllTeams] (by decide) (by decide) 60000 (by decide)
  · exact c1_resolve_cached_within_ttl.2.1 demoRemote emptyCache 0 "john@example.com" johnUser
      johnCache [RemoteCall.fetchAllUsers] (by decide) (by decide) 60000 (by decide)
  · exact c1_resolve_cached_within_ttl.2.2.1 demoRemote emptyCache 0 "api" apiProject
      apiCache [RemoteCall.fetchAllProjects] (by decide) (by decide) 60000 (by decide)
  · exact c1_resolve_cached_within_ttl.2.2.2 demoRemote emptyCache 0 "Done" none doneState
      doneCache [RemoteCall.fetchAllStates] (by decide) (by decide) 60000 (by decide)

/-- C2: cache get/set semantics.  `getCache` returns the stored value exactly
while `now` is strictly before the recorded expiry (leaving the cache
untouched); otherwise it deletes the key from both maps — lazy eviction on
access — and reports absence.  `setCache` unconditionally overwrites,
recording expiry `now + CACHE_TTL`, key uniqueness is preserved (at most one
value per key), a later `set` wins regardless of the previous entry, and a
resolution attempted at or after the recorded expiry consults the remote
catalog again. -/
theorem c2_cache_get_set_semantics :
    (∀ (c : LinearCache) (now : Nat) (key : String) (e : Nat),
      mapGet c.cacheExpiry key = some e → now < e →
      getCache c now key = (mapGet c.cache key, c)) ∧
    (∀ (c : LinearCache) (now : Nat) (key : String) (e : Nat),
      mapGet c.cacheExpiry key = some e → e ≤ now →
      getCache c now key =
        (none, { cache := mapDelete c.cache key, cacheExpiry := mapDelete c.cacheExpiry key })) ∧
    (∀ (c : LinearCache) (now : Nat) (key : String) (v : CacheVal),
      mapGet (setCache c now key v).cache key = some v ∧
      mapGet (setCache c now key v).cacheExpiry key = some (now + CACHE_TTL)) ∧
    (∀ (c : LinearCache) (now : Nat) (key : String) (v : CacheVal),
      (c.cache.map Prod.fst).Nodup → (c.cacheExpiry.map Prod.fst).Nodup →
      ((setCache c now key v).cache.map Prod.fst).Nodup ∧
      ((setCache c now key v).cacheExpiry.map Prod.fst).Nodup) ∧
    (∀ (c : LinearCache) (now : Nat) (key : String) (v : CacheVal) (now2 : Nat),
      now2 < now + CACHE_TTL →
      getCache (setCache c now key v) now2 key = (some v, setCache c now key v)) ∧
    (∀ (r : Remote) (c : LinearCache) (now : Nat) (ref : String) (v : CacheVal) (now2 : Nat),
      now + CACHE_TTL ≤ now2 →
      (resolveTeam r (setCache c now ("team:" ++ ref) v) now2 ref).2.2 ≠ []) := by
  refine ⟨?_, ?_, ?_, ?_, ?_, ?_⟩
  · intro c now key e he hlt
    have hv : isCacheValid c now key = true := by
      simp [isCacheValid, he, hlt]
    exact getCache_fst_of_valid hv
  · intro c now key e he hle
    have hv : isCacheValid c now key = false := by
      simp [isCacheValid, he]
      exact hle
    exact getCache_of_invalid hv
  · intro c now key v
    exact ⟨by simp [setCache, mapGet_mapSet_self], by simp [setCache, mapGet_mapSet_self]⟩
  · intro c now key v h1 h2
    exact ⟨mapSet_keys_nodup h1 key v, mapSet_keys_nodup h2 key (now + CACHE_TTL)⟩
  · intro c now key v now2 h
    exact getCache_setCache_live c key v h
  · intro r c now ref v now2 h
    exact resolveTeam_calls_of_miss (getCache_setCache_dead c ("team:" ++ ref) v h)

/-- Witness for C2 at concrete inputs: the cached team entry of `engCache`
(expiry 300000) is served at time 1000 and evicted at time 300000; an
overwrite of a live entry wins; after expiry the resolver calls the remote. -/
theorem c2_witness :
    getCache engCache 1000 "team:ENG" =
      (mapGet engCache.cache "team:ENG", engCache) ∧
    getCache engCache 300000 "team:ENG" =
      (none,
        { cache := mapDelete engCache.cache "team:ENG"
          cacheExpiry := mapDelete engCache.cacheExpiry "team:ENG" }) ∧
    (mapGet (setCache engCache 7 "team:ENG" (CacheVal.team desTeam)).cache "team:ENG" =
        some (CacheVal.team desTeam) ∧
      mapGet (setCache engCache 7 "team:ENG" (CacheVal.team desTeam)).cacheExpiry "team:ENG" =
        some (7 + CACHE_TTL)) ∧
    ((setCache engCache 7 "team:ENG" (CacheVal.team desTeam)).cache.map Prod.fst).Nodup ∧
    getCache (setCache engCache 7 "team:ENG" (CacheVal.team desTeam)) 8 "team:ENG" =
      (some (CacheVal.team desTeam), setCache engCache 7 "team:ENG" (CacheVal.team desTeam)) ∧
    (resolveTeam downRemote (setCache emptyCache 0 ("team:" ++ "ENG") (CacheVal.team engTeam))
        300000 "ENG").2.2 ≠ [] := by
  refine ⟨?_, ?_, ?_, ?_, ?_, ?_⟩
  · exact c2_cache_get_set_semantics.1 engCache 1000 "team:ENG" 300000 (by decide) (by decide)
  · exact c2_cache_get_set_semantics.2.1 engCache 300000 "team:ENG" 300000
      (by decide) (by decide)
  · exact c2_cache_get_set_semantics.2.2.1 engCache 7 "team:ENG" (CacheVal.team desTeam)
  · exact (c2_cache_get_set_semantics.2.2.2.1 engCache 7 "team:ENG" (CacheVal.team desTeam)
      (by decide) (by decide)).1
  · exact c2_cache_get_set_semantics.2.2.2.2.1 engCache 7 "team:ENG" (CacheVal.team desTeam) 8
      (by decide)
  · exact c2_cache_get_set_semantics.2.2.2.2.2 downRemote emptyCache 0 "ENG"
      (CacheVal.team engTeam) 300000 (by decide)

/-- The team scan predicate in propositional form. -/
theorem teamMatches_iff (ref : String) (t : Team) :
    teamMatches ref t = true ↔
      (jsToLower t.name = jsToLower ref ∨ jsToLower t.key = jsToLower ref) := by
  simp [teamMatches]

/-- The user scan predicate in propositional form. -/
theorem userMatches_iff (ref : String) (u : User) :
    userMatches ref u = true ↔
      (jsToLower u.name = jsToLower ref ∨ jsToLower u.displayName = jsToLower ref ∨
        jsToLower u.email = jsToLower ref) := by
  simp [userMatches, or_assoc]

/-- The project scan predicate in propositional form. -/
theorem projectMatches_iff (ref : String) (p : Project) :
    projectMatches ref p = true ↔ jsToLower p.name = jsToLower ref := by
  simp [projectMatches]

/-- The state scan predicate in propositional form. -/
theorem stateMatches_iff (ref : String) (s : WorkflowState) :
    stateMatches ref s = true ↔ jsToLower s.name = jsToLower ref := by
  simp [stateMatches]

/-- C3: a UUID-shaped reference takes only the direct fetch-by-identifier
path: for every entity kind the resolver performs at most the single
fetch-by-id call (zero on a cache hit) — never a full-collection scan — and
when the identifier fetch fails on a cache miss the resolution returns
absence instead of falling back to a name search. -/
theorem c3_uuid_path_exclusive :
    (∀ (r : Remote) (c : LinearCache) (now : Nat) (ref : String), isUUID ref = true →
      ((resolveTeam r c now ref).2.2 = [] ∨
        (resolveTeam r c now ref).2.2 = [RemoteCall.fetchTeamById ref]) ∧
      ((getCache c now ("team:" ++ ref)).1 = none → r.teamById ref = none →
        (resolveTeam r c now ref).1 = none)) ∧
    (∀ (r : Remote) (c : LinearCache) (now : Nat) (ref : String), isUUID ref = true →
      ((resolveUser r c now ref).2.2 = [] ∨
        (resolveUser r c now ref).2.2 = [RemoteCall.fetchUserById ref]) ∧
      ((getCache c now ("user:" ++ ref)).1 = none → r.userById ref = none →
        (resolveUser r c now ref).1 = none)) ∧
    (∀ (r : Remote) (c : LinearCache) (now : Nat) (ref : String), isUUID ref = true →
      ((resolveProject r c now ref).2.2 = [] ∨
        (resolveProject r c now ref).2.2 = [RemoteCall.fetchProjectById ref]) ∧
      ((getCache c now ("project:" ++ ref)).1 = none → r.projectById ref = none →
        (resolveProject r c now ref).1 = none)) ∧
    (∀ (r : Remote) (c : LinearCache) (now : Nat) (ref : String) (tid : Option String),
      isUUID ref = true →
      ((resolveState r c now ref tid).2.2 = [] ∨
        (resolveState r c now ref tid).2.2 = [RemoteCall.fetchStateById ref]) ∧
      ((getCache c now (stateCacheKey ref tid)).1 = none → r.stateById ref = none →
        (resolveState r c now ref tid).1 = none)) := by
  refine ⟨?_, ?_, ?_, ?_⟩
  · intro r c now ref hu
    apply resolveTeam_rec r c now ref
      (motive := fun out =>
        (out.2.2 = [] ∨ out.2.2 = [RemoteCall.fetchTeamById ref]) ∧
        ((getCache c now ("team:" ++ ref)).1 = none → r.teamById ref = none → out.1 = none))
    · intro v c1 hg
      refine ⟨Or.inl rfl, ?_⟩
      intro hmiss _
      rw [hg] at hmiss
      simp at hmiss
    · intro c1 t _ _ ht
      refine ⟨Or.inr rfl, ?_⟩
      intro _ hnone
      rw [ht] at hnone
      exact absurd hnone (by simp)
    · intro c1 _ _ _
      exact ⟨Or.inr rfl, fun _ _ => rfl⟩
    · intro c1 ts t _ hfalse _ _
      rw [hu] at hfalse
      exact absurd hfalse (by simp)
    · intro c1 ts _ hfalse _ _
      rw [hu] at hfalse
      exact absurd hfalse (by simp)
    · intro c1 _ hfalse _
      rw [hu] at hfalse
      exact absurd hfalse (by simp)
  · intro r c now ref hu
    apply resolveUser_rec r c now ref
      (motive := fun out =>
        (out.2.2 = [] ∨ out.2.2 = [RemoteCall.fetchUserById ref]) ∧
        ((getCache c now ("user:" ++ ref)).1 = none → r.userById ref = none → out.1 = none))
    · intro v c1 hg
      refine ⟨Or.inl rfl, ?_⟩
      intro hmiss _
      rw [hg] at hmiss
      simp at hmiss
    · intro c1 u _ _ ht
      refine ⟨Or.inr rfl, ?_⟩
      intro _ hnone
      rw [ht] at hnone
      exact absurd hnone (by simp)
    · intro c1 _ _ _
      exact ⟨Or.inr rfl, fun _ _ => rfl⟩
    · intro c1 us u _ hfalse _ _
      rw [hu] at hfalse
      exact absurd hfalse (by simp)
    · intro c1 us _ hfalse _ _
      rw [hu] at hfalse
      exact absurd hfalse (by simp)
    · intro c1 _ hfalse _
      rw [hu] at hfalse
      exact absurd hfalse (by simp)
  · intro r c now ref hu
    apply resolveProject_rec r c now ref
      (motive := fun out =>
        (out.2.2 = [] ∨ out.2.2 = [RemoteCall.fetchProjectById ref]) ∧
        ((getCache c now ("project:" ++ ref)).1 = none → r.projectById ref = none →
          out.1 = none))
    · intro v c1 hg
      refine ⟨Or.inl rfl, ?_⟩
      intro hmiss _
      rw [hg] at hmiss
      simp at hmiss
    · intro c1 p _ _ ht
      refine ⟨Or.inr rfl, ?_⟩
      intro _ hnone
      rw [ht] at hnone
      exact absurd hnone (by simp)
    · intro c1 _ _ _
      exact ⟨Or.inr rfl, fun _ _ => rfl⟩
    · intro c1 ps p _ hfalse _ _
      rw [hu] at hfalse
      exact absurd hfalse (by simp)
    · intro c1 ps _ hfalse _ _
      rw [hu] at hfalse
      exact absurd hfalse (by simp)
    · intro c1 _ hfalse _
      rw [hu] at hfalse
      exact absurd hfalse (by simp)
  · intro r c now ref tid hu
    apply resolveState_rec r c now ref tid
      (motive := fun out =>
        (out.2.2 = [] ∨ out.2.2 = [RemoteCall.fetchStateById ref]) ∧
        ((getCache c now (stateCacheKey ref tid)).1 = none → r.stateById ref = none →
          out.1 = none))
    · intro v c1 hg
      refine ⟨Or.inl rfl, ?_⟩
      intro hmiss _
      rw [hg] at hmiss
      simp at hmiss
    · intro c1 s _ _ hs
      refine ⟨Or.inr rfl, ?_⟩
      intro _ hnone
      rw [hs] at hnone
      exact absurd hnone (by simp)
    · intro c1 _ _ _
      exact ⟨Or.inr rfl, fun _ _ => rfl⟩
    · intro c1 ss ks s _ hfalse _ _
      rw [hu] at hfalse
      exact absurd hfalse (by simp)
    · intro c1 ss ks _ hfalse _ _
      rw [hu] at hfalse
      exact absurd hfalse (by simp)
    · intro c1 ks _ hfalse _
      rw [hu] at hfalse
      exact absurd hfalse (by simp)

/-- Witness for C3: on the cold cache, a UUID-shaped reference that the remote
throws on (the down catalog) yields absence with only the direct id fetch
recorded, for each entity kind. -/
theorem c3_witness :
    (((resolveTeam downRemote emptyCache 0 uuidT).2.2 = [] ∨
        (resolveTeam downRemote emptyCache 0 uuidT).2.2 = [RemoteCall.fetchTeamById uuidT]) ∧
      (resolveTeam downRemote emptyCache 0 uuidT).1 = none) ∧
    (((resolveUser downRemote emptyCache 0 uuidU).2.2 = [] ∨
        (resolveUser downRemote emptyCache 0 uuidU).2.2 = [RemoteCall.fetchUserById uuidU]) ∧
      (resolveUser downRemote emptyCache 0 uuidU).1 = none) ∧
    (((resolveProject downRemote emptyCache 0 uuidP).2.2 = [] ∨
        (resolveProject downRemote emptyCache 0 uuidP).2.2 =
          [RemoteCall.fetchProjectById uuidP]) ∧
      (resolveProject downRemote emptyCache 0 uuidP).1 = none) ∧
    (((resolveState downRemote emptyCache 0 uuidS none).2.2 = [] ∨
        (resolveState downRemote emptyCache 0 uuidS none).2.2 =
          [RemoteCall.fetchStateById uuidS]) ∧
      (resolveState downRemote emptyCache 0 uuidS none).1 = none) := by
  refine ⟨?_, ?_, ?_, ?_⟩
  · have h := c3_uuid_path_exclusive.1 downRemote emptyCache 0 uuidT (by decide)
    exact ⟨h.1, h.2 (by decide) (by decide)⟩
  · have h := c3_uuid_path_exclusive.2.1 downRemote emptyCache 0 uuidU (by decide)
    exact ⟨h.1, h.2 (by decide) (by decide)⟩
  · have h := c3_uuid_path_exclusive.2.2.1 downRemote emptyCache 0 uuidP (by decide)
    exact ⟨h.1, h.2 (by decide) (by decide)⟩
  · have h := c3_uuid_path_exclusive.2.2.2 downRemote emptyCache 0 uuidS none (by decide)
    exact ⟨h.1, h.2 (by decide) (by decide)⟩

/-- C4: a non-identifier-shaped reference triggers a full-collection fetch and
returns the first element whose kind-specific fields equal the reference
case-insensitively (team: name or key; user: name, displayName or email;
project: name; state: name); no matching element means absence; and
concretely `"engineering"`, `"Engineering"` and `"ENGINEERING"` all resolve
to the demo catalog's team named `"Engineering"`. -/
theorem c4_name_scan_first_match :
    (∀ (r : Remote) (c : LinearCache) (now : Nat) (ref : String) (ts : List Team),
      isUUID ref = false → (getCache c now ("team:" ++ ref)).1 = none →
      r.allTeams = some ts →
      ((∀ t, (resolveTeam r c now ref).1 = some t →
          ∃ l1 l2, ts = l1 ++ t :: l2 ∧
            (jsToLower t.name = jsToLower ref ∨ jsToLower t.key = jsToLower ref) ∧
            ∀ u ∈ l1, ¬(jsToLower u.name = jsToLower ref ∨ jsToLower u.key = jsToLower ref)) ∧
        ((∀ t ∈ ts, ¬(jsToLower t.name = jsToLower ref ∨ jsToLower t.key = jsToLower ref)) →
          (resolveTeam r c now ref).1 = none))) ∧
    (∀ (r : Remote) (c : LinearCache) (now : Nat) (ref : String) (us : List User),
      isUUID ref = false → (getCache c now ("user:" ++ ref)).1 = none →
      r.allUsers = some us →
      ((∀ u, (resolveUser r c now ref).1 = some u →
          ∃ l1 l2, us = l1 ++ u :: l2 ∧
            (jsToLower u.name = jsToLower ref ∨ jsToLower u.displayName = jsToLower ref ∨
              jsToLower u.email = jsToLower ref) ∧
            ∀ w ∈ l1, ¬(jsToLower w.name = jsToLower ref ∨
              jsToLower w.displayName = jsToLower ref ∨ jsToLower w.email = jsToLower ref)) ∧
        ((∀ u ∈ us, ¬(jsToLower u.name = jsToLower ref ∨
            jsToLower u.displayName = jsToLower ref ∨ jsToLower u.email = jsToLower ref)) →
          (resolveUser r c now ref).1 = none))) ∧
    (∀ (r : Remote) (c : LinearCache) (now : Nat) (ref : String) (ps : List Project),
      isUUID ref = false → (getCache c now ("project:" ++ ref)).1 = none →
      r.allProjects = some ps →
      ((∀ p, (resolveProject r c now ref).1 = some p →
          ∃ l1 l2, ps = l1 ++ p :: l2 ∧ jsToLower p.name = jsToLower ref ∧
            ∀ q ∈ l1, ¬ jsToLower q.name = jsToLower ref) ∧
        ((∀ p ∈ ps, ¬ jsToLower p.name = jsToLower ref) →
          (resolveProject r c now ref).1 = none))) ∧
    (∀ (r : Remote) (c : LinearCache) (now : Nat) (ref : String) (ss : List WorkflowState),
      isUUID ref = false → (getCache c now (stateCacheKey ref none)).1 = none →
      r.allStates = some ss →
      ((∀ s, (resolveState r c now ref none).1 = some s →
          ∃ l1 l2, ss = l1 ++ s :: l2 ∧ jsToLower s.name = jsToLower ref ∧
            ∀ q ∈ l1, ¬ jsToLower q.name = jsToLower ref) ∧
        ((∀ s ∈ ss, ¬ jsToLower s.name = jsToLower ref) →
          (resolveState r c now ref none).1 = none))) ∧
    ((resolveTeam demoRemote emptyCache 0 "engineering").1 = some engTeam ∧
      (resolveTeam demoRemote emptyCache 0 "Engineering").1 = some engTeam ∧
      (resolveTeam demoRemote emptyCache 0 "ENGINEERING").1 = some engTeam) := by
  refine ⟨?_, ?_, ?_, ?_, by decide, by decide, by decide⟩
  · intro r c now ref ts hu hmiss hts
    rcases hg : getCache c now ("team:" ++ ref) with ⟨o, c1⟩
    rw [hg] at hmiss
    simp only at hmiss
    subst hmiss
    constructor
    · intro t hres
      cases hf : ts.find? (teamMatches ref) with
      | some t0 =>
          rw [resolveTeam_miss_found hg hu hts hf] at hres
          have heq : t0 = t := by simpa using hres
          subst heq
          obtain ⟨l1, l2, rfl, hx, hall⟩ := find_eq_some_split _ ts t0 hf
          refine ⟨l1, l2, rfl, (teamMatches_iff ref t0).1 hx, ?_⟩
          intro u hu2 hcontr
          exact absurd ((teamMatches_iff ref u).2 hcontr) (by simp [hall u hu2])
      | none =>
          rw [resolveTeam_miss_notfound hg hu hts hf] at hres
          exact absurd hres (by simp)
    · intro hnone
      have hf : ts.find? (teamMatches ref) = none := by
        rw [List.find?_eq_none]
        intro t ht htm
        exact hnone t ht ((teamMatches_iff ref t).1 htm)
      rw [resolveTeam_miss_notfound hg hu hts hf]
  · intro r c now ref us hu hmiss hts
    rcases hg : getCache c now ("user:" ++ ref) with ⟨o, c1⟩
    rw [hg] at hmiss
    simp only at hmiss
    subst hmiss
    constructor
    · intro u hres
      cases hf : us.find? (userMatches ref) with
      | some u0 =>
          rw [resolveUser_miss_found hg hu hts hf] at hres
          have heq : u0 = u := by simpa using hres
          subst heq
          obtain ⟨l1, l2, rfl, hx, hall⟩ := find_eq_some_split _ us u0 hf
          refine ⟨l1, l2, rfl, (userMatches_iff ref u0).1 hx, ?_⟩
          intro w hw hcontr
          exact absurd ((userMatches_iff ref w).2 hcontr) (by simp [hall w hw])
      | none =>
          rw [resolveUser_miss_notfound hg hu hts hf] at hres
          exact absurd hres (by simp)
    · intro hnone
      have hf : us.find? (userMatches ref) = none := by
        rw [List.find?_eq_none]
        intro u hu2 htm
        exact hnone u hu2 ((userMatches_iff ref u).1 htm)
      rw [resolveUser_miss_notfound hg hu hts hf]
  · intro r c now ref ps hu hmiss hts
    rcases hg : getCache c now ("project:" ++ ref) with ⟨o, c1⟩
    rw [hg] at hmiss
    simp only at hmiss
    subst hmiss
    constructor
    · intro p hres
      cases hf : ps.find? (projectMatches ref) with
      | some p0 =>
          rw [resolveProject_miss_found hg hu hts hf] at hres
          have heq : p0 = p := by simpa using hres
          subst heq
          obtain ⟨l1, l2, rfl, hx, hall⟩ := find_eq_some_split _ ps p0 hf
          refine ⟨l1, l2, rfl, (projectMatches_iff ref p0).1 hx, ?_⟩
          intro q hq hcontr
          exact absurd ((projectMatches_iff ref q).2 hcontr) (by simp [hall q hq])
      | none =>
          rw [resolveProject_miss_notfound hg hu hts hf] at hres
          exact absurd hres (by simp)
    · intro hnone
      have hf : ps.find? (projectMatches ref) = none := by
        rw [List.find?_eq_none]
        intro p hp htm
        exact hnone p hp ((projectMatches_iff ref p).1 htm)
      rw [resolveProject_miss_notfound hg hu hts hf]
  · intro r c now ref ss hu hmiss hts
    have hfs : fetchStatesFor r none = (some ss, [RemoteCall.fetchAllStates]) := by
      rw [fetchStatesFor_global, hts]
    rcases hg : getCache c now (stateCacheKey ref none) with ⟨o, c1⟩
    rw [hg] at hmiss
    simp only at hmiss
    subst hmiss
    constructor
    · intro s hres
      cases hf : ss.find? (stateMatches ref) with
      | some s0 =>
          rw [resolveState_miss_found hg hu hfs hf] at hres
          have heq : s0 = s := by simpa using hres
          subst heq
          obtain ⟨l1, l2, rfl, hx, hall⟩ := find_eq_some_split _ ss s0 hf
          refine ⟨l1, l2, rfl, (stateMatches_iff ref s0).1 hx, ?_⟩
          intro q hq hcontr
          exact absurd ((stateMatches_iff ref q).2 hcontr) (by simp [hall q hq])
      | none =>
          rw [resolveState_miss_notfound hg hu hfs hf] at hres
          exact absurd hres (by simp)
    · intro hnone
      have hf : ss.find? (stateMatches ref) = none := by
        rw [List.find?_eq_none]
        intro s hs htm
        exact hnone s hs ((stateMatches_iff ref s).1 htm)
      rw [resolveState_miss_notfound hg hu hfs hf]

/-- Witness for C4 at concrete inputs: the demo catalog's scans — the first
match split for `"ENG"` against the team list, and absence for an unmatched
name. -/
theorem c4_witness :
    (∃ l1 l2, [engTeam, desTeam] = l1 ++ engTeam :: l2 ∧
      (jsToLower engTeam.name = jsToLower "ENG" ∨ jsToLower engTeam.key = jsToLower "ENG") ∧
      ∀ u ∈ l1, ¬(jsToLower u.name = jsToLower "ENG" ∨ jsToLower u.key = jsToLower "ENG")) ∧
    (resolveTeam demoRemote emptyCache 0 "cursor").1 = none := by
  constructor
  · exact (c4_name_scan_first_match.1 demoRemote emptyCache 0 "ENG" [engTeam, desTeam]
      (by decide) (by decide) (by decide)).1 engTeam (by decide)
  · exact (c4_name_scan_first_match.1 demoRemote emptyCache 0 "cursor" [engTeam, desTeam]
      (by decide) (by decide) (by decide)).2 (by decide)

/-- C5 counterexample: the claim says a provided `contextTeamId` makes
`resolveState` scan only that team's workflow states, fetching the team
first.  But for the provided, non-UUID-shaped context team id
`"Engineering"`, the code falls through to the global collection: the trace
is exactly one `fetchAllStates` call — no team fetch, no team-scoped scan —
and the returned state comes from the global list. -/
theorem c5_counterexample :
    (resolveState demoRemote emptyCache 0 "Done" (some "Engineering")).2.2 =
      [RemoteCall.fetchAllStates] ∧
    (resolveState demoRemote emptyCache 0 "Done" (some "Engineering")).1 = some doneState ∧
    (∀ tid, RemoteCall.fetchTeamById tid ∉
      (resolveState demoRemote emptyCache 0 "Done" (some "Engineering")).2.2) := by
  refine ⟨by decide, by decide, ?_⟩
  intro tid
  have h : (resolveState demoRemote emptyCache 0 "Done" (some "Engineering")).2.2 =
      [RemoteCall.fetchAllStates] := by decide
  rw [h]
  simp

/-- C5 (amended): a non-identifier-shaped state reference is scanned against
the team's workflow states — fetching the team first and never the global
collection — exactly when the provided context team id is non-empty and
UUID-shaped; with the context omitted, or provided but empty or not
UUID-shaped, the scan is over the global collection.  `updateIssue` passes
the existing issue's `teamId` (fetched first) as the context of the supplied
state reference's resolution, so its trace is the issue fetch, the
team-scoped state-resolution calls, and the update call. -/
theorem c5_state_scoping :
    (∀ (r : Remote) (c : LinearCache) (now : Nat) (ref tid : String),
      isUUID ref = false → (!(tid == "") && isUUID tid) = true →
      (getCache c now (stateCacheKey ref (some tid))).1 = none →
      RemoteCall.fetchAllStates ∉ (resolveState r c now ref (some tid)).2.2 ∧
      ((resolveState r c now ref (some tid)).2.2 = [RemoteCall.fetchTeamById tid] ∨
        (resolveState r c now ref (some tid)).2.2 =
          [RemoteCall.fetchTeamById tid, RemoteCall.fetchTeamStates tid]) ∧
      (∀ s, (resolveState r c now ref (some tid)).1 = some s →
        ∃ ss, r.teamStates tid = some ss ∧ s ∈ ss)) ∧
    (∀ (r : Remote) (c : LinearCache) (now : Nat) (ref : String),
      isUUID ref = false → (getCache c now (stateCacheKey ref none)).1 = none →
      (resolveState r c now ref none).2.2 = [RemoteCall.fetchAllStates] ∧
      (∀ s, (resolveState r c now ref none).1 = some s →
        ∃ ss, r.allStates = some ss ∧ s ∈ ss)) ∧
    (∀ (r : Remote) (c : LinearCache) (now : Nat) (ref tid : String),
      isUUID ref = false → (!(tid == "") && isUUID tid) = false →
      (getCache c now (stateCacheKey ref (some tid))).1 = none →
      (resolveState r c now ref (some tid)).2.2 = [RemoteCall.fetchAllStates]) ∧
    (∀ (r : Remote) (c : LinearCache) (now : Nat) (iid : String) (p : UpdateIssueInput)
        (iss : IssueRec) (sref : String) (s : WorkflowState) (c3 : LinearCache)
        (k3 : List RemoteCall),
      validUpdatePayload p = true →
      r.issueById iid = some iss →
      truthy p.assigneeId = false → truthy p.projectId = false →
      p.stateId = some sref → sref ≠ "" →
      resolveState r c now sref (some iss.teamId) = (some s, c3, k3) →
      ∃ inp, (updateIssue r c now iid p).2.2 =
        RemoteCall.fetchIssueById iid :: k3 ++ [RemoteCall.updateIssueCall iid inp]) := by
  refine ⟨?_, ?_, ?_, ?_⟩
  · intro r c now ref tid hu huid hmiss
    rcases hg : getCache c now (stateCacheKey ref (some tid)) with ⟨o, c1⟩
    rw [hg] at hmiss
    simp only at hmiss
    subst hmiss
    cases hteam : r.teamById tid with
    | none =>
        have hfs := fetchStatesFor_team_none huid hteam
        rw [resolveState_miss_scan_err hg hu hfs]
        exact ⟨by simp, Or.inl rfl, by simp⟩
    | some t =>
        have hfs0 := fetchStatesFor_team_some huid hteam
        cases hss : r.teamStates tid with
        | none =>
            have hfs : fetchStatesFor r (some tid) =
                (none, [RemoteCall.fetchTeamById tid, RemoteCall.fetchTeamStates tid]) := by
              rw [hfs0, hss]
            rw [resolveState_miss_scan_err hg hu hfs]
            exact ⟨by simp, Or.inr rfl, by simp⟩
        | some ss =>
            have hfs : fetchStatesFor r (some tid) =
                (some ss, [RemoteCall.fetchTeamById tid, RemoteCall.fetchTeamStates tid]) := by
              rw [hfs0, hss]
            cases hf : ss.find? (stateMatches ref) with
            | some s =>
                rw [resolveState_miss_found hg hu hfs hf]
                refine ⟨by simp, Or.inr rfl, ?_⟩
                intro s2 hs2
                have : s = s2 := by simpa using hs2
                subst this
                exact ⟨ss, rfl, List.mem_of_find?_eq_some hf⟩
            | none =>
                rw [resolveState_miss_notfound hg hu hfs hf]
                exact ⟨by simp, Or.inr rfl, by simp⟩
  · intro r c now ref hu hmiss
    rcases hg : getCache c now (stateCacheKey ref none) with ⟨o, c1⟩
    rw [hg] at hmiss
    simp only at hmiss
    subst hmiss
    cases hss : r.allStates with
    | none =>
        have hfs : fetchStatesFor r none = (none, [RemoteCall.fetchAllStates]) := by
          rw [fetchStatesFor_global, hss]
        rw [resolveState_miss_scan_err hg hu hfs]
        exact ⟨rfl, by simp⟩
    | some ss =>
        have hfs : fetchStatesFor r none = (some ss, [RemoteCall.fetchAllStates]) := by
          rw [fetchStatesFor_global, hss]
        cases hf : ss.find? (stateMatches ref) with
        | some s =>
            rw [resolveState_miss_found hg hu hfs hf]
            refine ⟨rfl, ?_⟩
            intro s2 hs2
            have : s = s2 := by simpa using hs2
            subst this
            exact ⟨ss, rfl, List.mem_of_find?_eq_some hf⟩
        | none =>
            rw [resolveState_miss_notfound hg hu hfs hf]
            exact ⟨rfl, by simp⟩
  · intro r c now ref tid hu huid hmiss
    rcases hg : getCache c now (stateCacheKey ref (some tid)) with ⟨o, c1⟩
    rw [hg] at hmiss
    simp only at hmiss
    subst hmiss
    cases hss : r.allStates with
    | none =>
        have hfs : fetchStatesFor r (some tid) = (none, [RemoteCall.fetchAllStates]) := by
          rw [fetchStatesFor_not_uuid huid, hss]
        rw [resolveState_miss_scan_err hg hu hfs]
    | some ss =>
        have hfs : fetchStatesFor r (some tid) = (some ss, [RemoteCall.fetchAllStates]) := by
          rw [fetchStatesFor_not_uuid huid, hss]
        cases hf : ss.find? (stateMatches ref) with
        | some s =>
            rw [resolveState_miss_found hg hu hfs hf]
        | none =>
            rw [resolveState_miss_notfound hg hu hfs hf]
  · intro r c now iid p iss sref s c3 k3 hvalid hiss hA hP hsid hsref hst
    have htr : truthy p.stateId = true := by
      rw [hsid]
      simp [truthy, hsref]
    have hget : p.stateId.getD "" = sref := by rw [hsid]; rfl
    refine ⟨{ title := p.title, description := p.description
              assigneeId := none, priority := p.priority
              labelIds := filterLabelIds p.labelIds
              projectId := none, stateId := some s.id }, ?_⟩
    simp only [updateIssue, hvalid, hiss, hA, hP, htr, hget, Bool.false_eq_true, if_false,
      if_true, ite_true, ite_false]
    rw [hst]
    simp only [Bool.false_and, Bool.true_and, if_false]
    split <;> simp_all
    split <;> rfl

/-- Witness for C5 (amended) at concrete inputs: a UUID-shaped context team
yields the two team-scoped calls and a state from the team's list; an omitted
context scans globally; `updateIssue` of the demo issue with a state name
produces the issue fetch, the team-scoped resolution calls, and the update. -/
theorem c5_witness :
    RemoteCall.fetchAllStates ∉ (resolveState demoRemote emptyCache 0 "Todo" (some uuidT)).2.2 ∧
    ((resolveState demoRemote emptyCache 0 "Todo" (some uuidT)).2.2 =
        [RemoteCall.fetchTeamById uuidT] ∨
      (resolveState demoRemote emptyCache 0 "Todo" (some uuidT)).2.2 =
        [RemoteCall.fetchTeamById uuidT, RemoteCall.fetchTeamStates uuidT]) ∧
    (∀ s, (resolveState demoRemote emptyCache 0 "Todo" (some uuidT)).1 = some s →
      ∃ ss, demoRemote.teamStates uuidT = some ss ∧ s ∈ ss) ∧
    (resolveState demoRemote emptyCache 0 "Done" none).2.2 = [RemoteCall.fetchAllStates] ∧
    (∃ inp, (updateIssue demoRemote emptyCache 0 "i1" todoPayload).2.2 =
      RemoteCall.fetchIssueById "i1" ::
        [RemoteCall.fetchTeamById uuidT, RemoteCall.fetchTeamStates uuidT] ++
        [RemoteCall.updateIssueCall "i1" inp]) := by
  have h1 := c5_state_scoping.1 demoRemote emptyCache 0 "Todo" uuidT
    (by decide) (by decide) (by decide)
  refine ⟨h1.1, h1.2.1, h1.2.2, ?_, ?_⟩
  · exact (c5_state_scoping.2.1 demoRemote emptyCache 0 "Done" (by decide) (by decide)).1
  · exact c5_state_scoping.2.2.2 demoRemote emptyCache 0 "i1" todoPayload demoIssue "Todo"
      todoState todoCacheT [RemoteCall.fetchTeamById uuidT, RemoteCall.fetchTeamStates uuidT]
      (by decide) (by decide) (by decide) (by decide) rfl (by decide) (by decide)

/-- Trace shape of `searchIssues`: either every call is an entity-catalog
read (the error paths), or the trace is entity reads followed by exactly one
remote issues query whose filter carries no description condition and whose
title condition is the query exactly when a truthy query was supplied. -/
theorem searchIssues_trace (r : Remote) (c : LinearCache) (now : Nat) (p : SearchIssuesInput) :
    (∀ k ∈ (searchIssues r c now p).2.2, k.isEntityRead = true) ∨
    (∃ ks f n, (searchIssues r c now p).2.2 = ks ++ [RemoteCall.queryIssues f n] ∧
      (∀ k ∈ ks, k.isEntityRead = true) ∧ f.description = none ∧
      f.title = (if truthy p.query then p.query else none)) := by
  by_cases hv : validSearchPayload p = true
  · simp only [searchIssues, hv, Bool.false_eq_true, if_false, if_true, ite_true, ite_false]
    rcases hT : (if truthy p.teamId then resolveTeam r c now (p.teamId.getD "")
        else ((none : Option Team), c, ([] : List RemoteCall))) with ⟨team, c1, k1⟩
    have hTr : ∀ k ∈ k1, k.isEntityRead = true := by
      rw [show k1 = (if truthy p.teamId then resolveTeam r c now (p.teamId.getD "")
          else ((none : Option Team), c, ([] : List RemoteCall))).2.2 from by rw [hT]]
      by_cases ht : truthy p.teamId
      · rw [if_pos ht]
        exact resolveTeam_entity_reads r c now _
      · rw [if_neg ht]
        simp
    dsimp only
    rcases hA : (if truthy p.assigneeId then resolveUser r c1 now (p.assigneeId.getD "")
        else ((none : Option User), c1, ([] : List RemoteCall))) with ⟨assignee, c2, k2⟩
    have hAr : ∀ k ∈ k2, k.isEntityRead = true := by
      rw [show k2 = (if truthy p.assigneeId then resolveUser r c1 now (p.assigneeId.getD "")
          else ((none : Option User), c1, ([] : List RemoteCall))).2.2 from by rw [hA]]
      by_cases ht : truthy p.assigneeId
      · rw [if_pos ht]
        exact resolveUser_entity_reads r c1 now _
      · rw [if_neg ht]
        simp
    dsimp only
    rcases hP : (if truthy p.projectId then resolveProject r c2 now (p.projectId.getD "")
        else ((none : Option Project), c2, ([] : List RemoteCall))) with ⟨project, c3, k3⟩
    have hPr : ∀ k ∈ k3, k.isEntityRead = true := by
      rw [show k3 = (if truthy p.projectId then resolveProject r c2 now (p.projectId.getD "")
          else ((none : Option Project), c2, ([] : List RemoteCall))).2.2 from by rw [hP]]
      by_cases ht : truthy p.projectId
      · rw [if_pos ht]
        exact resolveProject_entity_reads r c2 now _
      · rw [if_neg ht]
        simp
    dsimp only
    rcases hS : (if truthy p.stateId then resolveState r c3 now (p.stateId.getD "") none
        else ((none : Option WorkflowState), c3, ([] : List RemoteCall))) with ⟨state, c4, k4⟩
    have hSr : ∀ k ∈ k4, k.isEntityRead = true := by
      rw [show k4 = (if truthy p.stateId then resolveState r c3 now (p.stateId.getD "") none
          else ((none : Option WorkflowState), c3, ([] : List RemoteCall))).2.2 from by
        rw [hS]]
      by_cases ht : truthy p.stateId
      · rw [if_pos ht]
        exact resolveState_entity_reads r c3 now _ none
      · rw [if_neg ht]
        simp
    dsimp only
    have hcat : ∀ k ∈ k1 ++ k2 ++ k3 ++ k4, k.isEntityRead = true := by
      intro k hk
      rcases List.mem_append.1 hk with hk | hk
      · rcases List.mem_append.1 hk with hk | hk
        · rcases List.mem_append.1 hk with hk | hk
          · exact hTr k hk
          · exact hAr k hk
        · exact hPr k hk
      · exact hSr k hk
    by_cases e1 : (team.isNone && truthy p.teamId) = true
    · rw [if_pos e1]
      left
      intro k hk
      rcases List.mem_append.1 hk with hk | hk
      · exact hcat k hk
      · exact createResolutionError_entity_reads r c4 now EntityType.team (p.teamId.getD "") k hk
    · rw [if_neg e1]
      by_cases e2 : (assignee.isNone && truthy p.assigneeId) = true
      · rw [if_pos e2]
        left
        intro k hk
        rcases List.mem_append.1 hk with hk | hk
        · exact hcat k hk
        · exact createResolutionError_entity_reads r c4 now EntityType.user
            (p.assigneeId.getD "") k hk
      · rw [if_neg e2]
        by_cases e3 : (project.isNone && truthy p.projectId) = true
        · rw [if_pos e3]
          left
          intro k hk
          rcases List.mem_append.1 hk with hk | hk
          · exact hcat k hk
          · exact createResolutionError_entity_reads r c4 now EntityType.project
              (p.projectId.getD "") k hk
        · rw [if_neg e3]
          by_cases e4 : (state.isNone && truthy p.stateId) = true
          · rw [if_pos e4]
            left
            intro k hk
            rcases List.mem_append.1 hk with hk | hk
            · exact hcat k hk
            · exact createResolutionError_entity_reads r c4 now EntityType.state
                (p.stateId.getD "") k hk
          · rw [if_neg e4]
            right
            split
            · exact ⟨k1 ++ k2 ++ k3 ++ k4, _, _, rfl, hcat, rfl, rfl⟩
            · exact ⟨k1 ++ k2 ++ k3 ++ k4, _, _, rfl, hcat, rfl, rfl⟩
  · have hv2 : validSearchPayload p = false := by
      simpa using hv
    left
    simp [searchIssues, hv2]

/-- C6 counterexample: the claim says the filter sent to the remote matches
the text query against both title and description.  For the concrete search
with query `"bug"`, the single remote issues query carries the query as the
title condition only — the filter's description condition is absent, not the
query. -/
theorem c6_counterexample :
    ∃ f n, (searchIssues demoRemote emptyCache 0 { query := some "bug" }).2.2 =
      [RemoteCall.queryIssues f n] ∧ f.title = some "bug" ∧ f.description ≠ some "bug" := by
  exact ⟨{ team := none, assignee := none, project := none, state := none
           title := some "bug", description := none }, 50, by decide, rfl, by decide⟩

/-- C6 (amended): every issues filter `searchIssues` sends to the remote
catalog carries no description condition at all; its title condition is the
text query exactly when a truthy query was supplied (matched
case-insensitively by the remote's `containsIgnoreCase`), and absent
otherwise. -/
theorem c6_search_filter_title_only :
    ∀ (r : Remote) (c : LinearCache) (now : Nat) (p : SearchIssuesInput)
      (f : IssueFilter) (n : Nat),
      RemoteCall.queryIssues f n ∈ (searchIssues r c now p).2.2 →
      f.description = none ∧ f.title = (if truthy p.query then p.query else none) := by
  intro r c now p f n h
  rcases searchIssues_trace r c now p with hall | ⟨ks, f2, n2, htr, hks, hd, ht⟩
  · have := hall _ h
    simp [RemoteCall.isEntityRead] at this
  · rw [htr] at h
    rcases List.mem_append.1 h with hk | hk
    · have := hks _ hk
      simp [RemoteCall.isEntityRead] at this
    · have heq : RemoteCall.queryIssues f n = RemoteCall.queryIssues f2 n2 := by
        simpa using hk
      cases heq
      exact ⟨hd, ht⟩

/-- Witness for C6 (amended): the concrete query-only search sends the filter
with `title = some "bug"` and no description condition. -/
theorem c6_witness :
    ({ team := none, assignee := none, project := none, state := none
       title := some "bug", description := none } : IssueFilter).description = none ∧
    ({ team := none, assignee := none, project := none, state := none
       title := some "bug", description := none } : IssueFilter).title =
      (if truthy (SearchIssuesInput.query { query := some "bug" }) then
        SearchIssuesInput.query { query := some "bug" } else none) := by
  exact c6_search_filter_title_only demoRemote emptyCache 0 { query := some "bug" }
    { team := none, assignee := none, project := none, state := none
      title := some "bug", description := none } 50 (by decide)

/-- Trace shape of `createIssue`: either every call is an entity-catalog read
(the validation and resolution-failure paths), or the trace is entity reads
followed by exactly one remote create call — all resolutions are checked
before any mutating remote call. -/
theorem createIssue_trace (r : Remote) (dpid : Option String) (c : LinearCache) (now : Nat)
    (p : CreateIssueInput) :
    (∀ k ∈ (createIssue r dpid c now p).2.2, k.isEntityRead = true) ∨
    (∃ ks inp, (createIssue r dpid c now p).2.2 = ks ++ [RemoteCall.createIssueCall inp] ∧
      ∀ k ∈ ks, k.isEntityRead = true) := by
  by_cases hv : validCreatePayload p = true
  · simp only [createIssue, hv, Bool.false_eq_true, if_false, if_true, ite_true, ite_false]
    rcases hT : resolveTeam r c now p.teamId with ⟨team, c1, k1⟩
    have hTr : ∀ k ∈ k1, k.isEntityRead = true := by
      rw [show k1 = (resolveTeam r c now p.teamId).2.2 from by rw [hT]]
      exact resolveTeam_entity_reads r c now _
    dsimp only
    rcases hA : (if truthy p.assigneeId then resolveUser r c1 now (p.assigneeId.getD "")
        else ((none : Option User), c1, ([] : List RemoteCall))) with ⟨assignee, c2, k2⟩
    have hAr : ∀ k ∈ k2, k.isEntityRead = true := by
      rw [show k2 = (if truthy p.assigneeId then resolveUser r c1 now (p.assigneeId.getD "")
          else ((none : Option User), c1, ([] : List RemoteCall))).2.2 from by rw [hA]]
      by_cases ht : truthy p.assigneeId
      · rw [if_pos ht]
        exact resolveUser_entity_reads r c1 now _
      · rw [if_neg ht]
        simp
    dsimp only
    rcases hP : (if truthy p.projectId then resolveProject r c2 now (p.projectId.getD "")
        else resolveDefaultProject r dpid c2 now) with ⟨project, c3, k3⟩
    have hPr : ∀ k ∈ k3, k.isEntityRead = true := by
      rw [show k3 = (if truthy p.projectId then resolveProject r c2 now (p.projectId.getD "")
          else resolveDefaultProject r dpid c2 now).2.2 from by rw [hP]]
      by_cases ht : truthy p.projectId
      · rw [if_pos ht]
        exact resolveProject_entity_reads r c2 now _
      · rw [if_neg ht]
        exact resolveDefaultProject_entity_reads r dpid c2 now
    dsimp only
    rcases hS : (if truthy p.stateId then resolveState r c3 now (p.stateId.getD "") none
        else ((none : Option WorkflowState), c3, ([] : List RemoteCall))) with ⟨state, c4, k4⟩
    have hSr : ∀ k ∈ k4, k.isEntityRead = true := by
      rw [show k4 = (if truthy p.stateId then resolveState r c3 now (p.stateId.getD "") none
          else ((none : Option WorkflowState), c3, ([] : List RemoteCall))).2.2 from by
        rw [hS]]
      by_cases ht : truthy p.stateId
      · rw [if_pos ht]
        exact resolveState_entity_reads r c3 now _ none
      · rw [if_neg ht]
        simp
    dsimp only
    have hcat : ∀ k ∈ k1 ++ k2 ++ k3 ++ k4, k.isEntityRead = true := by
      intro k hk
      rcases List.mem_append.1 hk with hk | hk
      · rcases List.mem_append.1 hk with hk | hk
        · rcases List.mem_append.1 hk with hk | hk
          · exact hTr k hk
          · exact hAr k hk
        · exact hPr k hk
      · exact hSr k hk
    cases team with
    | none =>
        dsimp only
        left
        intro k hk
        rcases List.mem_append.1 hk with hk | hk
        · exact hcat k hk
        · exact createResolutionError_entity_reads r c4 now EntityType.team p.teamId k hk
    | some t =>
        dsimp only
        by_cases e1 : (truthy p.assigneeId && assignee.isNone) = true
        · rw [if_pos e1]
          left
          intro k hk
          rcases List.mem_append.1 hk with hk | hk
          · exact hcat k hk
          · exact createResolutionError_entity_reads r c4 now EntityType.user
              (p.assigneeId.getD "") k hk
        · rw [if_neg e1]
          by_cases e2 : (truthy p.projectId && project.isNone) = true
          · rw [if_pos e2]
            left
            intro k hk
            rcases List.mem_append.1 hk with hk | hk
            · exact hcat k hk
            · exact createResolutionError_entity_reads r c4 now EntityType.project
                (p.projectId.getD "") k hk
          · rw [if_neg e2]
            by_cases e3 : (truthy p.stateId && state.isNone) = true
            · rw [if_pos e3]
              left
              intro k hk
              rcases List.mem_append.1 hk with hk | hk
              · exact hcat k hk
              · exact createResolutionError_entity_reads r c4 now EntityType.state
                  (p.stateId.getD "") k hk
            · rw [if_neg e3]
              right
              split
              · exact ⟨k1 ++ k2 ++ k3 ++ k4, _, rfl, hcat⟩
              · exact ⟨k1 ++ k2 ++ k3 ++ k4, _, rfl, hcat⟩
  · have hv2 : validCreatePayload p = false := by simpa using hv
    left
    simp [createIssue, hv2]

/-- Entity-read classification of the assignee branch of `createIssue`. -/
theorem userBranch_entity_reads (r : Remote) (b : Bool) (x : LinearCache) (now : Nat)
    (v : String) :
    ∀ k ∈ (if b = true then resolveUser r x now v
      else ((none : Option User), x, ([] : List RemoteCall))).2.2, k.isEntityRead = true := by
  cases b
  · intro k hk
    rw [if_neg (by simp)] at hk
    simp at hk
  · intro k hk
    rw [if_pos rfl] at hk
    exact resolveUser_entity_reads r x now v k hk

/-- Entity-read classification of the project branch of `createIssue`. -/
theorem projectBranch_entity_reads (r : Remote) (dpid : Option String) (b : Bool)
    (x : LinearCache) (now : Nat) (v : String) :
    ∀ k ∈ (if b = true then resolveProject r x now v
      else resolveDefaultProject r dpid x now).2.2, k.isEntityRead = true := by
  cases b
  · intro k hk
    rw [if_neg (by simp)] at hk
    exact resolveDefaultProject_entity_reads r dpid x now k hk
  · intro k hk
    rw [if_pos rfl] at hk
    exact resolveProject_entity_reads r x now v k hk

/-- Entity-read classification of the state branch of `createIssue`. -/
theorem stateBranch_entity_reads (r : Remote) (b : Bool) (x : LinearCache) (now : Nat)
    (v : String) :
    ∀ k ∈ (if b = true then resolveState r x now v none
      else ((none : Option WorkflowState), x, ([] : List RemoteCall))).2.2,
      k.isEntityRead = true := by
  cases b
  · intro k hk
    rw [if_neg (by simp)] at hk
    simp at hk
  · intro k hk
    rw [if_pos rfl] at hk
    exact resolveState_entity_reads r x now v none k hk

/-- A supplied field whose resolution succeeded fails its `truthy && isNone`
error check. -/
theorem and_isNone_eq_false {α : Type} (b : Bool) (o : Option α)
    (h : b = true → o.isSome = true) : (b && o.isNone) = false := by
  cases b
  · simp
  · have := h rfl
    cases o
    · simp at this
    · simp

/-- C7: when the required team resolution, or a supplied assignee, project or
state resolution, fails, `createIssue` raises the descriptive not-found error
for that entity (the first failing one in the fixed order) and never invokes
the remote create-issue primitive; and whenever the create primitive is
invoked, every remote call before it is an entity-catalog read — all
resolutions are checked before any mutating remote call. -/
theorem c7_create_checks_before_mutation :
    (∀ (r : Remote) (dpid : Option String) (c : LinearCache) (now : Nat)
        (p : CreateIssueInput) (c1 : LinearCache) (k1 : List RemoteCall),
      validCreatePayload p = true →
      resolveTeam r c now p.teamId = (none, c1, k1) →
      (∃ rest, (createIssue r dpid c now p).1 =
        Except.error (notFoundIntro EntityType.team p.teamId ++ rest)) ∧
      (∀ inp, RemoteCall.createIssueCall inp ∉ (createIssue r dpid c now p).2.2)) ∧
    (∀ (r : Remote) (dpid : Option String) (c : LinearCache) (now : Nat)
        (p : CreateIssueInput) (t : Team) (c1 : LinearCache) (k1 : List RemoteCall)
        (c2 : LinearCache) (k2 : List RemoteCall),
      validCreatePayload p = true →
      resolveTeam r c now p.teamId = (some t, c1, k1) →
      truthy p.assigneeId = true →
      resolveUser r c1 now (p.assigneeId.getD "") = (none, c2, k2) →
      (∃ rest, (createIssue r dpid c now p).1 =
        Except.error (notFoundIntro EntityType.user (p.assigneeId.getD "") ++ rest)) ∧
      (∀ inp, RemoteCall.createIssueCall inp ∉ (createIssue r dpid c now p).2.2)) ∧
    (∀ (r : Remote) (dpid : Option String) (c : LinearCache) (now : Nat)
        (p : CreateIssueInput) (t : Team) (c1 : LinearCache) (k1 : List RemoteCall)
        (assignee : Option User) (c2 : LinearCache) (k2 : List RemoteCall)
        (c3 : LinearCache) (k3 : List RemoteCall),
      validCreatePayload p = true →
      resolveTeam r c now p.teamId = (some t, c1, k1) →
      (if truthy p.assigneeId then resolveUser r c1 now (p.assigneeId.getD "")
        else ((none : Option User), c1, ([] : List RemoteCall))) = (assignee, c2, k2) →
      (truthy p.assigneeId = true → assignee.isSome = true) →
      truthy p.projectId = true →
      resolveProject r c2 now (p.projectId.getD "") = (none, c3, k3) →
      (∃ rest, (createIssue r dpid c now p).1 =
        Except.error (notFoundIntro EntityType.project (p.projectId.getD "") ++ rest)) ∧
      (∀ inp, RemoteCall.createIssueCall inp ∉ (createIssue r dpid c now p).2.2)) ∧
    (∀ (r : Remote) (dpid : Option String) (c : LinearCache) (now : Nat)
        (p : CreateIssueInput) (t : Team) (c1 : LinearCache) (k1 : List RemoteCall)
        (assignee : Option User) (c2 : LinearCache) (k2 : List RemoteCall)
        (project : Option Project) (c3 : LinearCache) (k3 : List RemoteCall)
        (c4 : LinearCache) (k4 : List RemoteCall),
      validCreatePayload p = true →
      resolveTeam r c now p.teamId = (some t, c1, k1) →
      (if truthy p.assigneeId then resolveUser r c1 now (p.assigneeId.getD "")
        else ((none : Option User), c1, ([] : List RemoteCall))) = (assignee, c2, k2) →
      (truthy p.assigneeId = true → assignee.isSome = true) →
      (if truthy p.projectId then resolveProject r c2 now (p.projectId.getD "")
        else resolveDefaultProject r dpid c2 now) = (project, c3, k3) →
      (truthy p.projectId = true → project.isSome = true) →
      truthy p.stateId = true →
      resolveState r c3 now (p.stateId.getD "") none = (none, c4, k4) →
      (∃ rest, (createIssue r dpid c now p).1 =
        Except.error (notFoundIntro EntityType.state (p.stateId.getD "") ++ rest)) ∧
      (∀ inp, RemoteCall.createIssueCall inp ∉ (createIssue r dpid c now p).2.2)) ∧
    (∀ (r : Remote) (dpid : Option String) (c : LinearCache) (now : Nat)
        (p : CreateIssueInput) (inp : CreateIssueInput),
      RemoteCall.createIssueCall inp ∈ (createIssue r dpid c now p).2.2 →
      ∃ ks, (createIssue r dpid c now p).2.2 = ks ++ [RemoteCall.createIssueCall inp] ∧
        ∀ k ∈ ks, k.isEntityRead = true) := by
  refine ⟨?_, ?_, ?_, ?_, ?_⟩
  · intro r dpid c now p c1 k1 hv hT
    have hTr : ∀ k ∈ k1, k.isEntityRead = true := by
      rw [show k1 = (resolveTeam r c now p.teamId).2.2 from by rw [hT]]
      exact resolveTeam_entity_reads r c now _
    simp only [createIssue, hv, Bool.false_eq_true, if_false, if_true, ite_true, ite_false]
    rw [hT]
    dsimp only
    constructor
    · rw [createResolutionError_msg]
      exact ⟨_, rfl⟩
    · intro inp hmem
      rcases List.mem_append.1 hmem with hk | hk
      · rcases List.mem_append.1 hk with hk | hk
        · rcases List.mem_append.1 hk with hk | hk
          · rcases List.mem_append.1 hk with hk | hk
            · have := hTr _ hk
              simp [RemoteCall.isEntityRead] at this
            · have := userBranch_entity_reads r (truthy p.assigneeId) c1 now
                (p.assigneeId.getD "") _ hk
              simp [RemoteCall.isEntityRead] at this
          · have := projectBranch_entity_reads r dpid (truthy p.projectId) _ now
              (p.projectId.getD "") _ hk
            simp [RemoteCall.isEntityRead] at this
        · have := stateBranch_entity_reads r (truthy p.stateId) _ now
            (p.stateId.getD "") _ hk
          simp [RemoteCall.isEntityRead] at this
      · have := createResolutionError_entity_reads r _ now EntityType.team p.teamId _ hk
        simp [RemoteCall.isEntityRead] at this
  · intro r dpid c now p t c1 k1 c2 k2 hv hT ha hU
    have hTr : ∀ k ∈ k1, k.isEntityRead = true := by
      rw [show k1 = (resolveTeam r c now p.teamId).2.2 from by rw [hT]]
      exact resolveTeam_entity_reads r c now _
    have hUr : ∀ k ∈ k2, k.isEntityRead = true := by
      rw [show k2 = (resolveUser r c1 now (p.assigneeId.getD "")).2.2 from by rw [hU]]
      exact resolveUser_entity_reads r c1 now _
    simp only [createIssue, hv, Bool.false_eq_true, if_false, if_true, ite_true, ite_false,
      ha]
    rw [hT]
    dsimp only
    rw [hU]
    dsimp only
    simp only [Option.isNone_none, Option.isNone_some, Bool.and_self, Bool.and_true,
      Bool.true_and, Bool.false_and, Bool.and_false, Bool.false_eq_true, eq_self_iff_true,
      if_true, if_false, ite_true, ite_false]
    constructor
    · rw [createResolutionError_msg]
      exact ⟨_, rfl⟩
    · intro inp hmem
      rcases List.mem_append.1 hmem with hk | hk
      · rcases List.mem_append.1 hk with hk | hk
        · rcases List.mem_append.1 hk with hk | hk
          · rcases List.mem_append.1 hk with hk | hk
            · have := hTr _ hk
              simp [RemoteCall.isEntityRead] at this
            · have := hUr _ hk
              simp [RemoteCall.isEntityRead] at this
          · have := projectBranch_entity_reads r dpid (truthy p.projectId) _ now
              (p.projectId.getD "") _ hk
            simp [RemoteCall.isEntityRead] at this
        · have := stateBranch_entity_reads r (truthy p.stateId) _ now
            (p.stateId.getD "") _ hk
          simp [RemoteCall.isEntityRead] at this
      · have := createResolutionError_entity_reads r _ now EntityType.user
          (p.assigneeId.getD "") _ hk
        simp [RemoteCall.isEntityRead] at this
  · intro r dpid c now p t c1 k1 assignee c2 k2 c3 k3 hv hT hA hAok hp hP
    have hTr : ∀ k ∈ k1, k.isEntityRead = true := by
      rw [show k1 = (resolveTeam r c now p.teamId).2.2 from by rw [hT]]
      exact resolveTeam_entity_reads r c now _
    have hAr : ∀ k ∈ k2, k.isEntityRead = true := by
      rw [show k2 = (if truthy p.assigneeId then resolveUser r c1 now (p.assigneeId.getD "")
          else ((none : Option User), c1, ([] : List RemoteCall))).2.2 from by rw [hA]]
      exact userBranch_entity_reads r (truthy p.assigneeId) c1 now _
    have hPr : ∀ k ∈ k3, k.isEntityRead = true := by
      rw [show k3 = (resolveProject r c2 now (p.projectId.getD "")).2.2 from by rw [hP]]
      exact resolveProject_entity_reads r c2 now _
    have he1 : (truthy p.assigneeId && assignee.isNone) = false :=
      and_isNone_eq_false _ _ hAok
    simp only [createIssue, hv, Bool.false_eq_true, if_false, if_true, ite_true, ite_false,
      hp]
    rw [hT]
    dsimp only
    rw [hA]
    dsimp only
    rw [hP]
    dsimp only
    simp only [he1, Option.isNone_none, Option.isNone_some, Bool.and_self, Bool.and_true,
      Bool.true_and, Bool.false_and, Bool.and_false, Bool.false_eq_true, eq_self_iff_true,
      if_true, if_false, ite_true, ite_false]
    constructor
    · rw [createResolutionError_msg]
      exact ⟨_, rfl⟩
    · intro inp hmem
      rcases List.mem_append.1 hmem with hk | hk
      · rcases List.mem_append.1 hk with hk | hk
        · rcases List.mem_append.1 hk with hk | hk
          · rcases List.mem_append.1 hk with hk | hk
            · have := hTr _ hk
              simp [RemoteCall.isEntityRead] at this
            · have := hAr _ hk
              simp [RemoteCall.isEntityRead] at this
          · have := hPr _ hk
            simp [RemoteCall.isEntityRead] at this
        · have := stateBranch_entity_reads r (truthy p.stateId) _ now
            (p.stateId.getD "") _ hk
          simp [RemoteCall.isEntityRead] at this
      · have := createResolutionError_entity_reads r _ now EntityType.project
          (p.projectId.getD "") _ hk
        simp [RemoteCall.isEntityRead] at this
  · intro r dpid c now p t c1 k1 assignee c2 k2 project c3 k3 c4 k4 hv hT hA hAok hP2
      hPok hs hS
    have hTr : ∀ k ∈ k1, k.isEntityRead = true := by
      rw [show k1 = (resolveTeam r c now p.teamId).2.2 from by rw [hT]]
      exact resolveTeam_entity_reads r c now _
    have hAr : ∀ k ∈ k2, k.isEntityRead = true := by
      rw [show k2 = (if truthy p.assigneeId then resolveUser r c1 now (p.assigneeId.getD "")
          else ((none : Option User), c1, ([] : List RemoteCall))).2.2 from by rw [hA]]
      exact userBranch_entity_reads r (truthy p.assigneeId) c1 now _
    have hPr : ∀ k ∈ k3, k.isEntityRead = true := by
      rw [show k3 = (if truthy p.projectId then resolveProject r c2 now (p.projectId.getD "")
          else resolveDefaultProject r dpid c2 now).2.2 from by rw [hP2]]
      exact projectBranch_entity_reads r dpid (truthy p.projectId) c2 now _
    have hSr : ∀ k ∈ k4, k.isEntityRead = true := by
      rw [show k4 = (resolveState r c3 now (p.stateId.getD "") none).2.2 from by rw [hS]]
      exact resolveState_entity_reads r _ now _ none
    have he1 : (truthy p.assigneeId && assignee.isNone) = false :=
      and_isNone_eq_false _ _ hAok
    have he2 : (truthy p.projectId && project.isNone) = false :=
      and_isNone_eq_false _ _ hPok
    simp only [createIssue, hv, Bool.false_eq_true, if_false, if_true, ite_true, ite_false,
      hs]
    rw [hT]
    dsimp only
    rw [hA]
    dsimp only
    rw [hP2]
    dsimp only
    rw [hS]
    dsimp only
    simp only [he1, he2, Option.isNone_none, Option.isNone_some, Bool.and_self,
      Bool.and_true, Bool.true_and, Bool.false_and, Bool.and_false, Bool.false_eq_true,
      eq_self_iff_true, if_true, if_false, ite_true, ite_false]
    constructor
    · rw [createResolutionError_msg]
      exact ⟨_, rfl⟩
    · intro inp hmem
      rcases List.mem_append.1 hmem with hk | hk
      · rcases List.mem_append.1 hk with hk | hk
        · rcases List.mem_append.1 hk with hk | hk
          · rcases List.mem_append.1 hk with hk | hk
            · have := hTr _ hk
              simp [RemoteCall.isEntityRead] at this
            · have := hAr _ hk
              simp [RemoteCall.isEntityRead] at this
          · have := hPr _ hk
            simp [RemoteCall.isEntityRead] at this
        · have := hSr _ hk
          simp [RemoteCall.isEntityRead] at this
      · have := createResolutionError_entity_reads r _ now EntityType.state
          (p.stateId.getD "") _ hk
        simp [RemoteCall.isEntityRead] at this
  · intro r dpid c now p inp hmem
    rcases createIssue_trace r dpid c now p with hall | ⟨ks, inp2, htr, hks⟩
    · have := hall _ hmem
      simp [RemoteCall.isEntityRead] at this
    · rw [htr] at hmem
      rcases List.mem_append.1 hmem with hk | hk
      · have := hks _ hk
        simp [RemoteCall.isEntityRead] at this
      · have heq : RemoteCall.createIssueCall inp = RemoteCall.createIssueCall inp2 := by
          simpa using hk
        cases heq
        exact ⟨ks, htr, hks⟩

/-- Witness for C7: the create with an unresolvable team against the down
catalog yields the descriptive team error and never reaches the create
primitive; a create whose assignee resolves but whose supplied project does
not yields the descriptive project error, again without the create
primitive; a clean create against the demo catalog issues the single
mutating call only after entity-read calls. -/
theorem c7_witness :
    (∃ rest, (createIssue downRemote none emptyCache 0
        { title := "Fix bug", teamId := "NonExistentTeam" }).1 =
      Except.error (notFoundIntro EntityType.team "NonExistentTeam" ++ rest)) ∧
    RemoteCall.createIssueCall { title := "Fix bug", teamId := uuidT } ∉
      (createIssue downRemote none emptyCache 0
        { title := "Fix bug", teamId := "NonExistentTeam" }).2.2 ∧
    (∃ rest, (createIssue demoRemote none emptyCache 0
        { title := "Fix bug", teamId := "ENG", assigneeId := some "john@example.com"
          projectId := some "NoSuchProject" }).1 =
      Except.error (notFoundIntro EntityType.project "NoSuchProject" ++ rest)) ∧
    RemoteCall.createIssueCall { title := "Fix bug", teamId := uuidT } ∉
      (createIssue demoRemote none emptyCache 0
        { title := "Fix bug", teamId := "ENG", assigneeId := some "john@example.com"
          projectId := some "NoSuchProject" }).2.2 ∧
    (∃ ks, (createIssue demoRemote none emptyCache 0
        { title := "Fix bug", teamId := "ENG" }).2.2 =
      ks ++ [RemoteCall.createIssueCall
        { title := "Fix bug", description := none, teamId := uuidT, assigneeId := none
          priority := none, labelIds := none, projectId := none, stateId := none }] ∧
      ∀ k ∈ ks, k.isEntityRead = true) := by
  have h1 := c7_create_checks_before_mutation.1 downRemote none emptyCache 0
    { title := "Fix bug", teamId := "NonExistentTeam" } emptyCache [RemoteCall.fetchAllTeams]
    (by decide) (by decide)
  have h3 := c7_create_checks_before_mutation.2.2.1 demoRemote none emptyCache 0
    { title := "Fix bug", teamId := "ENG", assigneeId := some "john@example.com"
      projectId := some "NoSuchProject" }
    engTeam engCache [RemoteCall.fetchAllTeams]
    (some johnUser) (setCache engCache 0 "user:john@example.com" (CacheVal.user johnUser))
    [RemoteCall.fetchAllUsers]
    (setCache engCache 0 "user:john@example.com" (CacheVal.user johnUser))
    [RemoteCall.fetchAllProjects]
    (by decide) (by decide) (by decide) (by decide) (by decide) (by decide)
  refine ⟨h1.1, h1.2 _, h3.1, h3.2 _, ?_⟩
  exact c7_create_checks_before_mutation.2.2.2.2 demoRemote none emptyCache 0
    { title := "Fix bug", teamId := "ENG" }
    { title := "Fix bug", description := none, teamId := uuidT, assigneeId := none
      priority := none, labelIds := none, projectId := none, stateId := none }
    (by decide)

/-- C8: a create whose payload carries no (truthy) project reference resolves
the configured default-project reference and passes the resolved project's
identifier to the remote create call; a create with an explicit project
reference never consults the default — its outcome is independent of the
configured default-project value. -/
theorem c8_default_project_fallback :
    (∀ (r : Remote) (dpid : Option String) (c : LinearCache) (now : Nat)
        (p : CreateIssueInput) (t : Team) (c1 : LinearCache) (k1 : List RemoteCall)
        (assignee : Option User) (c2 : LinearCache) (k2 : List RemoteCall)
        (proj : Project) (c3 : LinearCache) (k3 : List RemoteCall)
        (state : Option WorkflowState) (c4 : LinearCache) (k4 : List RemoteCall),
      validCreatePayload p = true →
      truthy p.projectId = false →
      resolveTeam r c now p.teamId = (some t, c1, k1) →
      (if truthy p.assigneeId then resolveUser r c1 now (p.assigneeId.getD "")
        else ((none : Option User), c1, ([] : List RemoteCall))) = (assignee, c2, k2) →
      (truthy p.assigneeId = true → assignee.isSome = true) →
      resolveDefaultProject r dpid c2 now = (some proj, c3, k3) →
      (if truthy p.stateId then resolveState r c3 now (p.stateId.getD "") none
        else ((none : Option WorkflowState), c3, ([] : List RemoteCall))) = (state, c4, k4) →
      (truthy p.stateId = true → state.isSome = true) →
      ∃ inp, RemoteCall.createIssueCall inp ∈ (createIssue r dpid c now p).2.2 ∧
        inp.projectId = some proj.id) ∧
    (∀ (r : Remote) (dpid dpid2 : Option String) (c : LinearCache) (now : Nat)
        (p : CreateIssueInput),
      truthy p.projectId = true →
      createIssue r dpid c now p = createIssue r dpid2 c now p) := by
  constructor
  · intro r dpid c now p t c1 k1 assignee c2 k2 proj c3 k3 state c4 k4 hv hp hT hA hAok
      hD hS hSok
    have he1 : (truthy p.assigneeId && assignee.isNone) = false :=
      and_isNone_eq_false _ _ hAok
    have he3 : (truthy p.stateId && state.isNone) = false :=
      and_isNone_eq_false _ _ hSok
    simp only [createIssue, hv, hp, Bool.false_eq_true, if_false, if_true,
      ite_true, ite_false]
    rw [hT]
    dsimp only
    rw [hA]
    dsimp only
    rw [hD]
    dsimp only
    rw [hS]
    dsimp only
    simp only [he1, he3, Option.isNone_none, Option.isNone_some, Bool.and_self,
      Bool.and_true, Bool.true_and, Bool.false_and, Bool.and_false, Bool.false_eq_true,
      eq_self_iff_true, if_true, if_false, ite_true, ite_false]
    split
    · exact ⟨_, List.mem_append.2 (Or.inr (List.mem_singleton.2 rfl)), rfl⟩
    · exact ⟨_, List.mem_append.2 (Or.inr (List.mem_singleton.2 rfl)), rfl⟩
  · intro r dpid dpid2 c now p hp
    simp only [createIssue, hp, Bool.false_eq_true, if_false, if_true, ite_true, ite_false,
      eq_self_iff_true]

/-- Witness for C8: creating `"Fix bug"` in team `"ENG"` with an assignee but
no project and default `"API"` sends the create call with the API project's
id; with an explicit project reference the configured default value is
irrelevant. -/
theorem c8_witness :
    (∃ inp, RemoteCall.createIssueCall inp ∈
        (createIssue demoRemote (some "API") emptyCache 0
          { title := "Fix bug", teamId := "ENG", assigneeId := some "John" }).2.2 ∧
      inp.projectId = some apiProject.id) ∧
    createIssue demoRemote (some "API") emptyCache 0
        { title := "Fix bug", teamId := "ENG", projectId := some "API" } =
      createIssue demoRemote none emptyCache 0
        { title := "Fix bug", teamId := "ENG", projectId := some "API" } := by
  constructor
  · exact c8_default_project_fallback.1 demoRemote (some "API") emptyCache 0
      { title := "Fix bug", teamId := "ENG", assigneeId := some "John" }
      engTeam engCache [RemoteCall.fetchAllTeams]
      (some johnUser) (setCache engCache 0 "user:John" (CacheVal.user johnUser))
      [RemoteCall.fetchAllUsers]
      apiProject
      (setCache (setCache engCache 0 "user:John" (CacheVal.user johnUser)) 0
        "project:API" (CacheVal.project apiProject))
      [RemoteCall.fetchAllProjects]
      none
      (setCache (setCache engCache 0 "user:John" (CacheVal.user johnUser)) 0
        "project:API" (CacheVal.project apiProject))
      []
      (by decide) (by decide) (by decide) (by decide) (by decide) (by decide) (by decide)
      (by decide)
  · exact c8_default_project_fallback.2 demoRemote (some "API") none emptyCache 0
      { title := "Fix bug", teamId := "ENG", projectId := some "API" } (by decide)

/-- `getAllUsers` on a cache miss with a live remote. -/
theorem getAllUsers_miss_some {r : Remote} {c c1 : LinearCache} {now : Nat} {us : List User}
    (hg : getCache c now "all_users" = (none, c1)) (hus : r.allUsers = some us) :
    getAllUsers r c now =
      (us, setCache c1 now "all_users" (CacheVal.users us), [RemoteCall.fetchAllUsers]) := by
  simp only [getAllUsers]
  rw [hg, hus]
  have hmap : us.map (fun u =>
      ({ id := u.id, name := u.name, email := u.email, displayName := u.displayName } : User)) =
      us := List.map_id us
  simp [hmap]

/-- `getAllProjects` on a cache miss with a live remote. -/
theorem getAllProjects_miss_some {r : Remote} {c c1 : LinearCache} {now : Nat}
    {ps : List Project}
    (hg : getCache c now "all_projects" = (none, c1)) (hps : r.allProjects = some ps) :
    getAllProjects r c now =
      (ps, setCache c1 now "all_projects" (CacheVal.projects ps),
        [RemoteCall.fetchAllProjects]) := by
  simp only [getAllProjects]
  rw [hg, hps]
  have hmap : ps.map (fun p => ({ id := p.id, name := p.name } : Project)) = ps :=
    List.map_id ps
  simp [hmap]

/-- `getAllStates` on a cache miss with a live remote. -/
theorem getAllStates_miss_some {r : Remote} {c c1 : LinearCache} {now : Nat}
    {ss : List WorkflowState}
    (hg : getCache c now "all_states" = (none, c1)) (hss : r.allStates = some ss) :
    getAllStates r c now =
      (ss, setCache c1 now "all_states" (CacheVal.states ss),
        [RemoteCall.fetchAllStates]) := by
  simp only [getAllStates]
  rw [hg, hss]
  have hmap : ss.map (fun s =>
      ({ id := s.id, name := s.name, type := s.type, color := s.color } : WorkflowState)) =
      ss := List.map_id ss
  simp [hmap]

/-- C9: the not-found-message builder.  For every kind the message opens with
the capitalized kind, the quoted requested value and `not found.`; with no
candidate names (empty or failed catalog fetch) it degrades to the
`Unable to fetch` sentence; with names it lists the first at most 10 joined
by commas and appends `and N more` with `N` the catalog size minus 10 exactly
when the catalog exceeds 10 entries; and for each kind the names come from
the full fetched catalog in its per-kind format.  The builder is a total
function — every remote failure was already collapsed to an empty name list,
so it never throws. -/
theorem c9_not_found_message :
    (∀ v : String, notFoundIntro EntityType.team v = "Team '" ++ v ++ "' not found." ∧
      notFoundIntro EntityType.user v = "User '" ++ v ++ "' not found." ∧
      notFoundIntro EntityType.project v = "Project '" ++ v ++ "' not found." ∧
      notFoundIntro EntityType.state v = "State '" ++ v ++ "' not found.") ∧
    (∀ (et : EntityType) (v : String) (ns : List String),
      (∃ rest, resolutionErrorMessage et v ns = notFoundIntro et v ++ rest) ∧
      (ns = [] → resolutionErrorMessage et v ns =
        notFoundIntro et v ++ (" Unable to fetch available " ++ et.asString ++ "s.")) ∧
      (ns ≠ [] → resolutionErrorMessage et v ns =
        notFoundIntro et v ++ (" Available " ++ et.asString ++ "s: " ++
          String.intercalate ", " (ns.take 10) ++
          (if 10 < ns.length then " and " ++ toString (ns.length - 10) ++ " more" else "")))) ∧
    (∀ (r : Remote) (c : LinearCache) (now : Nat) (et : EntityType) (v : String),
      (fetchAvailableNames r c now et).1 = [] →
      (createResolutionError r c now et v).1 =
        notFoundIntro et v ++ (" Unable to fetch available " ++ et.asString ++ "s.")) ∧
    (∀ (r : Remote) (c : LinearCache) (now : Nat) (v : String) (ts : List Team),
      (getCache c now "all_teams").1 = none → r.allTeams = some ts →
      (createResolutionError r c now EntityType.team v).1 =
        resolutionErrorMessage EntityType.team v
          (ts.map (fun t => t.name ++ " (" ++ t.key ++ ")"))) ∧
    (∀ (r : Remote) (c : LinearCache) (now : Nat) (v : String) (us : List User),
      (getCache c now "all_users").1 = none → r.allUsers = some us →
      (createResolutionError r c now EntityType.user v).1 =
        resolutionErrorMessage EntityType.user v
          (us.map (fun u => u.displayName ++ " (" ++ u.email ++ ")"))) ∧
    (∀ (r : Remote) (c : LinearCache) (now : Nat) (v : String) (ps : List Project),
      (getCache c now "all_projects").1 = none → r.allProjects = some ps →
      (createResolutionError r c now EntityType.project v).1 =
        resolutionErrorMessage EntityType.project v (ps.map (fun p => p.name))) ∧
    (∀ (r : Remote) (c : LinearCache) (now : Nat) (v : String) (ss : List WorkflowState),
      (getCache c now "all_states").1 = none → r.allStates = some ss →
      (createResolutionError r c now EntityType.state v).1 =
        resolutionErrorMessage EntityType.state v (ss.map (fun s => s.name))) := by
  refine ⟨?_, ?_, ?_, ?_, ?_, ?_, ?_⟩
  · intro v
    exact ⟨rfl, rfl, rfl, rfl⟩
  · intro et v ns
    refine ⟨⟨resolutionErrorTail et ns, rfl⟩, ?_, ?_⟩
    · intro h
      subst h
      simp [resolutionErrorMessage, resolutionErrorTail]
    · intro h
      have hlen : 0 < ns.length := List.length_pos.2 h
      simp only [resolutionErrorMessage, resolutionErrorTail, if_pos hlen, gt_iff_lt,
        show 0 < ns.length - 10 ↔ 10 < ns.length from by omega]
  · intro r c now et v h
    rw [createResolutionError_msg, h]
    simp [resolutionErrorTail]
  · intro r c now v ts hg hts
    rcases hget : getCache c now "all_teams" with ⟨o, c1⟩
    rw [hget] at hg
    simp only at hg
    subst hg
    rw [createResolutionError_msg]
    simp only [fetchAvailableNames]
    rw [getAllTeams_miss_some hget hts]
    rfl
  · intro r c now v us hg hus
    rcases hget : getCache c now "all_users" with ⟨o, c1⟩
    rw [hget] at hg
    simp only at hg
    subst hg
    rw [createResolutionError_msg]
    simp only [fetchAvailableNames]
    rw [getAllUsers_miss_some hget hus]
    rfl
  · intro r c now v ps hg hps
    rcases hget : getCache c now "all_projects" with ⟨o, c1⟩
    rw [hget] at hg
    simp only at hg
    subst hg
    rw [createResolutionError_msg]
    simp only [fetchAvailableNames]
    rw [getAllProjects_miss_some hget hps]
    rfl
  · intro r c now v ss hg hss
    rcases hget : getCache c now "all_states" with ⟨o, c1⟩
    rw [hget] at hg
    simp only at hg
    subst hg
    rw [createResolutionError_msg]
    simp only [fetchAvailableNames]
    rw [getAllStates_miss_some hget hss]
    rfl

/-- Witness for C9: a twelve-name catalog lists ten names plus `and 2 more`;
the down catalog degrades to the `Unable to fetch` sentence; the demo
catalog's team names feed the message in `name (key)` format. -/
theorem c9_witness :
    resolutionErrorMessage EntityType.team "X"
        ["a", "b", "c", "d", "e", "f", "g", "h", "i", "j", "k", "l"] =
      notFoundIntro EntityType.team "X" ++
        (" Available " ++ (EntityType.team).asString ++ "s: " ++
          String.intercalate ", "
            ((["a", "b", "c", "d", "e", "f", "g", "h", "i", "j", "k", "l"]).take 10) ++
          (if 10 < (["a", "b", "c", "d", "e", "f", "g", "h", "i", "j", "k", "l"] :
              List String).length then
            " and " ++ toString ((["a", "b", "c", "d", "e", "f", "g", "h", "i", "j", "k", "l"] :
              List String).length - 10) ++ " more"
          else "")) ∧
    (createResolutionError downRemote emptyCache 0 EntityType.team "X").1 =
      notFoundIntro EntityType.team "X" ++
        (" Unable to fetch available " ++ (EntityType.team).asString ++ "s.") ∧
    (createResolutionError demoRemote emptyCache 0 EntityType.team "X").1 =
      resolutionErrorMessage EntityType.team "X"
        ([engTeam, desTeam].map (fun t => t.name ++ " (" ++ t.key ++ ")")) := by
  refine ⟨?_, ?_, ?_⟩
  · exact (c9_not_found_message.2.1 EntityType.team "X"
      ["a", "b", "c", "d", "e", "f", "g", "h", "i", "j", "k", "l"]).2.2 (by decide)
  · exact c9_not_found_message.2.2.1 downRemote emptyCache 0 EntityType.team "X" (by decide)
  · exact c9_not_found_message.2.2.2.1 demoRemote emptyCache 0 "X" [engTeam, desTeam]
      (by decide) (by decide)

/-- C10 counterexample: the claim says a resolution that returns absence
leaves the cache unchanged.  But the initial lookup lazily evicts an expired
entry: resolving `"x"` at time 200 against a down catalog, with an expired
entry for `team:x` (expiry 100) in the cache, fails — and returns a cache
that differs from the input (the entry was deleted). -/
theorem c10_counterexample :
    (resolveTeam downRemote
        ⟨[("team:x", CacheVal.team engTeam)], [("team:x", 100)]⟩ 200 "x").1 = none ∧
    (resolveTeam downRemote
        ⟨[("team:x", CacheVal.team engTeam)], [("team:x", 100)]⟩ 200 "x").2.1 ≠
      ⟨[("team:x", CacheVal.team engTeam)], [("team:x", 100)]⟩ := by
  exact ⟨by decide, by decide⟩

/-- C10 (amended): a cache entry is written only on successful resolution.
When any of the four resolvers returns absence, nothing is written — every
binding of the output cache was already present (the only mutation is the
lazy eviction of an already-expired entry by the initial lookup); a reference
whose remote-consulting resolution failed triggers remote calls again on
every subsequent attempt; and every successful remote-consulting resolution
returns a record obtained from the remote catalog (so every cached value
was previously fetched from it). -/
theorem c10_cache_only_on_success :
    (∀ (r : Remote) (c : LinearCache) (now : Nat) (ref : String) (c1 : LinearCache)
        (calls : List RemoteCall),
      resolveTeam r c now ref = (none, c1, calls) →
      ((∀ k v, mapGet c1.cache k = some v → mapGet c.cache k = some v) ∧
        (∀ k e, mapGet c1.cacheExpiry k = some e → mapGet c.cacheExpiry k = some e)) ∧
      (calls ≠ [] → ∀ (r2 : Remote) (now2 : Nat), (resolveTeam r2 c1 now2 ref).2.2 ≠ [])) ∧
    (∀ (r : Remote) (c : LinearCache) (now : Nat) (ref : String) (t : Team)
        (c1 : LinearCache) (calls : List RemoteCall),
      resolveTeam r c now ref = (some t, c1, calls) → calls ≠ [] →
      r.teamById ref = some t ∨ ∃ ts, r.allTeams = some ts ∧ t ∈ ts) ∧
    (∀ (r : Remote) (c : LinearCache) (now : Nat) (ref : String) (c1 : LinearCache)
        (calls : List RemoteCall),
      resolveUser r c now ref = (none, c1, calls) →
      ((∀ k v, mapGet c1.cache k = some v → mapGet c.cache k = some v) ∧
        (∀ k e, mapGet c1.cacheExpiry k = some e → mapGet c.cacheExpiry k = some e)) ∧
      (calls ≠ [] → ∀ (r2 : Remote) (now2 : Nat), (resolveUser r2 c1 now2 ref).2.2 ≠ [])) ∧
    (∀ (r : Remote) (c : LinearCache) (now : Nat) (ref : String) (u : User)
        (c1 : LinearCache) (calls : List RemoteCall),
      resolveUser r c now ref = (some u, c1, calls) → calls ≠ [] →
      r.userById ref = some u ∨ ∃ us, r.allUsers = some us ∧ u ∈ us) ∧
    (∀ (r : Remote) (c : LinearCache) (now : Nat) (ref : String) (c1 : LinearCache)
        (calls : List RemoteCall),
      resolveProject r c now ref = (none, c1, calls) →
      ((∀ k v, mapGet c1.cache k = some v → mapGet c.cache k = some v) ∧
        (∀ k e, mapGet c1.cacheExpiry k = some e → mapGet c.cacheExpiry k = some e)) ∧
      (calls ≠ [] → ∀ (r2 : Remote) (now2 : Nat), (resolveProject r2 c1 now2 ref).2.2 ≠ [])) ∧
    (∀ (r : Remote) (c : LinearCache) (now : Nat) (ref : String) (p : Project)
        (c1 : LinearCache) (calls : List RemoteCall),
      resolveProject r c now ref = (some p, c1, calls) → calls ≠ [] →
      r.projectById ref = some p ∨ ∃ ps, r.allProjects = some ps ∧ p ∈ ps) ∧
    (∀ (r : Remote) (c : LinearCache) (now : Nat) (ref : String) (tid : Option String)
        (c1 : LinearCache) (calls : List RemoteCall),
      resolveState r c now ref tid = (none, c1, calls) →
      ((∀ k v, mapGet c1.cache k = some v → mapGet c.cache k = some v) ∧
        (∀ k e, mapGet c1.cacheExpiry k = some e → mapGet c.cacheExpiry k = some e)) ∧
      (calls ≠ [] → ∀ (r2 : Remote) (now2 : Nat),
        (resolveState r2 c1 now2 ref tid).2.2 ≠ [])) ∧
    (∀ (r : Remote) (c : LinearCache) (now : Nat) (ref : String) (tid : Option String)
        (s : WorkflowState) (c1 : LinearCache) (calls : List RemoteCall),
      resolveState r c now ref tid = (some s, c1, calls) → calls ≠ [] →
      r.stateById ref = some s ∨ ∃ ss ks, fetchStatesFor r tid = (some ss, ks) ∧ s ∈ ss) := by
  refine ⟨?_, ?_, ?_, ?_, ?_, ?_, ?_, ?_⟩
  · intro r c now ref c1 calls h
    exact ⟨resolveTeam_fail_no_write h,
      fun hne r2 now2 => resolveTeam_remote_again h hne now2⟩
  · intro r c now ref t c1 calls h hne
    exact resolveTeam_success_from_remote h hne
  · intro r c now ref c1 calls h
    exact ⟨resolveUser_fail_no_write h,
      fun hne r2 now2 => resolveUser_remote_again h hne now2⟩
  · intro r c now ref u c1 calls h hne
    exact resolveUser_success_from_remote h hne
  · intro r c now ref c1 calls h
    exact ⟨resolveProject_fail_no_write h,
      fun hne r2 now2 => resolveProject_remote_again h hne now2⟩
  · intro r c now ref p c1 calls h hne
    exact resolveProject_success_from_remote h hne
  · intro r c now ref tid c1 calls h
    exact ⟨resolveState_fail_no_write h,
      fun hne r2 now2 => resolveState_remote_again h hne now2⟩
  · intro r c now ref tid s c1 calls h hne
    exact resolveState_success_from_remote h hne

/-- Witness for C10 (amended): the failed resolution of `"Nope"` against the
down catalog caches nothing, so a retry at a later instant still calls the
remote; and the successful resolution of `"ENG"` returned a member of the
remote team collection. -/
theorem c10_witness :
    resolveTeam downRemote emptyCache 0 "Nope" =
      (none, emptyCache, [RemoteCall.fetchAllTeams]) ∧
    (resolveTeam downRemote emptyCache 5 "Nope").2.2 ≠ [] ∧
    (demoRemote.teamById "ENG" = some engTeam ∨
      ∃ ts, demoRemote.allTeams = some ts ∧ engTeam ∈ ts) := by
  refine ⟨by decide, ?_, ?_⟩
  · exact (c10_cache_only_on_success.1 downRemote emptyCache 0 "Nope" emptyCache
      [RemoteCall.fetchAllTeams] (by decide)).2 (by decide) downRemote 5
  · exact c10_cache_only_on_success.2.1 demoRemote emptyCache 0 "ENG" engTeam engCache
      [RemoteCall.fetchAllTeams] (by decide) (by decide)

end Spellcast
